import Mathlib

/-!
# Scalar-to-vector opcode mapping and vector node factory

A shallow embedding of `src/hotspot/share/opto/vectornode.cpp` (HotSpot C2, panama-vector),
followed by theorems about the embedded functions.

Conventions of the embedding.

* A C++ function that can terminate the VM (`ShouldNotReachHere()`, `fatal(...)`,
  `guarantee(...)`, a failing `assert(...)` in a debug build) returns `Except Abort α`;
  `Except.error` is the process abort, `Except.ok` the returned value.  The statement that
  follows `ShouldNotReachHere()` or `fatal(...)` in the source (`return 0;`, `return NULL;`)
  is then never executed and has no counterpart here.
* `assert` is compiled only into debug builds (macro `ASSERT`).  Every function that contains
  an `assert`, directly or through a callee, takes the build kind as its argument
  `ASSERT : Bool`; theorems hold for both kinds unless they fix one.
* An `int` that holds an opcode is a value of `Opcodes`: one constructor for every enumerator
  the file names, and `Opcodes.raw n` for an `int` that is none of them.
* The headers the file includes (`opcodes.hpp`, `type.hpp`, `node.hpp`, `vectornode.hpp`,
  `matcher.hpp`, `debug.hpp`, `globalDefinitions.hpp`, `powerOfTwo.hpp`) are not among the
  sources at hand; what the file uses of them is declared below, each with a note of its
  origin.
-/

/-- Modelled from the spec: enum `BasicType` of `utilities/globalDefinitions.hpp` (not part of
the sources at hand).  The first eight enumerators are the element types of the data model
(boolean, char, float, double, byte, short, int, long); the others are the non-primitive
kinds that `is_java_primitive` rejects. -/
inductive BasicType
  | T_BOOLEAN | T_CHAR | T_FLOAT | T_DOUBLE | T_BYTE | T_SHORT | T_INT | T_LONG
  | T_OBJECT | T_ARRAY | T_VOID | T_ADDRESS | T_NARROWOOP | T_METADATA | T_NARROWKLASS
  | T_CONFLICT | T_ILLEGAL
  deriving DecidableEq, Repr

/-- Modelled from the spec: `is_java_primitive(t)` of `utilities/globalDefinitions.hpp`,
`T_BOOLEAN <= t && t <= T_LONG`: the element type is one of the eight primitive kinds. -/
def is_java_primitive : BasicType → Bool
  | .T_BOOLEAN | .T_CHAR | .T_FLOAT | .T_DOUBLE
  | .T_BYTE | .T_SHORT | .T_INT | .T_LONG => true
  | _ => false

/-- Modelled from the spec: `is_power_of_2(x)` of `utilities/powerOfTwo.hpp`,
`(x > 0) && ((x & (x - 1)) == 0)`. -/
def is_power_of_2 (x : Nat) : Bool :=
  decide (x > 0) && (x &&& (x - 1)) == 0

/-- Modelled from the spec: an `int` used as an opcode, `enum Opcodes` of `opto/opcodes.hpp`
(generated from `classes.hpp`).  The enumerators are the ones `vectornode.cpp` names, directly
or as the class `XNode` of `Op_X` (the pack classes); their
numeric values are not needed, since the file only switches on them, compares them for
equality and tests `> 0`, and the sentinel for "unsupported" differs from each of them.
`raw n` is the `int` value `n` when `n` is not the value of a listed enumerator; in
particular `raw 0` is the sentinel `0`. -/
inductive Opcodes
  | Op_AddI | Op_AddVB | Op_AddVS | Op_AddVI | Op_AddL | Op_AddVL | Op_AddF | Op_AddVF
  | Op_AddD | Op_AddVD | Op_SubI | Op_SubVB | Op_SubVS | Op_SubVI | Op_SubL | Op_SubVL
  | Op_SubF | Op_SubVF | Op_SubD | Op_SubVD | Op_MulI | Op_MulVB | Op_MulVS | Op_MulVI
  | Op_MulL | Op_MulVL | Op_MulF | Op_MulVF | Op_MulD | Op_MulVD | Op_FmaD | Op_FmaVD | Op_FmaF
  | Op_FmaVF | Op_CMoveF | Op_CMoveVF | Op_CMoveD | Op_CMoveVD | Op_DivF | Op_DivVF | Op_DivD
  | Op_DivVD | Op_AbsI | Op_AbsVB | Op_AbsVS | Op_AbsVI | Op_AbsL | Op_AbsVL | Op_MinI
  | Op_MinV | Op_MinL | Op_MinF | Op_MinD | Op_MaxI | Op_MaxV | Op_MaxL | Op_MaxF | Op_MaxD
  | Op_AbsF | Op_AbsVF | Op_AbsD | Op_AbsVD | Op_NegI | Op_NegVI | Op_NegF | Op_NegVF | Op_NegD
  | Op_NegVD | Op_RoundDoubleMode | Op_RoundDoubleModeV | Op_SqrtF | Op_SqrtVF | Op_SqrtD
  | Op_SqrtVD | Op_PopCountI | Op_PopCountVI | Op_LShiftI | Op_LShiftVB | Op_LShiftVS
  | Op_LShiftVI | Op_LShiftL | Op_LShiftVL | Op_RShiftI | Op_URShiftVB | Op_URShiftVS
  | Op_RShiftVB | Op_RShiftVS | Op_RShiftVI | Op_RShiftL | Op_RShiftVL | Op_URShiftB
  | Op_URShiftS | Op_URShiftI | Op_URShiftVI | Op_URShiftL | Op_URShiftVL | Op_AndI | Op_AndL
  | Op_AndV | Op_OrI | Op_OrL | Op_OrV | Op_XorI | Op_XorL | Op_XorV | Op_LoadB | Op_LoadUB
  | Op_LoadUS | Op_LoadS | Op_LoadI | Op_LoadL | Op_LoadF | Op_LoadD | Op_LoadVector
  | Op_StoreB | Op_StoreC | Op_StoreI | Op_StoreL | Op_StoreF | Op_StoreD | Op_StoreVector
  | Op_MulAddS2I | Op_MulAddVS2VI | Op_ReplicateB | Op_ReplicateS | Op_ReplicateI
  | Op_ReplicateL | Op_ReplicateF | Op_ReplicateD | Op_LShiftCntV | Op_RShiftCntV | Op_LoadP
  | Op_LoadN | Op_StoreP | Op_StoreN | Op_CMoveI | Op_CMoveL | Op_ExtractUB | Op_ExtractB
  | Op_ExtractC | Op_ExtractS | Op_ExtractI | Op_ExtractL | Op_ExtractF | Op_ExtractD
  | Op_AddReductionVI | Op_AddReductionVL | Op_AddReductionVF | Op_AddReductionVD
  | Op_MulReductionVI | Op_MulReductionVL | Op_MulReductionVF | Op_MulReductionVD
  | Op_MinReductionV | Op_MaxReductionV | Op_AndReductionV | Op_OrReductionV | Op_XorReductionV
  | Op_VectorCastB2X | Op_VectorCastS2X | Op_VectorCastI2X | Op_VectorCastL2X
  | Op_VectorCastF2X | Op_VectorCastD2X | Op_VectorReinterpret | Op_VectorBox
  | Op_PackB | Op_PackS | Op_PackI | Op_PackL | Op_PackF | Op_PackD | Op_Pack2L | Op_Pack2D
  | raw (n : Int)
  deriving Repr

/-- The constructor names of `Opcodes`, without the payload of `raw`; used only to decide
equality of opcodes. -/
inductive Opcodes.Tag
  | raw
  | Op_AddI | Op_AddVB | Op_AddVS | Op_AddVI | Op_AddL | Op_AddVL | Op_AddF | Op_AddVF | Op_AddD
  | Op_AddVD | Op_SubI | Op_SubVB | Op_SubVS | Op_SubVI | Op_SubL | Op_SubVL | Op_SubF
  | Op_SubVF | Op_SubD | Op_SubVD | Op_MulI | Op_MulVB | Op_MulVS | Op_MulVI | Op_MulL
  | Op_MulVL | Op_MulF | Op_MulVF | Op_MulD | Op_MulVD | Op_FmaD | Op_FmaVD | Op_FmaF | Op_FmaVF
  | Op_CMoveF | Op_CMoveVF | Op_CMoveD | Op_CMoveVD | Op_DivF | Op_DivVF | Op_DivD | Op_DivVD
  | Op_AbsI | Op_AbsVB | Op_AbsVS | Op_AbsVI | Op_AbsL | Op_AbsVL | Op_MinI | Op_MinV | Op_MinL
  | Op_MinF | Op_MinD | Op_MaxI | Op_MaxV | Op_MaxL | Op_MaxF | Op_MaxD | Op_AbsF | Op_AbsVF
  | Op_AbsD | Op_AbsVD | Op_NegI | Op_NegVI | Op_NegF | Op_NegVF | Op_NegD | Op_NegVD
  | Op_RoundDoubleMode | Op_RoundDoubleModeV | Op_SqrtF | Op_SqrtVF | Op_SqrtD | Op_SqrtVD
  | Op_PopCountI | Op_PopCountVI | Op_LShiftI | Op_LShiftVB | Op_LShiftVS | Op_LShiftVI
  | Op_LShiftL | Op_LShiftVL | Op_RShiftI | Op_URShiftVB | Op_URShiftVS | Op_RShiftVB
  | Op_RShiftVS | Op_RShiftVI | Op_RShiftL | Op_RShiftVL | Op_URShiftB | Op_URShiftS
  | Op_URShiftI | Op_URShiftVI | Op_URShiftL | Op_URShiftVL | Op_AndI | Op_AndL | Op_AndV
  | Op_OrI | Op_OrL | Op_OrV | Op_XorI | Op_XorL | Op_XorV | Op_LoadB | Op_LoadUB | Op_LoadUS
  | Op_LoadS | Op_LoadI | Op_LoadL | Op_LoadF | Op_LoadD | Op_LoadVector | Op_StoreB | Op_StoreC
  | Op_StoreI | Op_StoreL | Op_StoreF | Op_StoreD | Op_StoreVector | Op_MulAddS2I
  | Op_MulAddVS2VI | Op_ReplicateB | Op_ReplicateS | Op_ReplicateI | Op_ReplicateL
  | Op_ReplicateF | Op_ReplicateD | Op_LShiftCntV | Op_RShiftCntV | Op_LoadP | Op_LoadN
  | Op_StoreP | Op_StoreN | Op_CMoveI | Op_CMoveL | Op_ExtractUB | Op_ExtractB | Op_ExtractC
  | Op_ExtractS | Op_ExtractI | Op_ExtractL | Op_ExtractF | Op_ExtractD | Op_AddReductionVI
  | Op_AddReductionVL | Op_AddReductionVF | Op_AddReductionVD | Op_MulReductionVI
  | Op_MulReductionVL | Op_MulReductionVF | Op_MulReductionVD | Op_MinReductionV
  | Op_MaxReductionV | Op_AndReductionV | Op_OrReductionV | Op_XorReductionV | Op_VectorCastB2X
  | Op_VectorCastS2X | Op_VectorCastI2X | Op_VectorCastL2X | Op_VectorCastF2X | Op_VectorCastD2X
  | Op_VectorReinterpret | Op_VectorBox
  | Op_PackB | Op_PackS | Op_PackI | Op_PackL | Op_PackF | Op_PackD | Op_Pack2L | Op_Pack2D
  deriving DecidableEq

/-- The constructor of an opcode. -/
def Opcodes.tag : Opcodes → Opcodes.Tag
  | .raw _ => .raw
  | .Op_AddI => .Op_AddI | .Op_AddVB => .Op_AddVB | .Op_AddVS => .Op_AddVS
  | .Op_AddVI => .Op_AddVI | .Op_AddL => .Op_AddL | .Op_AddVL => .Op_AddVL
  | .Op_AddF => .Op_AddF | .Op_AddVF => .Op_AddVF | .Op_AddD => .Op_AddD
  | .Op_AddVD => .Op_AddVD | .Op_SubI => .Op_SubI | .Op_SubVB => .Op_SubVB
  | .Op_SubVS => .Op_SubVS | .Op_SubVI => .Op_SubVI | .Op_SubL => .Op_SubL
  | .Op_SubVL => .Op_SubVL | .Op_SubF => .Op_SubF | .Op_SubVF => .Op_SubVF
  | .Op_SubD => .Op_SubD | .Op_SubVD => .Op_SubVD | .Op_MulI => .Op_MulI
  | .Op_MulVB => .Op_MulVB | .Op_MulVS => .Op_MulVS | .Op_MulVI => .Op_MulVI
  | .Op_MulL => .Op_MulL | .Op_MulVL => .Op_MulVL | .Op_MulF => .Op_MulF
  | .Op_MulVF => .Op_MulVF | .Op_MulD => .Op_MulD | .Op_MulVD => .Op_MulVD
  | .Op_FmaD => .Op_FmaD | .Op_FmaVD => .Op_FmaVD | .Op_FmaF => .Op_FmaF
  | .Op_FmaVF => .Op_FmaVF | .Op_CMoveF => .Op_CMoveF | .Op_CMoveVF => .Op_CMoveVF
  | .Op_CMoveD => .Op_CMoveD | .Op_CMoveVD => .Op_CMoveVD | .Op_DivF => .Op_DivF
  | .Op_DivVF => .Op_DivVF | .Op_DivD => .Op_DivD | .Op_DivVD => .Op_DivVD
  | .Op_AbsI => .Op_AbsI | .Op_AbsVB => .Op_AbsVB | .Op_AbsVS => .Op_AbsVS
  | .Op_AbsVI => .Op_AbsVI | .Op_AbsL => .Op_AbsL | .Op_AbsVL => .Op_AbsVL
  | .Op_MinI => .Op_MinI | .Op_MinV => .Op_MinV | .Op_MinL => .Op_MinL | .Op_MinF => .Op_MinF
  | .Op_MinD => .Op_MinD | .Op_MaxI => .Op_MaxI | .Op_MaxV => .Op_MaxV | .Op_MaxL => .Op_MaxL
  | .Op_MaxF => .Op_MaxF | .Op_MaxD => .Op_MaxD | .Op_AbsF => .Op_AbsF | .Op_AbsVF => .Op_AbsVF
  | .Op_AbsD => .Op_AbsD | .Op_AbsVD => .Op_AbsVD | .Op_NegI => .Op_NegI
  | .Op_NegVI => .Op_NegVI | .Op_NegF => .Op_NegF | .Op_NegVF => .Op_NegVF
  | .Op_NegD => .Op_NegD | .Op_NegVD => .Op_NegVD | .Op_RoundDoubleMode => .Op_RoundDoubleMode
  | .Op_RoundDoubleModeV => .Op_RoundDoubleModeV | .Op_SqrtF => .Op_SqrtF
  | .Op_SqrtVF => .Op_SqrtVF | .Op_SqrtD => .Op_SqrtD | .Op_SqrtVD => .Op_SqrtVD
  | .Op_PopCountI => .Op_PopCountI | .Op_PopCountVI => .Op_PopCountVI
  | .Op_LShiftI => .Op_LShiftI | .Op_LShiftVB => .Op_LShiftVB | .Op_LShiftVS => .Op_LShiftVS
  | .Op_LShiftVI => .Op_LShiftVI | .Op_LShiftL => .Op_LShiftL | .Op_LShiftVL => .Op_LShiftVL
  | .Op_RShiftI => .Op_RShiftI | .Op_URShiftVB => .Op_URShiftVB | .Op_URShiftVS => .Op_URShiftVS
  | .Op_RShiftVB => .Op_RShiftVB | .Op_RShiftVS => .Op_RShiftVS | .Op_RShiftVI => .Op_RShiftVI
  | .Op_RShiftL => .Op_RShiftL | .Op_RShiftVL => .Op_RShiftVL | .Op_URShiftB => .Op_URShiftB
  | .Op_URShiftS => .Op_URShiftS | .Op_URShiftI => .Op_URShiftI | .Op_URShiftVI => .Op_URShiftVI
  | .Op_URShiftL => .Op_URShiftL | .Op_URShiftVL => .Op_URShiftVL | .Op_AndI => .Op_AndI
  | .Op_AndL => .Op_AndL | .Op_AndV => .Op_AndV | .Op_OrI => .Op_OrI | .Op_OrL => .Op_OrL
  | .Op_OrV => .Op_OrV | .Op_XorI => .Op_XorI | .Op_XorL => .Op_XorL | .Op_XorV => .Op_XorV
  | .Op_LoadB => .Op_LoadB | .Op_LoadUB => .Op_LoadUB | .Op_LoadUS => .Op_LoadUS
  | .Op_LoadS => .Op_LoadS | .Op_LoadI => .Op_LoadI | .Op_LoadL => .Op_LoadL
  | .Op_LoadF => .Op_LoadF | .Op_LoadD => .Op_LoadD | .Op_LoadVector => .Op_LoadVector
  | .Op_StoreB => .Op_StoreB | .Op_StoreC => .Op_StoreC | .Op_StoreI => .Op_StoreI
  | .Op_StoreL => .Op_StoreL | .Op_StoreF => .Op_StoreF | .Op_StoreD => .Op_StoreD
  | .Op_StoreVector => .Op_StoreVector | .Op_MulAddS2I => .Op_MulAddS2I
  | .Op_MulAddVS2VI => .Op_MulAddVS2VI | .Op_ReplicateB => .Op_ReplicateB
  | .Op_ReplicateS => .Op_ReplicateS | .Op_ReplicateI => .Op_ReplicateI
  | .Op_ReplicateL => .Op_ReplicateL | .Op_ReplicateF => .Op_ReplicateF
  | .Op_ReplicateD => .Op_ReplicateD | .Op_LShiftCntV => .Op_LShiftCntV
  | .Op_RShiftCntV => .Op_RShiftCntV | .Op_LoadP => .Op_LoadP | .Op_LoadN => .Op_LoadN
  | .Op_StoreP => .Op_StoreP | .Op_StoreN => .Op_StoreN | .Op_CMoveI => .Op_CMoveI
  | .Op_CMoveL => .Op_CMoveL | .Op_ExtractUB => .Op_ExtractUB | .Op_ExtractB => .Op_ExtractB
  | .Op_ExtractC => .Op_ExtractC | .Op_ExtractS => .Op_ExtractS | .Op_ExtractI => .Op_ExtractI
  | .Op_ExtractL => .Op_ExtractL | .Op_ExtractF => .Op_ExtractF | .Op_ExtractD => .Op_ExtractD
  | .Op_AddReductionVI => .Op_AddReductionVI | .Op_AddReductionVL => .Op_AddReductionVL
  | .Op_AddReductionVF => .Op_AddReductionVF | .Op_AddReductionVD => .Op_AddReductionVD
  | .Op_MulReductionVI => .Op_MulReductionVI | .Op_MulReductionVL => .Op_MulReductionVL
  | .Op_MulReductionVF => .Op_MulReductionVF | .Op_MulReductionVD => .Op_MulReductionVD
  | .Op_MinReductionV => .Op_MinReductionV | .Op_MaxReductionV => .Op_MaxReductionV
  | .Op_AndReductionV => .Op_AndReductionV | .Op_OrReductionV => .Op_OrReductionV
  | .Op_XorReductionV => .Op_XorReductionV | .Op_VectorCastB2X => .Op_VectorCastB2X
  | .Op_VectorCastS2X => .Op_VectorCastS2X | .Op_VectorCastI2X => .Op_VectorCastI2X
  | .Op_VectorCastL2X => .Op_VectorCastL2X | .Op_VectorCastF2X => .Op_VectorCastF2X
  | .Op_VectorCastD2X => .Op_VectorCastD2X | .Op_VectorReinterpret => .Op_VectorReinterpret
  | .Op_VectorBox => .Op_VectorBox
  | .Op_PackB => .Op_PackB | .Op_PackS => .Op_PackS | .Op_PackI => .Op_PackI | .Op_PackL => .Op_PackL
  | .Op_PackF => .Op_PackF | .Op_PackD => .Op_PackD | .Op_Pack2L => .Op_Pack2L | .Op_Pack2D => .Op_Pack2D

/-- The `int` carried by `raw`, and 0 for an enumerator. -/
def Opcodes.rawVal : Opcodes → Int
  | .raw n => n
  | _ => 0

/-- Inverse of `tag` and `rawVal`. -/
def Opcodes.ofTag (t : Opcodes.Tag) (n : Int) : Opcodes :=
  match t with
  | .raw => .raw n
  | .Op_AddI => .Op_AddI | .Op_AddVB => .Op_AddVB | .Op_AddVS => .Op_AddVS
  | .Op_AddVI => .Op_AddVI | .Op_AddL => .Op_AddL | .Op_AddVL => .Op_AddVL
  | .Op_AddF => .Op_AddF | .Op_AddVF => .Op_AddVF | .Op_AddD => .Op_AddD
  | .Op_AddVD => .Op_AddVD | .Op_SubI => .Op_SubI | .Op_SubVB => .Op_SubVB
  | .Op_SubVS => .Op_SubVS | .Op_SubVI => .Op_SubVI | .Op_SubL => .Op_SubL
  | .Op_SubVL => .Op_SubVL | .Op_SubF => .Op_SubF | .Op_SubVF => .Op_SubVF
  | .Op_SubD => .Op_SubD | .Op_SubVD => .Op_SubVD | .Op_MulI => .Op_MulI
  | .Op_MulVB => .Op_MulVB | .Op_MulVS => .Op_MulVS | .Op_MulVI => .Op_MulVI
  | .Op_MulL => .Op_MulL | .Op_MulVL => .Op_MulVL | .Op_MulF => .Op_MulF
  | .Op_MulVF => .Op_MulVF | .Op_MulD => .Op_MulD | .Op_MulVD => .Op_MulVD
  | .Op_FmaD => .Op_FmaD | .Op_FmaVD => .Op_FmaVD | .Op_FmaF => .Op_FmaF
  | .Op_FmaVF => .Op_FmaVF | .Op_CMoveF => .Op_CMoveF | .Op_CMoveVF => .Op_CMoveVF
  | .Op_CMoveD => .Op_CMoveD | .Op_CMoveVD => .Op_CMoveVD | .Op_DivF => .Op_DivF
  | .Op_DivVF => .Op_DivVF | .Op_DivD => .Op_DivD | .Op_DivVD => .Op_DivVD
  | .Op_AbsI => .Op_AbsI | .Op_AbsVB => .Op_AbsVB | .Op_AbsVS => .Op_AbsVS
  | .Op_AbsVI => .Op_AbsVI | .Op_AbsL => .Op_AbsL | .Op_AbsVL => .Op_AbsVL
  | .Op_MinI => .Op_MinI | .Op_MinV => .Op_MinV | .Op_MinL => .Op_MinL | .Op_MinF => .Op_MinF
  | .Op_MinD => .Op_MinD | .Op_MaxI => .Op_MaxI | .Op_MaxV => .Op_MaxV | .Op_MaxL => .Op_MaxL
  | .Op_MaxF => .Op_MaxF | .Op_MaxD => .Op_MaxD | .Op_AbsF => .Op_AbsF | .Op_AbsVF => .Op_AbsVF
  | .Op_AbsD => .Op_AbsD | .Op_AbsVD => .Op_AbsVD | .Op_NegI => .Op_NegI
  | .Op_NegVI => .Op_NegVI | .Op_NegF => .Op_NegF | .Op_NegVF => .Op_NegVF
  | .Op_NegD => .Op_NegD | .Op_NegVD => .Op_NegVD | .Op_RoundDoubleMode => .Op_RoundDoubleMode
  | .Op_RoundDoubleModeV => .Op_RoundDoubleModeV | .Op_SqrtF => .Op_SqrtF
  | .Op_SqrtVF => .Op_SqrtVF | .Op_SqrtD => .Op_SqrtD | .Op_SqrtVD => .Op_SqrtVD
  | .Op_PopCountI => .Op_PopCountI | .Op_PopCountVI => .Op_PopCountVI
  | .Op_LShiftI => .Op_LShiftI | .Op_LShiftVB => .Op_LShiftVB | .Op_LShiftVS => .Op_LShiftVS
  | .Op_LShiftVI => .Op_LShiftVI | .Op_LShiftL => .Op_LShiftL | .Op_LShiftVL => .Op_LShiftVL
  | .Op_RShiftI => .Op_RShiftI | .Op_URShiftVB => .Op_URShiftVB | .Op_URShiftVS => .Op_URShiftVS
  | .Op_RShiftVB => .Op_RShiftVB | .Op_RShiftVS => .Op_RShiftVS | .Op_RShiftVI => .Op_RShiftVI
  | .Op_RShiftL => .Op_RShiftL | .Op_RShiftVL => .Op_RShiftVL | .Op_URShiftB => .Op_URShiftB
  | .Op_URShiftS => .Op_URShiftS | .Op_URShiftI => .Op_URShiftI | .Op_URShiftVI => .Op_URShiftVI
  | .Op_URShiftL => .Op_URShiftL | .Op_URShiftVL => .Op_URShiftVL | .Op_AndI => .Op_AndI
  | .Op_AndL => .Op_AndL | .Op_AndV => .Op_AndV | .Op_OrI => .Op_OrI | .Op_OrL => .Op_OrL
  | .Op_OrV => .Op_OrV | .Op_XorI => .Op_XorI | .Op_XorL => .Op_XorL | .Op_XorV => .Op_XorV
  | .Op_LoadB => .Op_LoadB | .Op_LoadUB => .Op_LoadUB | .Op_LoadUS => .Op_LoadUS
  | .Op_LoadS => .Op_LoadS | .Op_LoadI => .Op_LoadI | .Op_LoadL => .Op_LoadL
  | .Op_LoadF => .Op_LoadF | .Op_LoadD => .Op_LoadD | .Op_LoadVector => .Op_LoadVector
  | .Op_StoreB => .Op_StoreB | .Op_StoreC => .Op_StoreC | .Op_StoreI => .Op_StoreI
  | .Op_StoreL => .Op_StoreL | .Op_StoreF => .Op_StoreF | .Op_StoreD => .Op_StoreD
  | .Op_StoreVector => .Op_StoreVector | .Op_MulAddS2I => .Op_MulAddS2I
  | .Op_MulAddVS2VI => .Op_MulAddVS2VI | .Op_ReplicateB => .Op_ReplicateB
  | .Op_ReplicateS => .Op_ReplicateS | .Op_ReplicateI => .Op_ReplicateI
  | .Op_ReplicateL => .Op_ReplicateL | .Op_ReplicateF => .Op_ReplicateF
  | .Op_ReplicateD => .Op_ReplicateD | .Op_LShiftCntV => .Op_LShiftCntV
  | .Op_RShiftCntV => .Op_RShiftCntV | .Op_LoadP => .Op_LoadP | .Op_LoadN => .Op_LoadN
  | .Op_StoreP => .Op_StoreP | .Op_StoreN => .Op_StoreN | .Op_CMoveI => .Op_CMoveI
  | .Op_CMoveL => .Op_CMoveL | .Op_ExtractUB => .Op_ExtractUB | .Op_ExtractB => .Op_ExtractB
  | .Op_ExtractC => .Op_ExtractC | .Op_ExtractS => .Op_ExtractS | .Op_ExtractI => .Op_ExtractI
  | .Op_ExtractL => .Op_ExtractL | .Op_ExtractF => .Op_ExtractF | .Op_ExtractD => .Op_ExtractD
  | .Op_AddReductionVI => .Op_AddReductionVI | .Op_AddReductionVL => .Op_AddReductionVL
  | .Op_AddReductionVF => .Op_AddReductionVF | .Op_AddReductionVD => .Op_AddReductionVD
  | .Op_MulReductionVI => .Op_MulReductionVI | .Op_MulReductionVL => .Op_MulReductionVL
  | .Op_MulReductionVF => .Op_MulReductionVF | .Op_MulReductionVD => .Op_MulReductionVD
  | .Op_MinReductionV => .Op_MinReductionV | .Op_MaxReductionV => .Op_MaxReductionV
  | .Op_AndReductionV => .Op_AndReductionV | .Op_OrReductionV => .Op_OrReductionV
  | .Op_XorReductionV => .Op_XorReductionV | .Op_VectorCastB2X => .Op_VectorCastB2X
  | .Op_VectorCastS2X => .Op_VectorCastS2X | .Op_VectorCastI2X => .Op_VectorCastI2X
  | .Op_VectorCastL2X => .Op_VectorCastL2X | .Op_VectorCastF2X => .Op_VectorCastF2X
  | .Op_VectorCastD2X => .Op_VectorCastD2X | .Op_VectorReinterpret => .Op_VectorReinterpret
  | .Op_VectorBox => .Op_VectorBox
  | .Op_PackB => .Op_PackB | .Op_PackS => .Op_PackS | .Op_PackI => .Op_PackI | .Op_PackL => .Op_PackL
  | .Op_PackF => .Op_PackF | .Op_PackD => .Op_PackD | .Op_Pack2L => .Op_Pack2L | .Op_Pack2D => .Op_Pack2D

instance : DecidableEq Opcodes := fun a b =>
  have inv : ∀ c : Opcodes, Opcodes.ofTag c.tag c.rawVal = c := fun c => by cases c <;> rfl
  if h : a.tag = b.tag ∧ a.rawVal = b.rawVal then
    isTrue (by rw [← inv a, ← inv b, h.1, h.2])
  else
    isFalse (by rintro rfl; exact h ⟨rfl, rfl⟩)

/-- The sentinel `0` returned for an unimplemented pair. -/
instance : OfNat Opcodes 0 := ⟨Opcodes.raw 0⟩

/-- The test `opc > 0` on an opcode-carrying `int`.  Every listed enumerator is the opcode
of a node class and lies above `_last_machine_leaf` (compare the assertion of
`VectorNode::is_vector_shift`), hence is positive. -/
def Opcodes.gt0 : Opcodes → Bool
  | .raw n => decide (0 < n)
  | _ => true

/-- The ways the VM terminates itself in this file, one per macro of `utilities/debug.hpp`. -/
inductive Abort
  | assert_failed          -- assert(cond, ...) in a debug build
  | guarantee_failed       -- guarantee(cond, ...)
  | should_not_reach_here  -- ShouldNotReachHere()
  | fatal                  -- fatal(...)
  | unimplemented          -- Unimplemented()
  deriving DecidableEq, Repr

/-- The macro `assert(cond, msg)` of `utilities/debug.hpp`, with the build kind taken as the
parameter `ASSERT`: where `ASSERT` is defined (debug build) a failing check terminates the
VM, elsewhere (product build) the check is compiled out. -/
def vm_assert (ASSERT cond : Bool) : Except Abort Unit :=
  if ASSERT && !cond then .error .assert_failed else .ok ()

/-- Modelled from the spec: the macro `guarantee(cond, msg)` of `utilities/debug.hpp`, checked
in every build; a failing check is "immediate, unrecoverable process termination". -/
def guarantee (cond : Bool) : Except Abort Unit :=
  if cond then .ok () else .error .guarantee_failed

/-- The macro `ShouldNotReachHere()` of `utilities/debug.hpp`: reports the error and
terminates the VM, in every build. -/
def ShouldNotReachHere {α : Type} : Except Abort α := .error .should_not_reach_here

/-- Modelled from the spec: the macro `fatal(...)` of `utilities/debug.hpp`, "immediate,
unrecoverable process termination" with a diagnostic, in every build. -/
def fatal {α : Type} : Except Abort α := .error .fatal

namespace VectorNode

/-- The function `int VectorNode::opcode(int sopc, BasicType bt)`: the vector operator for the
specified scalar operation and element type. -/
def opcode (ASSERT : Bool) (sopc : Opcodes) (bt : BasicType) : Except Abort Opcodes :=
  match sopc with
  | .Op_AddI =>
    match bt with
    | .T_BOOLEAN | .T_BYTE => return .Op_AddVB
    | .T_CHAR | .T_SHORT => return .Op_AddVS
    | .T_INT => return .Op_AddVI
    | _ => ShouldNotReachHere
  | .Op_AddL => do vm_assert ASSERT (bt == .T_LONG); return .Op_AddVL
  | .Op_AddF => do vm_assert ASSERT (bt == .T_FLOAT); return .Op_AddVF
  | .Op_AddD => do vm_assert ASSERT (bt == .T_DOUBLE); return .Op_AddVD
  | .Op_SubI =>
    match bt with
    | .T_BOOLEAN | .T_BYTE => return .Op_SubVB
    | .T_CHAR | .T_SHORT => return .Op_SubVS
    | .T_INT => return .Op_SubVI
    | _ => ShouldNotReachHere
  | .Op_SubL => do vm_assert ASSERT (bt == .T_LONG); return .Op_SubVL
  | .Op_SubF => do vm_assert ASSERT (bt == .T_FLOAT); return .Op_SubVF
  | .Op_SubD => do vm_assert ASSERT (bt == .T_DOUBLE); return .Op_SubVD
  | .Op_MulI =>
    match bt with
    | .T_BOOLEAN => return 0
    | .T_BYTE => return .Op_MulVB
    | .T_CHAR | .T_SHORT => return .Op_MulVS
    | .T_INT => return .Op_MulVI
    | _ => ShouldNotReachHere
  | .Op_MulL => do vm_assert ASSERT (bt == .T_LONG); return .Op_MulVL
  | .Op_MulF => do vm_assert ASSERT (bt == .T_FLOAT); return .Op_MulVF
  | .Op_MulD => do vm_assert ASSERT (bt == .T_DOUBLE); return .Op_MulVD
  | .Op_FmaD => do vm_assert ASSERT (bt == .T_DOUBLE); return .Op_FmaVD
  | .Op_FmaF => do vm_assert ASSERT (bt == .T_FLOAT); return .Op_FmaVF
  | .Op_CMoveF => do vm_assert ASSERT (bt == .T_FLOAT); return .Op_CMoveVF
  | .Op_CMoveD => do vm_assert ASSERT (bt == .T_DOUBLE); return .Op_CMoveVD
  | .Op_DivF => do vm_assert ASSERT (bt == .T_FLOAT); return .Op_DivVF
  | .Op_DivD => do vm_assert ASSERT (bt == .T_DOUBLE); return .Op_DivVD
  | .Op_AbsI =>
    match bt with
    | .T_BOOLEAN | .T_CHAR => return 0  -- abs does not make sense for unsigned
    | .T_BYTE => return .Op_AbsVB
    | .T_SHORT => return .Op_AbsVS
    | .T_INT => return .Op_AbsVI
    | _ => ShouldNotReachHere
  | .Op_AbsL => do vm_assert ASSERT (bt == .T_LONG); return .Op_AbsVL
  | .Op_MinI =>
    match bt with
    | .T_BOOLEAN | .T_CHAR => return 0
    | .T_BYTE | .T_SHORT | .T_INT => return .Op_MinV
    | _ => ShouldNotReachHere
  | .Op_MinL => do vm_assert ASSERT (bt == .T_LONG); return .Op_MinV
  | .Op_MinF => do vm_assert ASSERT (bt == .T_FLOAT); return .Op_MinV
  | .Op_MinD => do vm_assert ASSERT (bt == .T_DOUBLE); return .Op_MinV
  | .Op_MaxI =>
    match bt with
    | .T_BOOLEAN | .T_CHAR => return 0
    | .T_BYTE | .T_SHORT | .T_INT => return .Op_MaxV
    | _ => ShouldNotReachHere
  | .Op_MaxL => do vm_assert ASSERT (bt == .T_LONG); return .Op_MaxV
  | .Op_MaxF => do vm_assert ASSERT (bt == .T_FLOAT); return .Op_MaxV
  | .Op_MaxD => do vm_assert ASSERT (bt == .T_DOUBLE); return .Op_MaxV
  | .Op_AbsF => do vm_assert ASSERT (bt == .T_FLOAT); return .Op_AbsVF
  | .Op_AbsD => do vm_assert ASSERT (bt == .T_DOUBLE); return .Op_AbsVD
  | .Op_NegI => do vm_assert ASSERT (bt == .T_INT); return .Op_NegVI
  | .Op_NegF => do vm_assert ASSERT (bt == .T_FLOAT); return .Op_NegVF
  | .Op_NegD => do vm_assert ASSERT (bt == .T_DOUBLE); return .Op_NegVD
  | .Op_RoundDoubleMode => do vm_assert ASSERT (bt == .T_DOUBLE); return .Op_RoundDoubleModeV
  | .Op_SqrtF => do vm_assert ASSERT (bt == .T_FLOAT); return .Op_SqrtVF
  | .Op_SqrtD => do vm_assert ASSERT (bt == .T_DOUBLE); return .Op_SqrtVD
  | .Op_PopCountI =>
    if bt == .T_INT then return .Op_PopCountVI
    -- Unimplemented for subword types since bit count changes
    -- depending on size of lane (and sign bit).
    else return 0
  | .Op_LShiftI =>
    match bt with
    | .T_BOOLEAN | .T_BYTE => return .Op_LShiftVB
    | .T_CHAR | .T_SHORT => return .Op_LShiftVS
    | .T_INT => return .Op_LShiftVI
    | _ => ShouldNotReachHere
  | .Op_LShiftL => do vm_assert ASSERT (bt == .T_LONG); return .Op_LShiftVL
  | .Op_RShiftI =>
    match bt with
    | .T_BOOLEAN => return .Op_URShiftVB  -- boolean is unsigned value
    | .T_CHAR => return .Op_URShiftVS     -- char is unsigned value
    | .T_BYTE => return .Op_RShiftVB
    | .T_SHORT => return .Op_RShiftVS
    | .T_INT => return .Op_RShiftVI
    | _ => ShouldNotReachHere
  | .Op_RShiftL => do vm_assert ASSERT (bt == .T_LONG); return .Op_RShiftVL
  | .Op_URShiftB => do vm_assert ASSERT (bt == .T_BYTE); return .Op_URShiftVB
  | .Op_URShiftS => do vm_assert ASSERT (bt == .T_SHORT); return .Op_URShiftVS
  | .Op_URShiftI =>
    match bt with
    | .T_BOOLEAN => return .Op_URShiftVB
    | .T_CHAR => return .Op_URShiftVS
    | .T_BYTE | .T_SHORT => return 0  -- incorrect Java result for negative data
    | .T_INT => return .Op_URShiftVI
    | _ => ShouldNotReachHere
  | .Op_URShiftL => do vm_assert ASSERT (bt == .T_LONG); return .Op_URShiftVL
  | .Op_AndI | .Op_AndL => return .Op_AndV
  | .Op_OrI | .Op_OrL => return .Op_OrV
  | .Op_XorI | .Op_XorL => return .Op_XorV
  | .Op_LoadB | .Op_LoadUB | .Op_LoadUS | .Op_LoadS
  | .Op_LoadI | .Op_LoadL | .Op_LoadF | .Op_LoadD => return .Op_LoadVector
  | .Op_StoreB | .Op_StoreC | .Op_StoreI
  | .Op_StoreL | .Op_StoreF | .Op_StoreD => return .Op_StoreVector
  | .Op_MulAddS2I => return .Op_MulAddVS2VI
  | _ => return 0  -- Unimplemented

/-- The function `int VectorNode::replicate_opcode(BasicType bt)`. -/
def replicate_opcode (bt : BasicType) : Opcodes :=
  match bt with
  | .T_BOOLEAN | .T_BYTE => .Op_ReplicateB
  | .T_SHORT | .T_CHAR => .Op_ReplicateS
  | .T_INT => .Op_ReplicateI
  | .T_LONG => .Op_ReplicateL
  | .T_FLOAT => .Op_ReplicateF
  | .T_DOUBLE => .Op_ReplicateD
  | _ => 0

end VectorNode

/-- Modelled from the spec: the capability oracle `Matcher` of the current target
(`opto/matcher.hpp` and the architecture description), taken as a parameter: the queries the
file makes, as pure functions. -/
structure Matcher where
  vector_size_supported : BasicType → Nat → Bool
  match_rule_supported_vector : Opcodes → Nat → BasicType → Bool
  match_rule_supported : Opcodes → Bool
  max_vector_size : BasicType → Int

/-- Modelled from the spec: `TypeVect` of `opto/type.hpp`, the vector type
(element type, lane count), compared structurally. -/
structure TypeVect where
  element_basic_type : BasicType
  length : Nat
  deriving DecidableEq, Repr

/-- Modelled from the spec: `TypeVect::make(elem_bt, length)` of `opto/type.cpp`, the vector
type with that element type and lane count. -/
def TypeVect.make (elem_bt : BasicType) (length : Nat) : TypeVect :=
  { element_basic_type := elem_bt, length := length }

/-- Modelled from the spec: an ideal-graph node (`Node*`) as far as the factory determines it:
the opcode tag `Opcode()`, the ordered inputs `in(0), in(1), ...` and, for a vector node, its
vector type.  `NULL` is the null pointer (an absent input). -/
inductive Node
  | NULL
  | mk (Opcode : Opcodes) (in_ : List Node) (vect_type : Option TypeVect)
  deriving Repr

/-- The opcode tag `n->Opcode()`; the sentinel 0 stands in for the null pointer. -/
def Node.Opcode : Node → Opcodes
  | .NULL => 0
  | .mk opc _ _ => opc

/-- The input `n->in(i)`. -/
def Node.in (n : Node) (i : Nat) : Node :=
  match n with
  | .NULL => .NULL
  | .mk _ ins _ => ins.getD i .NULL

/-- The number of inputs `n->req()`. -/
def Node.req : Node → Nat
  | .NULL => 0
  | .mk _ ins _ => ins.length

/-- The vector type `n->vect_type()` of a vector node. -/
def Node.vect_type : Node → Option TypeVect
  | .NULL => none
  | .mk _ _ vt => vt

namespace VectorNode

/-- Modelled from the spec: `new XNode(n1, ..., vt)` for a class `XNode` derived from
`VectorNode` (`opto/vectornode.hpp`): the node whose `Opcode()` is `Op_X` (`classes.cpp`), with
no control input (`in(0) == NULL`), the operands as `in(1), in(2), ...` in the order given, and
vector type `vt`. -/
def new_node (Op_X : Opcodes) (operands : List Node) (vt : TypeVect) : Node :=
  .mk Op_X (.NULL :: operands) (some vt)

/-- The function `bool VectorNode::implemented(int opc, uint vlen, BasicType bt)`: also used to
check if the code generator supports the vector operation. -/
def implemented (M : Matcher) (ASSERT : Bool) (opc : Opcodes) (vlen : Nat) (bt : BasicType) :
    Except Abort Bool :=
  if is_java_primitive bt &&
      decide (vlen > 1) && is_power_of_2 vlen &&
      M.vector_size_supported bt vlen then do
    let vopc ← VectorNode.opcode ASSERT opc bt
    return vopc.gt0 && M.match_rule_supported_vector vopc vlen bt
  else
    return false

/-- The overload `VectorNode::make(int vopc, Node* n1, Node* n2, const TypeVect* vt)`: make a
vector node for binary operation. -/
def make_vopc (vopc : Opcodes) (n1 n2 : Node) (vt : TypeVect) : Except Abort Node := do
  -- This method should not be called for unimplemented vectors.
  guarantee vopc.gt0
  match vopc with
  | .Op_AddVB => return new_node .Op_AddVB [n1, n2] vt
  | .Op_AddVS => return new_node .Op_AddVS [n1, n2] vt
  | .Op_AddVI => return new_node .Op_AddVI [n1, n2] vt
  | .Op_AddVL => return new_node .Op_AddVL [n1, n2] vt
  | .Op_AddVF => return new_node .Op_AddVF [n1, n2] vt
  | .Op_AddVD => return new_node .Op_AddVD [n1, n2] vt

  | .Op_SubVB => return new_node .Op_SubVB [n1, n2] vt
  | .Op_SubVS => return new_node .Op_SubVS [n1, n2] vt
  | .Op_SubVI => return new_node .Op_SubVI [n1, n2] vt
  | .Op_SubVL => return new_node .Op_SubVL [n1, n2] vt
  | .Op_SubVF => return new_node .Op_SubVF [n1, n2] vt
  | .Op_SubVD => return new_node .Op_SubVD [n1, n2] vt

  | .Op_MulVB => return new_node .Op_MulVB [n1, n2] vt
  | .Op_MulVS => return new_node .Op_MulVS [n1, n2] vt
  | .Op_MulVI => return new_node .Op_MulVI [n1, n2] vt
  | .Op_MulVL => return new_node .Op_MulVL [n1, n2] vt
  | .Op_MulVF => return new_node .Op_MulVF [n1, n2] vt
  | .Op_MulVD => return new_node .Op_MulVD [n1, n2] vt

  | .Op_DivVF => return new_node .Op_DivVF [n1, n2] vt
  | .Op_DivVD => return new_node .Op_DivVD [n1, n2] vt

  | .Op_MinV => return new_node .Op_MinV [n1, n2] vt
  | .Op_MaxV => return new_node .Op_MaxV [n1, n2] vt

  | .Op_AbsVF => return new_node .Op_AbsVF [n1] vt
  | .Op_AbsVD => return new_node .Op_AbsVD [n1] vt
  | .Op_AbsVB => return new_node .Op_AbsVB [n1] vt
  | .Op_AbsVS => return new_node .Op_AbsVS [n1] vt
  | .Op_AbsVI => return new_node .Op_AbsVI [n1] vt
  | .Op_AbsVL => return new_node .Op_AbsVL [n1] vt

  | .Op_NegVI => return new_node .Op_NegVI [n1] vt
  | .Op_NegVF => return new_node .Op_NegVF [n1] vt
  | .Op_NegVD => return new_node .Op_NegVD [n1] vt

  | .Op_SqrtVF => return new_node .Op_SqrtVF [n1] vt
  | .Op_SqrtVD => return new_node .Op_SqrtVD [n1] vt

  | .Op_PopCountVI => return new_node .Op_PopCountVI [n1] vt

  | .Op_LShiftVB => return new_node .Op_LShiftVB [n1, n2] vt
  | .Op_LShiftVS => return new_node .Op_LShiftVS [n1, n2] vt
  | .Op_LShiftVI => return new_node .Op_LShiftVI [n1, n2] vt
  | .Op_LShiftVL => return new_node .Op_LShiftVL [n1, n2] vt

  | .Op_RShiftVB => return new_node .Op_RShiftVB [n1, n2] vt
  | .Op_RShiftVS => return new_node .Op_RShiftVS [n1, n2] vt
  | .Op_RShiftVI => return new_node .Op_RShiftVI [n1, n2] vt
  | .Op_RShiftVL => return new_node .Op_RShiftVL [n1, n2] vt

  | .Op_URShiftVB => return new_node .Op_URShiftVB [n1, n2] vt
  | .Op_URShiftVS => return new_node .Op_URShiftVS [n1, n2] vt
  | .Op_URShiftVI => return new_node .Op_URShiftVI [n1, n2] vt
  | .Op_URShiftVL => return new_node .Op_URShiftVL [n1, n2] vt

  | .Op_AndV => return new_node .Op_AndV [n1, n2] vt
  | .Op_OrV => return new_node .Op_OrV [n1, n2] vt
  | .Op_XorV => return new_node .Op_XorV [n1, n2] vt

  | .Op_RoundDoubleModeV => return new_node .Op_RoundDoubleModeV [n1, n2] vt

  | .Op_MulAddVS2VI => return new_node .Op_MulAddVS2VI [n1, n2] vt
  | _ => fatal

/-- The overload `VectorNode::make(int opc, Node* n1, Node* n2, uint vlen, BasicType bt)`:
return the vector version of a scalar binary operation node. -/
def make (ASSERT : Bool) (opc : Opcodes) (n1 n2 : Node) (vlen : Nat) (bt : BasicType) :
    Except Abort Node := do
  let vt := TypeVect.make bt vlen
  let vopc ← VectorNode.opcode ASSERT opc bt
  -- This method should not be called for unimplemented vectors.
  guarantee vopc.gt0
  make_vopc vopc n1 n2 vt

/-- The overload `VectorNode::make(int vopc, Node* n1, Node* n2, Node* n3, const TypeVect* vt)`:
make a vector node for ternary operation. -/
def make3_vopc (vopc : Opcodes) (n1 n2 n3 : Node) (vt : TypeVect) : Except Abort Node := do
  -- This method should not be called for unimplemented vectors.
  guarantee vopc.gt0
  match vopc with
  | .Op_FmaVD => return new_node .Op_FmaVD [n1, n2, n3] vt
  | .Op_FmaVF => return new_node .Op_FmaVF [n1, n2, n3] vt
  | _ => fatal

/-- The overload
`VectorNode::make(int opc, Node* n1, Node* n2, Node* n3, uint vlen, BasicType bt)`: return the
vector version of a scalar ternary operation node. -/
def make3 (ASSERT : Bool) (opc : Opcodes) (n1 n2 n3 : Node) (vlen : Nat) (bt : BasicType) :
    Except Abort Node := do
  let vt := TypeVect.make bt vlen
  let vopc ← VectorNode.opcode ASSERT opc bt
  -- This method should not be called for unimplemented vectors.
  guarantee vopc.gt0
  make3_vopc vopc n1 n2 n3 vt

end VectorNode

namespace VectorNode

/-- The case labels of the outer `switch (sopc)` of `VectorNode::opcode`, in source order. -/
def opcode_case_labels : List Opcodes :=
  [
   .Op_AddI, .Op_AddL, .Op_AddF, .Op_AddD, .Op_SubI, .Op_SubL, .Op_SubF, .Op_SubD, .Op_MulI,
   .Op_MulL, .Op_MulF, .Op_MulD, .Op_FmaD, .Op_FmaF, .Op_CMoveF, .Op_CMoveD, .Op_DivF,
   .Op_DivD, .Op_AbsI, .Op_AbsL, .Op_MinI, .Op_MinL, .Op_MinF, .Op_MinD, .Op_MaxI, .Op_MaxL,
   .Op_MaxF, .Op_MaxD, .Op_AbsF, .Op_AbsD, .Op_NegI, .Op_NegF, .Op_NegD, .Op_RoundDoubleMode,
   .Op_SqrtF, .Op_SqrtD, .Op_PopCountI, .Op_LShiftI, .Op_LShiftL, .Op_RShiftI, .Op_RShiftL,
   .Op_URShiftB, .Op_URShiftS, .Op_URShiftI, .Op_URShiftL, .Op_AndI, .Op_AndL, .Op_OrI,
   .Op_OrL, .Op_XorI, .Op_XorL, .Op_LoadB, .Op_LoadUB, .Op_LoadUS, .Op_LoadS, .Op_LoadI,
   .Op_LoadL, .Op_LoadF, .Op_LoadD, .Op_StoreB, .Op_StoreC, .Op_StoreI, .Op_StoreL,
   .Op_StoreF, .Op_StoreD, .Op_MulAddS2I
  ]

/-- The values named by the `return` statements of `VectorNode::opcode`, in source order. -/
def opcode_results : List Opcodes :=
  [
   .Op_AddVB, .Op_AddVS, .Op_AddVI, .Op_AddVL, .Op_AddVF, .Op_AddVD, .Op_SubVB, .Op_SubVS,
   .Op_SubVI, .Op_SubVL, .Op_SubVF, .Op_SubVD, .Op_MulVB, .Op_MulVS, .Op_MulVI, .Op_MulVL,
   .Op_MulVF, .Op_MulVD, .Op_FmaVD, .Op_FmaVF, .Op_CMoveVF, .Op_CMoveVD, .Op_DivVF, .Op_DivVD,
   .Op_AbsVB, .Op_AbsVS, .Op_AbsVI, .Op_AbsVL, .Op_MinV, .Op_MaxV, .Op_AbsVF, .Op_AbsVD,
   .Op_NegVI, .Op_NegVF, .Op_NegVD, .Op_RoundDoubleModeV, .Op_SqrtVF, .Op_SqrtVD,
   .Op_PopCountVI, .Op_LShiftVB, .Op_LShiftVS, .Op_LShiftVI, .Op_LShiftVL, .Op_URShiftVB,
   .Op_URShiftVS, .Op_RShiftVB, .Op_RShiftVS, .Op_RShiftVI, .Op_RShiftVL, .Op_URShiftVI,
   .Op_URShiftVL, .Op_AndV, .Op_OrV, .Op_XorV, .Op_LoadVector, .Op_StoreVector,
   .Op_MulAddVS2VI, 0
  ]

/-- Classification of one call of the resolver, as a Boolean: a returned value is 0 unless
the opcode is a case label; `ShouldNotReachHere()` is reached exactly by an int-family
opcode with element type long, float or double; an assertion fails only in a debug build;
no abort occurs outside the case labels, and no other kind of abort at all; and every returned
value is named by a `return` statement. -/
def opcode_check (ASSERT : Bool) (sopc : Opcodes) (bt : BasicType) : Bool :=
  let snrh : Bool :=
    decide (sopc ∈ [Opcodes.Op_AddI, .Op_SubI, .Op_MulI, .Op_AbsI, .Op_MinI, .Op_MaxI,
      .Op_LShiftI, .Op_RShiftI, .Op_URShiftI]) &&
    decide (bt ∈ [BasicType.T_LONG, .T_FLOAT, .T_DOUBLE])
  let label : Bool := decide (sopc ∈ opcode_case_labels)
  match opcode ASSERT sopc bt with
  | .ok v => !snrh && (label || v == 0) && decide (v ∈ opcode_results)
  | .error .should_not_reach_here => snrh && label
  | .error .assert_failed => !snrh && ASSERT && label
  | .error _ => false

end VectorNode

/-- An oracle of a target that supports every width and every match rule. -/
def Matcher.all_supported : Matcher :=
  { vector_size_supported := fun _ _ => true
    match_rule_supported_vector := fun _ _ _ => true
    match_rule_supported := fun _ => true
    max_vector_size := fun _ => 64 }

/-- An oracle of a target that supports every width but has no match rule for any vector
opcode. -/
def Matcher.width_only : Matcher :=
  { vector_size_supported := fun _ _ => true
    match_rule_supported_vector := fun _ _ _ => false
    match_rule_supported := fun _ => false
    max_vector_size := fun _ => 64 }

/-! ## Reductions, operand ranges, shift counts and packs -/

/-- The macro `Unimplemented()` of `utilities/debug.hpp`: reports the error and terminates the
VM, in every build. -/
def Unimplemented {α : Type} : Except Abort α := .error .unimplemented

/-- Modelled from the spec: the floating-point constants the file names (`TypeF::ZERO`,
`TypeF::ONE`, `TypeF::POS_INF`, `TypeF::NEG_INF` and their `TypeD` counterparts), kept
symbolic: 0.0, 1.0, +infinity and -infinity. -/
inductive FloatCon
  | zero | one | pos_inf | neg_inf
  deriving DecidableEq, Repr

/-- Modelled from the spec: the type of a constant (`const Type*` with a single value, of
`opto/type.hpp`): an int constant `TypeInt::make(con)`, a long constant `TypeLong::make(con)`,
a float constant, a double constant, or the zero type `Type::get_zero_type(bt)` of an element
type that is none of these kinds. -/
inductive ConType
  | int (con : Int)
  | long (con : Int)
  | float (con : FloatCon)
  | double (con : FloatCon)
  | zero_of (bt : BasicType)
  deriving DecidableEq, Repr

/-- Modelled from the spec: the int constant -1 (all bits set), `TypeInt::MINUS_1`. -/
def TypeInt.MINUS_1 : ConType := .int (-1)
/-- Modelled from the spec: the int constant 1, `TypeInt::ONE`. -/
def TypeInt.ONE : ConType := .int 1
/-- Modelled from the spec: the largest int, `TypeInt::MAX` (`max_jint`, 2^31 - 1). -/
def TypeInt.MAX : ConType := .int (2 ^ 31 - 1)
/-- Modelled from the spec: the smallest int, `TypeInt::MIN` (`min_jint`, -2^31). -/
def TypeInt.MIN : ConType := .int (-2 ^ 31)
/-- Modelled from the spec: the long constant -1 (all bits set), `TypeLong::MINUS_1`. -/
def TypeLong.MINUS_1 : ConType := .long (-1)
/-- Modelled from the spec: the long constant 1, `TypeLong::ONE`. -/
def TypeLong.ONE : ConType := .long 1
/-- Modelled from the spec: the largest long, `TypeLong::MAX` (`max_jlong`, 2^63 - 1). -/
def TypeLong.MAX : ConType := .long (2 ^ 63 - 1)
/-- Modelled from the spec: the smallest long, `TypeLong::MIN` (`min_jlong`, -2^63). -/
def TypeLong.MIN : ConType := .long (-2 ^ 63)
/-- Modelled from the spec: the float constant 1.0, `TypeF::ONE`. -/
def TypeF.ONE : ConType := .float .one
/-- Modelled from the spec: the float constant +infinity, `TypeF::POS_INF`. -/
def TypeF.POS_INF : ConType := .float .pos_inf
/-- Modelled from the spec: the float constant -infinity, `TypeF::NEG_INF`. -/
def TypeF.NEG_INF : ConType := .float .neg_inf
/-- Modelled from the spec: the double constant 1.0, `TypeD::ONE`. -/
def TypeD.ONE : ConType := .double .one
/-- Modelled from the spec: the double constant +infinity, `TypeD::POS_INF`. -/
def TypeD.POS_INF : ConType := .double .pos_inf
/-- Modelled from the spec: the double constant -infinity, `TypeD::NEG_INF`. -/
def TypeD.NEG_INF : ConType := .double .neg_inf

/-- Modelled from the spec: a constant node (`ConNode*`) of the value-numbering environment,
determined by its type. -/
structure ConNode where
  bottom_type : ConType
  deriving DecidableEq, Repr

namespace PhaseGVN

/-- Modelled from the spec: `gvn.makecon(t)` of `opto/phaseX.cpp`, the constant node of type
`t`. -/
def makecon (t : ConType) : ConNode := { bottom_type := t }

/-- Modelled from the spec: `gvn.zerocon(bt)` of `opto/phaseX.cpp`, the constant node of the
zero of `bt`: the int 0 for boolean, char, byte, short and int, the long 0, the float 0.0, the
double 0.0. -/
def zerocon (bt : BasicType) : ConNode :=
  match bt with
  | .T_BOOLEAN | .T_CHAR | .T_BYTE | .T_SHORT | .T_INT => makecon (.int 0)
  | .T_LONG => makecon (.long 0)
  | .T_FLOAT => makecon (.float .zero)
  | .T_DOUBLE => makecon (.double .zero)
  | bt => makecon (.zero_of bt)

end PhaseGVN

namespace ReductionNode

/-- The function `int ReductionNode::opcode(int opc, BasicType bt)`.  The source assigns the
result to `vopc` (initially `opc`), breaks out of the switch and returns `vopc`; here each
case returns its value, and the default case returns `opc`. -/
def opcode (ASSERT : Bool) (opc : Opcodes) (bt : BasicType) : Except Abort Opcodes :=
  match opc with
  | .Op_AddI =>
    match bt with
    | .T_BOOLEAN | .T_CHAR => return 0
    | .T_BYTE | .T_SHORT | .T_INT => return .Op_AddReductionVI
    | _ => ShouldNotReachHere
  | .Op_AddL => do vm_assert ASSERT (bt == .T_LONG); return .Op_AddReductionVL
  | .Op_AddF => do vm_assert ASSERT (bt == .T_FLOAT); return .Op_AddReductionVF
  | .Op_AddD => do vm_assert ASSERT (bt == .T_DOUBLE); return .Op_AddReductionVD
  | .Op_MulI =>
    match bt with
    | .T_BOOLEAN | .T_CHAR => return 0
    | .T_BYTE | .T_SHORT | .T_INT => return .Op_MulReductionVI
    | _ => ShouldNotReachHere
  | .Op_MulL => do vm_assert ASSERT (bt == .T_LONG); return .Op_MulReductionVL
  | .Op_MulF => do vm_assert ASSERT (bt == .T_FLOAT); return .Op_MulReductionVF
  | .Op_MulD => do vm_assert ASSERT (bt == .T_DOUBLE); return .Op_MulReductionVD
  | .Op_MinI =>
    match bt with
    | .T_BOOLEAN | .T_CHAR => return 0
    | .T_BYTE | .T_SHORT | .T_INT => return .Op_MinReductionV
    | _ => ShouldNotReachHere
  | .Op_MinL => do vm_assert ASSERT (bt == .T_LONG); return .Op_MinReductionV
  | .Op_MinF => do vm_assert ASSERT (bt == .T_FLOAT); return .Op_MinReductionV
  | .Op_MinD => do vm_assert ASSERT (bt == .T_DOUBLE); return .Op_MinReductionV
  | .Op_MaxI =>
    match bt with
    | .T_BOOLEAN | .T_CHAR => return 0
    | .T_BYTE | .T_SHORT | .T_INT => return .Op_MaxReductionV
    | _ => ShouldNotReachHere
  | .Op_MaxL => do vm_assert ASSERT (bt == .T_LONG); return .Op_MaxReductionV
  | .Op_MaxF => do vm_assert ASSERT (bt == .T_FLOAT); return .Op_MaxReductionV
  | .Op_MaxD => do vm_assert ASSERT (bt == .T_DOUBLE); return .Op_MaxReductionV
  | .Op_AndI =>
    match bt with
    | .T_BOOLEAN | .T_CHAR => return 0
    | .T_BYTE | .T_SHORT | .T_INT => return .Op_AndReductionV
    | _ => ShouldNotReachHere
  | .Op_AndL => do vm_assert ASSERT (bt == .T_LONG); return .Op_AndReductionV
  | .Op_OrI =>
    match bt with
    | .T_BOOLEAN | .T_CHAR => return 0
    | .T_BYTE | .T_SHORT | .T_INT => return .Op_OrReductionV
    | _ => ShouldNotReachHere
  | .Op_OrL => do vm_assert ASSERT (bt == .T_LONG); return .Op_OrReductionV
  | .Op_XorI =>
    match bt with
    | .T_BOOLEAN | .T_CHAR => return 0
    | .T_BYTE | .T_SHORT | .T_INT => return .Op_XorReductionV
    | _ => ShouldNotReachHere
  | .Op_XorL => do vm_assert ASSERT (bt == .T_LONG); return .Op_XorReductionV
  | opc => return opc

/-- Modelled from the spec: `new XReductionNode(ctrl, n1, n2)` for a class derived from
`ReductionNode` (`opto/vectornode.hpp`): the node whose `Opcode()` is `Op_X`, with inputs
`in(0) = ctrl`, `in(1) = n1`, `in(2) = n2` and no vector type of its own. -/
def new_node (Op_X : Opcodes) (ctrl n1 n2 : Node) : Node :=
  .mk Op_X [ctrl, n1, n2] none

/-- The function
`ReductionNode::make(int opc, Node* ctrl, Node* n1, Node* n2, BasicType bt)`: return the
appropriate reduction node. -/
def make (ASSERT : Bool) (opc : Opcodes) (ctrl n1 n2 : Node) (bt : BasicType) :
    Except Abort Node := do
  let vopc ← opcode ASSERT opc bt
  -- This method should not be called for unimplemented vectors.
  guarantee (vopc != opc)
  match vopc with
  | .Op_AddReductionVI => return new_node .Op_AddReductionVI ctrl n1 n2
  | .Op_AddReductionVL => return new_node .Op_AddReductionVL ctrl n1 n2
  | .Op_AddReductionVF => return new_node .Op_AddReductionVF ctrl n1 n2
  | .Op_AddReductionVD => return new_node .Op_AddReductionVD ctrl n1 n2
  | .Op_MulReductionVI => return new_node .Op_MulReductionVI ctrl n1 n2
  | .Op_MulReductionVL => return new_node .Op_MulReductionVL ctrl n1 n2
  | .Op_MulReductionVF => return new_node .Op_MulReductionVF ctrl n1 n2
  | .Op_MulReductionVD => return new_node .Op_MulReductionVD ctrl n1 n2
  | .Op_MinReductionV => return new_node .Op_MinReductionV ctrl n1 n2
  | .Op_MaxReductionV => return new_node .Op_MaxReductionV ctrl n1 n2
  | .Op_AndReductionV => return new_node .Op_AndReductionV ctrl n1 n2
  | .Op_OrReductionV => return new_node .Op_OrReductionV ctrl n1 n2
  | .Op_XorReductionV => return new_node .Op_XorReductionV ctrl n1 n2
  | _ => fatal

/-- The function
`ReductionNode::make_reduction_input(PhaseGVN& gvn, int opc, BasicType bt)`: the constant that
seeds the accumulator of the reduction. -/
def make_reduction_input (ASSERT : Bool) (opc : Opcodes) (bt : BasicType) :
    Except Abort ConNode := do
  let vopc ← opcode ASSERT opc bt
  guarantee (vopc != opc)
  match vopc with
  | .Op_AndReductionV =>
    match bt with
    | .T_BYTE | .T_SHORT | .T_INT => return PhaseGVN.makecon TypeInt.MINUS_1
    | .T_LONG => return PhaseGVN.makecon TypeLong.MINUS_1
    | _ => fatal
  | .Op_AddReductionVI | .Op_AddReductionVL | .Op_AddReductionVF | .Op_AddReductionVD
  | .Op_OrReductionV | .Op_XorReductionV => return PhaseGVN.zerocon bt
  | .Op_MulReductionVI => return PhaseGVN.makecon TypeInt.ONE
  | .Op_MulReductionVL => return PhaseGVN.makecon TypeLong.ONE
  | .Op_MulReductionVF => return PhaseGVN.makecon TypeF.ONE
  | .Op_MulReductionVD => return PhaseGVN.makecon TypeD.ONE
  | .Op_MinReductionV =>
    match bt with
    | .T_BYTE | .T_SHORT | .T_INT => return PhaseGVN.makecon TypeInt.MAX
    | .T_LONG => return PhaseGVN.makecon TypeLong.MAX
    | .T_FLOAT => return PhaseGVN.makecon TypeF.POS_INF
    | .T_DOUBLE => return PhaseGVN.makecon TypeD.POS_INF
    | _ => Unimplemented
  | .Op_MaxReductionV =>
    match bt with
    | .T_BYTE | .T_SHORT | .T_INT => return PhaseGVN.makecon TypeInt.MIN
    | .T_LONG => return PhaseGVN.makecon TypeLong.MIN
    | .T_FLOAT => return PhaseGVN.makecon TypeF.NEG_INF
    | .T_DOUBLE => return PhaseGVN.makecon TypeD.NEG_INF
    | _ => Unimplemented
  | _ => fatal

/-- The function `bool ReductionNode::implemented(int opc, uint vlen, BasicType bt)`. -/
def implemented (M : Matcher) (ASSERT : Bool) (opc : Opcodes) (vlen : Nat) (bt : BasicType) :
    Except Abort Bool :=
  if is_java_primitive bt &&
      decide (vlen > 1) && is_power_of_2 vlen &&
      M.vector_size_supported bt vlen then do
    let vopc ← ReductionNode.opcode ASSERT opc bt
    return vopc != opc && M.match_rule_supported vopc
  else
    return false

/-- The thirteen reduction opcodes, in the order of the switch of `ReductionNode::make`. -/
def reduction_opcodes : List Opcodes :=
  [.Op_AddReductionVI, .Op_AddReductionVL, .Op_AddReductionVF, .Op_AddReductionVD,
   .Op_MulReductionVI, .Op_MulReductionVL, .Op_MulReductionVF, .Op_MulReductionVD,
   .Op_MinReductionV, .Op_MaxReductionV, .Op_AndReductionV, .Op_OrReductionV,
   .Op_XorReductionV]

/-- The pairs that `ReductionNode::opcode` resolves with their element-type assertion
satisfied, each with the reduction opcode it resolves to, in source order. -/
def resolved_pairs : List (Opcodes × BasicType × Opcodes) :=
  [(.Op_AddI, .T_BYTE, .Op_AddReductionVI), (.Op_AddI, .T_SHORT, .Op_AddReductionVI),
   (.Op_AddI, .T_INT, .Op_AddReductionVI),
   (.Op_AddL, .T_LONG, .Op_AddReductionVL), (.Op_AddF, .T_FLOAT, .Op_AddReductionVF),
   (.Op_AddD, .T_DOUBLE, .Op_AddReductionVD),
   (.Op_MulI, .T_BYTE, .Op_MulReductionVI), (.Op_MulI, .T_SHORT, .Op_MulReductionVI),
   (.Op_MulI, .T_INT, .Op_MulReductionVI),
   (.Op_MulL, .T_LONG, .Op_MulReductionVL), (.Op_MulF, .T_FLOAT, .Op_MulReductionVF),
   (.Op_MulD, .T_DOUBLE, .Op_MulReductionVD),
   (.Op_MinI, .T_BYTE, .Op_MinReductionV), (.Op_MinI, .T_SHORT, .Op_MinReductionV),
   (.Op_MinI, .T_INT, .Op_MinReductionV),
   (.Op_MinL, .T_LONG, .Op_MinReductionV), (.Op_MinF, .T_FLOAT, .Op_MinReductionV),
   (.Op_MinD, .T_DOUBLE, .Op_MinReductionV),
   (.Op_MaxI, .T_BYTE, .Op_MaxReductionV), (.Op_MaxI, .T_SHORT, .Op_MaxReductionV),
   (.Op_MaxI, .T_INT, .Op_MaxReductionV),
   (.Op_MaxL, .T_LONG, .Op_MaxReductionV), (.Op_MaxF, .T_FLOAT, .Op_MaxReductionV),
   (.Op_MaxD, .T_DOUBLE, .Op_MaxReductionV),
   (.Op_AndI, .T_BYTE, .Op_AndReductionV), (.Op_AndI, .T_SHORT, .Op_AndReductionV),
   (.Op_AndI, .T_INT, .Op_AndReductionV), (.Op_AndL, .T_LONG, .Op_AndReductionV),
   (.Op_OrI, .T_BYTE, .Op_OrReductionV), (.Op_OrI, .T_SHORT, .Op_OrReductionV),
   (.Op_OrI, .T_INT, .Op_OrReductionV), (.Op_OrL, .T_LONG, .Op_OrReductionV),
   (.Op_XorI, .T_BYTE, .Op_XorReductionV), (.Op_XorI, .T_SHORT, .Op_XorReductionV),
   (.Op_XorI, .T_INT, .Op_XorReductionV), (.Op_XorL, .T_LONG, .Op_XorReductionV)]

/-- Classification of one call of `ReductionNode::opcode`, as a Boolean: a returned value is
the opcode itself, the sentinel 0, or one of the thirteen reduction opcodes; and in a debug
build a returned reduction opcode comes from one of the resolved pairs. -/
def opcode_check (ASSERT : Bool) (opc : Opcodes) (bt : BasicType) : Bool :=
  match opcode ASSERT opc bt with
  | .ok v => v == opc || v == 0 ||
      (decide (v ∈ reduction_opcodes) &&
        (!ASSERT || decide ((opc, bt, v) ∈ resolved_pairs)))
  | .error _ => true

end ReductionNode

/-- Modelled from the spec: wrap-around of a mathematical integer to a two's-complement value
of `w` bits (Java `int` for `w = 32`, `long` for `w = 64`). -/
def wrap (w : Nat) (x : Int) : Int :=
  (x + 2 ^ (w - 1)) % 2 ^ w - 2 ^ (w - 1)

/-- Modelled from the spec: the scalar operation of a reducible integer opcode on two values
of its type (the node classes of `opto/addnode.hpp`, `opto/mulnode.hpp`): wrap-around addition
and multiplication, bitwise and, or, exclusive or on two's complement, minimum and maximum.
No value for an opcode that is none of these. -/
def scalar_op (opc : Opcodes) (a b : Int) : Option Int :=
  match opc with
  | .Op_AddI => some (wrap 32 (a + b))
  | .Op_AddL => some (wrap 64 (a + b))
  | .Op_MulI => some (wrap 32 (a * b))
  | .Op_MulL => some (wrap 64 (a * b))
  | .Op_AndI | .Op_AndL => some (Int.land a b)
  | .Op_OrI | .Op_OrL => some (Int.lor a b)
  | .Op_XorI | .Op_XorL => some (Int.xor a b)
  | .Op_MinI | .Op_MinL => some (min a b)
  | .Op_MaxI | .Op_MaxL => some (max a b)
  | _ => none

namespace VectorNode

/-- The function `void VectorNode::vector_operands(Node* n, uint* start, uint* end)`: the
half-open range `[start, end)` defining which operands are vectors, returned as the pair
`(start, end)`.  The constant `MemNode::ValueIn` of `opto/memnode.hpp` is the parameter
`ValueIn`. -/
def vector_operands (ValueIn : Nat) (n : Node) : Nat × Nat :=
  match n.Opcode with
  | .Op_LoadB | .Op_LoadUB
  | .Op_LoadS | .Op_LoadUS
  | .Op_LoadI | .Op_LoadL
  | .Op_LoadF | .Op_LoadD
  | .Op_LoadP | .Op_LoadN => (0, 0)  -- no vector operands
  | .Op_StoreB | .Op_StoreC
  | .Op_StoreI | .Op_StoreL
  | .Op_StoreF | .Op_StoreD
  | .Op_StoreP | .Op_StoreN => (ValueIn, ValueIn + 1)  -- 1 vector operand
  | .Op_LShiftI | .Op_LShiftL
  | .Op_RShiftI | .Op_RShiftL
  | .Op_URShiftI | .Op_URShiftL => (1, 2)  -- 1 vector operand
  | .Op_AddI | .Op_AddL | .Op_AddF | .Op_AddD
  | .Op_SubI | .Op_SubL | .Op_SubF | .Op_SubD
  | .Op_MulI | .Op_MulL | .Op_MulF | .Op_MulD
  | .Op_DivF | .Op_DivD
  | .Op_AndI | .Op_AndL
  | .Op_OrI | .Op_OrL
  | .Op_XorI | .Op_XorL
  | .Op_MulAddS2I => (1, 3)  -- 2 vector operands
  | .Op_CMoveI | .Op_CMoveL | .Op_CMoveF | .Op_CMoveD => (2, n.req)
  | .Op_FmaD | .Op_FmaF => (1, 4)  -- 3 vector operands
  | _ => (1, n.req)  -- default is all operands

/-- The function
`VectorNode::shift_count(int opc, Node* cnt, uint vlen, BasicType bt)`. -/
def shift_count (opc : Opcodes) (cnt : Node) (vlen : Nat) (bt : BasicType) :
    Except Abort Node :=
  -- Match shift count type with shift vector type.
  let vt := TypeVect.make bt vlen
  match opc with
  | .Op_LShiftI | .Op_LShiftL => return new_node .Op_LShiftCntV [cnt] vt
  | .Op_RShiftI | .Op_RShiftL
  | .Op_URShiftB | .Op_URShiftS
  | .Op_URShiftI | .Op_URShiftL => return new_node .Op_RShiftCntV [cnt] vt
  | _ => fatal

/-- The function `bool VectorNode::is_shift(Node* n)`. -/
def is_shift (n : Node) : Bool :=
  match n.Opcode with
  | .Op_LShiftI | .Op_LShiftL
  | .Op_RShiftI | .Op_RShiftL
  | .Op_URShiftI | .Op_URShiftL => true
  | _ => false

/-- The test `opc > _last_machine_leaf && opc < _last_opcode` of the assertions on opcodes:
every listed enumerator is the opcode of a node class and lies between the two marks; for
any other `int` the marks of `opto/opcodes.hpp` are the parameters. -/
def valid_opcode (last_machine_leaf last_opcode : Int) : Opcodes → Bool
  | .raw n => decide (last_machine_leaf < n) && decide (n < last_opcode)
  | _ => true

/-- The function `bool VectorNode::is_vector_shift_count(int opc)`. -/
def is_vector_shift_count (ASSERT : Bool) (last_machine_leaf last_opcode : Int)
    (opc : Opcodes) : Except Abort Bool := do
  vm_assert ASSERT (valid_opcode last_machine_leaf last_opcode opc)
  match opc with
  | .Op_RShiftCntV | .Op_LShiftCntV => return true
  | _ => return false

end VectorNode

/-- The element type `n->vect_type()->element_basic_type()` of a vector node.  A node without
a vector type has no element type; `T_ILLEGAL` stands for that (a `VectorNode*` or `PackNode*`
never points to such a node). -/
def Node.element_basic_type (n : Node) : BasicType :=
  match n.vect_type with
  | some vt => vt.element_basic_type
  | none => .T_ILLEGAL

/-- Modelled from the spec: the instantiation of `is_power_of_2` at `int`
(`utilities/powerOfTwo.hpp`), `(x > 0) && ((x & (x - 1)) == 0)`. -/
def is_power_of_2_int (x : Int) : Bool :=
  decide (x > 0) && Int.land x (x - 1) == 0

namespace PackNode

/-- The function `PackNode::make(Node* s, uint vlen, BasicType bt)`: return initial Pack
node.  Additional operands added with `add_opd()` calls. -/
def make (s : Node) (vlen : Nat) (bt : BasicType) : Except Abort Node :=
  let vt := TypeVect.make bt vlen
  match bt with
  | .T_BOOLEAN | .T_BYTE => return VectorNode.new_node .Op_PackB [s] vt
  | .T_CHAR | .T_SHORT => return VectorNode.new_node .Op_PackS [s] vt
  | .T_INT => return VectorNode.new_node .Op_PackI [s] vt
  | .T_LONG => return VectorNode.new_node .Op_PackL [s] vt
  | .T_FLOAT => return VectorNode.new_node .Op_PackF [s] vt
  | .T_DOUBLE => return VectorNode.new_node .Op_PackD [s] vt
  | _ => fatal

/-- Modelled from the spec: `pk->add_opd(n)` of `opto/vectornode.hpp` (`add_req(n)`): the
operand `n` is appended to the inputs of `pk`. -/
def add_opd (pk n : Node) : Node :=
  match pk with
  | .NULL => .NULL
  | .mk opc ins vt => .mk opc (ins ++ [n]) vt

/-- The function `PackNode* PackNode::binary_tree_pack(int lo, int hi)`: create a binary tree
form for Packs over the half-open range `[lo, hi)` of the inputs of `this`.  The recursion of
the source is bounded here by `fuel`, the depth of calls allowed; `none` is returned when the
bound is hit.  `lo` and `hi` are `int`; their differences and sums are taken in the integers
(signed overflow has no defined behaviour in the source). -/
def binary_tree_pack (ASSERT : Bool) (this : Node) :
    Nat → Int → Int → Option (Except Abort Node)
  | 0, _, _ => none
  | fuel + 1, lo, hi =>
    let ct := hi - lo
    match vm_assert ASSERT (is_power_of_2_int ct) with
    | .error e => some (.error e)
    | .ok _ =>
      if ct = 2 then
        match PackNode.make (this.in lo.toNat) 2 this.element_basic_type with
        | .error e => some (.error e)
        | .ok pk => some (.ok (add_opd pk (this.in (lo + 1).toNat)))
      else
        let mid := lo + Int.tdiv ct 2
        match binary_tree_pack ASSERT this fuel lo mid with
        | none => none
        | some (.error e) => some (.error e)
        | some (.ok n1) =>
          match binary_tree_pack ASSERT this fuel mid hi with
          | none => none
          | some (.error e) => some (.error e)
          | some (.ok n2) =>
            let bt := n1.element_basic_type
            match vm_assert ASSERT (bt == n2.element_basic_type) with
            | .error e => some (.error e)
            | .ok _ =>
              match bt with
              | .T_BOOLEAN | .T_BYTE =>
                some (.ok (VectorNode.new_node .Op_PackS [n1, n2] (TypeVect.make .T_SHORT 2)))
              | .T_CHAR | .T_SHORT =>
                some (.ok (VectorNode.new_node .Op_PackI [n1, n2] (TypeVect.make .T_INT 2)))
              | .T_INT =>
                some (.ok (VectorNode.new_node .Op_PackL [n1, n2] (TypeVect.make .T_LONG 2)))
              | .T_LONG =>
                some (.ok (VectorNode.new_node .Op_Pack2L [n1, n2] (TypeVect.make .T_LONG 2)))
              | .T_FLOAT =>
                some (.ok (VectorNode.new_node .Op_PackD [n1, n2] (TypeVect.make .T_DOUBLE 2)))
              | .T_DOUBLE =>
                some (.ok (VectorNode.new_node .Op_Pack2D [n1, n2] (TypeVect.make .T_DOUBLE 2)))
              | _ => some fatal

end PackNode

/-- A pack node over four byte leaves, tagged 1 to 4, at the input positions 1 to 4. -/
def PackNode.example_leaves : Node :=
  .mk .Op_PackB
    [.NULL, .mk (.raw 1) [] none, .mk (.raw 2) [] none, .mk (.raw 3) [] none,
     .mk (.raw 4) [] none]
    (some ⟨.T_BYTE, 4⟩)

/-! ## Shift predicates, patterns, extraction, pack trees and identity simplifications -/

namespace VectorNode

/-- The function `bool VectorNode::is_vshift(Node* n)`. -/
def is_vshift (n : Node) : Bool :=
  match n.Opcode with
  | .Op_LShiftVB | .Op_LShiftVS
  | .Op_LShiftVI | .Op_LShiftVL

  | .Op_RShiftVB | .Op_RShiftVS
  | .Op_RShiftVI | .Op_RShiftVL

  | .Op_URShiftVB | .Op_URShiftVS
  | .Op_URShiftVI | .Op_URShiftVL => true
  | _ => false

/-- The function `bool VectorNode::is_vector_shift(int opc)`. -/
def is_vector_shift (ASSERT : Bool) (last_machine_leaf last_opcode : Int)
    (opc : Opcodes) : Except Abort Bool := do
  vm_assert ASSERT (valid_opcode last_machine_leaf last_opcode opc)
  match opc with
  | .Op_LShiftVB | .Op_LShiftVS | .Op_LShiftVI | .Op_LShiftVL
  | .Op_RShiftVB | .Op_RShiftVS | .Op_RShiftVI | .Op_RShiftVL
  | .Op_URShiftVB | .Op_URShiftVS | .Op_URShiftVI | .Op_URShiftVL => return true
  | _ => return false

end VectorNode

/-- Modelled from the spec: a `const Type*` of `opto/type.hpp`, as far as this file inspects
one: the type of a constant, a vector type, or any other type, told apart by a tag.  A type
of int or long kind that is not a single constant is among the other types; no constant node
has one. -/
inductive Type_
  | con (t : ConType)
  | vect (vt : TypeVect)
  | other (tag : Nat)
  deriving DecidableEq, Repr

namespace Type_

/-- Modelled from the spec: `t->isa_int()` as a test, for the type of a constant node. -/
def isa_int : Type_ → Bool
  | .con (.int _) => true
  | _ => false

/-- Modelled from the spec: `t->isa_long()` as a test, for the type of a constant node. -/
def isa_long : Type_ → Bool
  | .con (.long _) => true
  | _ => false

/-- Modelled from the spec: `t->is_int()->get_con()` and `t->is_long()->get_con()`, the value
of a constant type of int or long kind (0 stands for the value of a type without one; the
file asks for the value only behind `isa_int()` or `isa_long()`). -/
def get_con : Type_ → Int
  | .con (.int k) => k
  | .con (.long k) => k
  | _ => 0

/-- Modelled from the spec: `Type::cmp(t1, t2)`, which is 0 exactly when the two types are
structurally equal. -/
def cmp (t1 t2 : Type_) : Int :=
  if t1 = t2 then 0 else 1

end Type_

/-- Modelled from the spec: the parts of the node interface that other files implement
(`opto/node.hpp`, `opto/connode.hpp`, `opto/vectornode.hpp`), taken as parameters:
`n->is_Con()`; `n->bottom_type()` of a node that carries no vector type; `n->uncast()`, the
node below the casts on top of `n`; `ConINode::make(con)`; the accessor `obj()` of an unbox
node; and the input position `VectorBoxNode::Value`. -/
structure NodeEnv where
  is_Con : Node → Bool
  bottom_type : Node → Type_
  uncast : Node → Node
  ConINode_make : Int → Node
  obj : Node → Node
  VectorBoxNode_Value : Nat

/-- The call `n->bottom_type()`: a node that carries a vector type has it as its bottom type
(`TypeNode::bottom_type()` returns the stored type); for any other node the type is given by
the environment. -/
def Node.bottom_type (G : NodeEnv) (n : Node) : Type_ :=
  match n.vect_type with
  | some vt => .vect vt
  | none => G.bottom_type n

/-- The function `static bool is_con_M1(Node* n)`. -/
def is_con_M1 (G : NodeEnv) (n : Node) : Bool :=
  if G.is_Con n then
    let t := n.bottom_type G
    if t.isa_int && t.get_con == -1 then
      true
    else if t.isa_long && t.get_con == -1 then
      true
    else
      false
  else
    false

namespace VectorNode

/-- The function `bool VectorNode::is_all_ones_vector(Node* n)`. -/
def is_all_ones_vector (G : NodeEnv) (n : Node) : Bool :=
  match n.Opcode with
  | .Op_ReplicateB | .Op_ReplicateS
  | .Op_ReplicateI | .Op_ReplicateL => is_con_M1 G (n.in 1)
  | _ => false

/-- The function `bool VectorNode::is_vector_bitwise_not_pattern(Node* n)`. -/
def is_vector_bitwise_not_pattern (G : NodeEnv) (n : Node) : Bool :=
  if n.Opcode == .Op_XorV then
    is_all_ones_vector G (n.in 1) ||
    is_all_ones_vector G (n.in 2)
  else
    false

end VectorNode

namespace ExtractNode

/-- The function `int ExtractNode::opcode(BasicType bt)`. -/
def opcode (bt : BasicType) : Except Abort Opcodes :=
  match bt with
  | .T_BOOLEAN => return .Op_ExtractUB
  | .T_BYTE => return .Op_ExtractB
  | .T_CHAR => return .Op_ExtractC
  | .T_SHORT => return .Op_ExtractS
  | .T_INT => return .Op_ExtractI
  | .T_LONG => return .Op_ExtractL
  | .T_FLOAT => return .Op_ExtractF
  | .T_DOUBLE => return .Op_ExtractD
  | _ => fatal

/-- Modelled from the spec: the constructor call `new ExtractXNode(src, pos)` of
`opto/vectornode.hpp` (`ExtractNode(Node* src, ConINode* pos) : Node(NULL, src, pos)`): a node
without a vector type whose inputs are no control, the vector and the position. -/
def new_node (Op_X : Opcodes) (src pos : Node) : Node :=
  .mk Op_X [.NULL, src, pos] none

/-- The function `Node* ExtractNode::make(Node* v, uint position, BasicType bt)`: extract a
scalar element of vector.  `(int)position` is the value of the `uint` as a 32-bit signed
integer. -/
def make (G : NodeEnv) (M : Matcher) (ASSERT : Bool) (v : Node) (position : Nat)
    (bt : BasicType) : Except Abort Node := do
  vm_assert ASSERT (decide (wrap 32 position < M.max_vector_size bt))
  let pos := G.ConINode_make (wrap 32 position)
  match bt with
  | .T_BOOLEAN => return new_node .Op_ExtractUB v pos
  | .T_BYTE => return new_node .Op_ExtractB v pos
  | .T_CHAR => return new_node .Op_ExtractC v pos
  | .T_SHORT => return new_node .Op_ExtractS v pos
  | .T_INT => return new_node .Op_ExtractI v pos
  | .T_LONG => return new_node .Op_ExtractL v pos
  | .T_FLOAT => return new_node .Op_ExtractF v pos
  | .T_DOUBLE => return new_node .Op_ExtractD v pos
  | _ => fatal

end ExtractNode

namespace PackNode

/-- The opcodes of the pack nodes that `PackNode::make` and `PackNode::binary_tree_pack`
build. -/
def is_pack_opcode : Opcodes → Bool
  | .Op_PackB | .Op_PackS | .Op_PackI | .Op_PackL
  | .Op_PackF | .Op_PackD | .Op_Pack2L | .Op_Pack2D => true
  | _ => false

/-- The element type of the node that the recursive case of `PackNode::binary_tree_pack`
builds over two halves of element type `bt` (the `TypeVect::make` calls of its `switch`). -/
def widened : BasicType → BasicType
  | .T_BOOLEAN | .T_BYTE => .T_SHORT
  | .T_CHAR | .T_SHORT => .T_INT
  | .T_INT => .T_LONG
  | .T_LONG => .T_LONG
  | .T_FLOAT => .T_DOUBLE
  | .T_DOUBLE => .T_DOUBLE
  | bt => bt

/-- A node is the root of a perfectly balanced binary tree of pack nodes of the given depth:
at depth 0 any node (a leaf); at a greater depth a pack node with no control input and two
operands that are roots of such trees of the depth below. -/
def is_balanced_tree : Nat → Node → Bool
  | 0, _ => true
  | d + 1, .mk opc [.NULL, n1, n2] _ =>
    is_pack_opcode opc && is_balanced_tree d n1 && is_balanced_tree d n2
  | _ + 1, _ => false

/-- The number of pack nodes of a binary tree of the given depth. -/
def count_pack_nodes : Nat → Node → Nat
  | 0, _ => 0
  | d + 1, .mk _ [_, n1, n2] _ => 1 + count_pack_nodes d n1 + count_pack_nodes d n2
  | _ + 1, _ => 0

/-- The leaves of a binary tree of the given depth, read left to right. -/
def leaves : Nat → Node → List Node
  | 0, n => [n]
  | d + 1, .mk _ [_, n1, n2] _ => leaves d n1 ++ leaves d n2
  | _ + 1, _ => []

end PackNode

namespace ExtractNode

end ExtractNode

namespace VectorReinterpretNode

/-- The function `Node* VectorReinterpretNode::Identity(PhaseGVN* phase)`.  The phase is not
used by the body. -/
def Identity (G : NodeEnv) (this : Node) : Node :=
  let n := this.in 1
  if n.Opcode == .Op_VectorReinterpret then
    if Type_.cmp (this.bottom_type G) ((n.in 1).bottom_type G) == 0 then
      n.in 1
    else
      this
  else
    this

end VectorReinterpretNode

namespace VectorUnboxNode

/-- The function `Node* VectorUnboxNode::Identity(PhaseGVN* phase)`.  The phase is not used
by the body; the flag `EnableVectorReboxing` of the VM is a parameter. -/
def Identity (G : NodeEnv) (EnableVectorReboxing : Bool) (this : Node) : Node :=
  let n := G.uncast (G.obj this)
  if EnableVectorReboxing && n.Opcode == .Op_VectorBox then
    if Type_.cmp (this.bottom_type G)
        ((n.in G.VectorBoxNode_Value).bottom_type G) == 0 then
      n.in G.VectorBoxNode_Value
    else
      this
  else
    this

end VectorUnboxNode

/-- An environment in which no node is a constant, every node without a vector type has the
same other type, no node carries a cast, the object of an unbox node is its input 2 and the
value of a box node is its input 2. -/
def NodeEnv.plain : NodeEnv :=
  { is_Con := fun _ => false
    bottom_type := fun _ => .other 0
    uncast := fun n => n
    ConINode_make := fun k => .mk (.raw k) [] none
    obj := fun n => n.in 2
    VectorBoxNode_Value := 2 }

/-- An int broadcast of four lanes over a scalar tagged 1. -/
def VectorReinterpretNode.example_operand : Node :=
  .mk .Op_ReplicateI [.NULL, .mk (.raw 1) [] none] (some ⟨.T_INT, 4⟩)

/-- The reinterpretation of `example_operand` to (float, 4), reinterpreted to (float, 4)
once more. -/
def VectorReinterpretNode.example_pair : Node :=
  VectorNode.new_node .Op_VectorReinterpret
    [VectorNode.new_node .Op_VectorReinterpret [VectorReinterpretNode.example_operand]
      ⟨.T_FLOAT, 4⟩]
    ⟨.T_FLOAT, 4⟩

namespace VectorNode

/-- The case labels of the `switch (opc)` of `VectorNode::shift_count`, in source order. -/
def shift_count_case_labels : List Opcodes :=
  [.Op_LShiftI, .Op_LShiftL, .Op_RShiftI, .Op_RShiftL, .Op_URShiftB, .Op_URShiftS,
   .Op_URShiftI, .Op_URShiftL]

/-- Classification of one call of the resolver with respect to the shift predicates, as a
Boolean: a value returned for an opcode accepted by `is_shift` is 0 or the opcode of a vector
shift; and whenever the returned value is the opcode of a vector shift, the scalar opcode is
a case label of `shift_count`. -/
def shift_check (ASSERT : Bool) (opc : Opcodes) (bt : BasicType) : Bool :=
  match opcode ASSERT opc bt with
  | .ok v =>
    (!is_shift (.mk opc [] none) || v == 0 || is_vshift (.mk v [] none)) &&
    (!is_vshift (.mk v [] none) || decide (opc ∈ shift_count_case_labels))
  | .error _ => true

end VectorNode

/-! ## Auxiliary facts -/

/-- The bit test of `is_power_of_2` holds exactly of the powers of two. -/
theorem is_power_of_2_iff (x : Nat) : is_power_of_2 x = true ↔ ∃ k, x = 2 ^ k := by
  unfold is_power_of_2
  simp only [Bool.and_eq_true, decide_eq_true_eq, beq_iff_eq]
  constructor
  · rintro ⟨hpos, h⟩
    induction x using Nat.strong_induction_on with
    | _ x ih =>
      by_cases h1 : x = 1
      · exact ⟨0, by simp [h1]⟩
      · have hd : x / 2 &&& (x - 1) / 2 = 0 := by rw [← Nat.and_div_two, h]
        rcases Nat.mod_two_eq_zero_or_one x with hx | hx
        · have e : (x - 1) / 2 = x / 2 - 1 := by omega
          rw [e] at hd
          obtain ⟨k, hk⟩ := ih (x / 2) (by omega) (by omega) hd
          exact ⟨k + 1, by rw [pow_succ, ← hk]; omega⟩
        · have e : (x - 1) / 2 = x / 2 := by omega
          rw [e, Nat.and_self] at hd
          omega
  · rintro ⟨k, rfl⟩
    exact ⟨Nat.pos_pow_of_pos k (by decide), by simp⟩

namespace VectorNode

/-- An `int` that is no enumerator of the switch falls to `default: return 0`. -/
theorem opcode_raw (ASSERT : Bool) (n : Int) (bt : BasicType) :
    opcode ASSERT (.raw n) bt = .ok 0 := rfl

/-- When the resolver returns the sentinel, `implemented` answers `false`. -/
theorem implemented_of_opcode_zero (M : Matcher) (ASSERT : Bool) (opc : Opcodes) (vlen : Nat)
    (bt : BasicType) (h : opcode ASSERT opc bt = .ok 0) :
    implemented M ASSERT opc vlen bt = .ok false := by
  unfold implemented
  rw [h]
  split <;> rfl

set_option maxHeartbeats 4000000 in
/-- The classification holds of every call with a primitive element type. -/
theorem opcode_check_eq_true (ASSERT : Bool) (sopc : Opcodes) (bt : BasicType)
    (hbt : is_java_primitive bt = true) : opcode_check ASSERT sopc bt = true := by
  cases bt <;> first
    | (exact absurd hbt (by decide))
    | (cases sopc <;> cases ASSERT <;> rfl)


/-- Every value the resolver returns is named by one of its `return` statements. -/
theorem opcode_mem_results (ASSERT : Bool) (sopc : Opcodes) (bt : BasicType) (v : Opcodes)
    (hbt : is_java_primitive bt = true) (h : opcode ASSERT sopc bt = .ok v) :
    v ∈ opcode_results := by
  have hc := opcode_check_eq_true ASSERT sopc bt hbt
  unfold opcode_check at hc
  rw [h] at hc
  simp only [Bool.and_eq_true, decide_eq_true_eq] at hc
  exact hc.2

/-- The scalar-opcode factory is the resolver, the guarantee, and the vector-opcode factory. -/
theorem make_eq_of_opcode (ASSERT : Bool) (opc : Opcodes) (n1 n2 : Node) (vlen : Nat)
    (bt : BasicType) (v : Opcodes) (h : opcode ASSERT opc bt = .ok v) (hv : v.gt0 = true) :
    make ASSERT opc n1 n2 vlen bt = make_vopc v n1 n2 (TypeVect.make bt vlen) := by
  unfold make
  rw [h]
  show (guarantee v.gt0 >>= fun _ => make_vopc v n1 n2 (TypeVect.make bt vlen)) = _
  rw [hv]; rfl

/-- The same for the ternary factory. -/
theorem make3_eq_of_opcode (ASSERT : Bool) (opc : Opcodes) (n1 n2 n3 : Node) (vlen : Nat)
    (bt : BasicType) (v : Opcodes) (h : opcode ASSERT opc bt = .ok v) (hv : v.gt0 = true) :
    make3 ASSERT opc n1 n2 n3 vlen bt = make3_vopc v n1 n2 n3 (TypeVect.make bt vlen) := by
  unfold make3
  rw [h]
  show (guarantee v.gt0 >>= fun _ => make3_vopc v n1 n2 n3 (TypeVect.make bt vlen)) = _
  rw [hv]; rfl

/-- Each resolved opcode other than the two compare-moves and the memory opcodes is a case
of one of the two factories. -/
theorem make_vopc_ok_of_mem_results (v : Opcodes) (n1 n2 n3 : Node) (vt : TypeVect)
    (hmem : v ∈ opcode_results) (hpos : v.gt0 = true)
    (hex : v ∉ [Opcodes.Op_CMoveVF, .Op_CMoveVD, .Op_LoadVector, .Op_StoreVector]) :
    (v ∈ [Opcodes.Op_FmaVD, .Op_FmaVF] ∧ ∃ n, make3_vopc v n1 n2 n3 vt = .ok n) ∨
    (v ∉ [Opcodes.Op_FmaVD, .Op_FmaVF] ∧ ∃ n, make_vopc v n1 n2 vt = .ok n) := by
  cases v with
  | raw n =>
    have h0 : n = 0 := by
      simp only [opcode_results, List.mem_cons, List.mem_singleton, List.not_mem_nil,
        or_false, reduceCtorEq, false_or] at hmem
      exact Opcodes.raw.inj hmem
    subst h0
    exact absurd hpos (by decide)
  | _ => first
    | exact .inr ⟨by decide, _, rfl⟩
    | exact .inl ⟨by decide, _, rfl⟩
    | exact absurd hmem (by decide)
    | exact absurd (by decide) hex

end VectorNode

/-! ## The claims -/

/-- C1: for the element types boolean and char, `VectorNode::opcode(Op_RShiftI, bt)` is the
unsigned right-shift vector opcode (`Op_URShiftVB` for boolean, `Op_URShiftVS` for char), and
is none of the signed ones `Op_RShiftVB`, `Op_RShiftVS`, `Op_RShiftVI`, `Op_RShiftVL`. -/
theorem rshift_of_unsigned_type_is_urshift (ASSERT : Bool) :
    VectorNode.opcode ASSERT .Op_RShiftI .T_BOOLEAN = .ok .Op_URShiftVB ∧
    VectorNode.opcode ASSERT .Op_RShiftI .T_CHAR = .ok .Op_URShiftVS ∧
    VectorNode.opcode ASSERT .Op_RShiftI .T_BOOLEAN ≠ .ok .Op_RShiftVB ∧
    VectorNode.opcode ASSERT .Op_RShiftI .T_BOOLEAN ≠ .ok .Op_RShiftVS ∧
    VectorNode.opcode ASSERT .Op_RShiftI .T_BOOLEAN ≠ .ok .Op_RShiftVI ∧
    VectorNode.opcode ASSERT .Op_RShiftI .T_BOOLEAN ≠ .ok .Op_RShiftVL ∧
    VectorNode.opcode ASSERT .Op_RShiftI .T_CHAR ≠ .ok .Op_RShiftVB ∧
    VectorNode.opcode ASSERT .Op_RShiftI .T_CHAR ≠ .ok .Op_RShiftVS ∧
    VectorNode.opcode ASSERT .Op_RShiftI .T_CHAR ≠ .ok .Op_RShiftVI ∧
    VectorNode.opcode ASSERT .Op_RShiftI .T_CHAR ≠ .ok .Op_RShiftVL := by
  have hb : VectorNode.opcode ASSERT .Op_RShiftI .T_BOOLEAN = .ok .Op_URShiftVB := rfl
  have hc : VectorNode.opcode ASSERT .Op_RShiftI .T_CHAR = .ok .Op_URShiftVS := rfl
  rw [hb, hc]
  refine ⟨rfl, rfl, ?_, ?_, ?_, ?_, ?_, ?_, ?_, ?_⟩ <;> (intro h; cases h)

/-- C2: every documented unsupported pair resolves to the sentinel 0, and `implemented`
answers `false` for it, for every lane count and every oracle. -/
theorem documented_unsupported_pairs (M : Matcher) (ASSERT : Bool) (vlen : Nat)
    (opc : Opcodes) (bt : BasicType)
    (h : (opc, bt) ∈
      [(Opcodes.Op_MulI, BasicType.T_BOOLEAN),
       (Opcodes.Op_PopCountI, BasicType.T_BYTE), (Opcodes.Op_PopCountI, BasicType.T_SHORT),
       (Opcodes.Op_PopCountI, BasicType.T_CHAR), (Opcodes.Op_PopCountI, BasicType.T_BOOLEAN),
       (Opcodes.Op_URShiftI, BasicType.T_BYTE), (Opcodes.Op_URShiftI, BasicType.T_SHORT),
       (Opcodes.Op_AbsI, BasicType.T_BOOLEAN), (Opcodes.Op_AbsI, BasicType.T_CHAR),
       (Opcodes.Op_MinI, BasicType.T_BOOLEAN), (Opcodes.Op_MinI, BasicType.T_CHAR),
       (Opcodes.Op_MaxI, BasicType.T_BOOLEAN), (Opcodes.Op_MaxI, BasicType.T_CHAR)]) :
    VectorNode.opcode ASSERT opc bt = .ok 0 ∧
    VectorNode.implemented M ASSERT opc vlen bt = .ok false := by
  have key : VectorNode.opcode ASSERT opc bt = .ok 0 := by
    simp only [List.mem_cons, Prod.mk.injEq, List.mem_singleton, List.not_mem_nil, or_false] at h
    rcases h with h | h | h | h | h | h | h | h | h | h | h | h | h <;>
      (obtain ⟨rfl, rfl⟩ := h; rfl)
  exact ⟨key, VectorNode.implemented_of_opcode_zero M ASSERT opc vlen bt key⟩

/-- Witness of C2 at the pair (population count, byte) with 8 lanes. -/
theorem documented_unsupported_pairs_witness :
    VectorNode.opcode true .Op_PopCountI .T_BYTE = .ok 0 ∧
    VectorNode.implemented Matcher.all_supported true .Op_PopCountI 8 .T_BYTE = .ok false :=
  documented_unsupported_pairs Matcher.all_supported true 8 .Op_PopCountI .T_BYTE (by simp)

/-- C3 (counterexample): `VectorNode::opcode(Op_AddI, T_LONG)` and
`VectorNode::opcode(Op_RShiftI, T_FLOAT)` reach `ShouldNotReachHere()` and abort, in a product
build as in a debug build: no value is returned, in particular not the sentinel 0.  The pair
(`Op_AddL`, int), also outside the matrix, returns `Op_AddVL` in a product build and fails
its assertion in a debug build: not the sentinel either. -/
theorem opcode_not_total_counterexample :
    VectorNode.opcode false .Op_AddI .T_LONG = .error .should_not_reach_here ∧
    VectorNode.opcode true .Op_AddI .T_LONG = .error .should_not_reach_here ∧
    VectorNode.opcode false .Op_RShiftI .T_FLOAT = .error .should_not_reach_here ∧
    VectorNode.opcode true .Op_RShiftI .T_FLOAT = .error .should_not_reach_here ∧
    VectorNode.opcode false .Op_AddL .T_INT = .ok .Op_AddVL ∧
    VectorNode.opcode true .Op_AddL .T_INT = .error .assert_failed ∧
    ¬ (∃ v, VectorNode.opcode false .Op_AddI .T_LONG = .ok v) ∧
    ¬ (∃ v, VectorNode.opcode false .Op_RShiftI .T_FLOAT = .ok v) := by
  refine ⟨rfl, rfl, rfl, rfl, rfl, rfl, ?_, ?_⟩ <;>
    (rintro ⟨v, h⟩
     have h2 : (Except.error Abort.should_not_reach_here : Except Abort Opcodes) = .ok v := h
     cases h2)

/-- C3 (amended): for a primitive element type, `VectorNode::opcode` reaches
`ShouldNotReachHere()` exactly when the opcode is one of the int-family opcodes `Op_AddI`,
`Op_SubI`, `Op_MulI`, `Op_AbsI`, `Op_MinI`, `Op_MaxI`, `Op_LShiftI`, `Op_RShiftI`,
`Op_URShiftI` and the element type is long, float or double; in every other case it returns
a value, except that a debug build may fail an element-type assertion; and for every opcode
that is not a case label of its switch the value returned is the sentinel 0. -/
theorem opcode_total_outside_guards (ASSERT : Bool) (sopc : Opcodes) (bt : BasicType)
    (hbt : is_java_primitive bt = true) :
    (VectorNode.opcode ASSERT sopc bt = .error .should_not_reach_here ↔
      sopc ∈ [Opcodes.Op_AddI, .Op_SubI, .Op_MulI, .Op_AbsI, .Op_MinI, .Op_MaxI,
        .Op_LShiftI, .Op_RShiftI, .Op_URShiftI] ∧
      bt ∈ [BasicType.T_LONG, .T_FLOAT, .T_DOUBLE]) ∧
    ((∃ v, VectorNode.opcode ASSERT sopc bt = .ok v) ∨
      VectorNode.opcode ASSERT sopc bt = .error .should_not_reach_here ∨
      (ASSERT = true ∧ VectorNode.opcode ASSERT sopc bt = .error .assert_failed)) ∧
    (sopc ∉ VectorNode.opcode_case_labels → VectorNode.opcode ASSERT sopc bt = .ok 0) := by
  have hc := VectorNode.opcode_check_eq_true ASSERT sopc bt hbt
  unfold VectorNode.opcode_check at hc
  cases hop : VectorNode.opcode ASSERT sopc bt with
  | ok v =>
    rw [hop] at hc
    simp only [Bool.and_eq_true, Bool.or_eq_true, Bool.not_eq_true', decide_eq_true_eq,
      Bool.and_eq_false_iff, decide_eq_false_iff_not, beq_iff_eq] at hc
    obtain ⟨⟨hs, hl⟩, _⟩ := hc
    refine ⟨⟨(fun h => by cases h), fun h => ?_⟩, .inl ⟨v, rfl⟩, fun hn => ?_⟩
    · rcases hs with hs | hs
      · exact absurd h.1 hs
      · exact absurd h.2 hs
    · rcases hl with hl | hl
      · exact absurd hl hn
      · rw [hl]
  | error e =>
    rw [hop] at hc
    cases e with
    | should_not_reach_here =>
      simp only [Bool.and_eq_true, decide_eq_true_eq] at hc
      exact ⟨⟨fun _ => hc.1, fun _ => rfl⟩, .inr (.inl rfl), fun hn => absurd hc.2 hn⟩
    | assert_failed =>
      simp only [Bool.and_eq_true, Bool.not_eq_true', decide_eq_true_eq,
        Bool.and_eq_false_iff, decide_eq_false_iff_not] at hc
      obtain ⟨⟨hs, ha⟩, hl⟩ := hc
      refine ⟨⟨(fun h => by cases h), fun h => ?_⟩, .inr (.inr ⟨ha, rfl⟩),
        fun hn => absurd hl hn⟩
      rcases hs with hs | hs
      · exact absurd h.1 hs
      · exact absurd h.2 hs
    | guarantee_failed => exact absurd hc (by simp)
    | fatal => exact absurd hc (by simp)
    | unimplemented => exact absurd hc (by simp)

/-- Witness of C3 (amended) at (`Op_AddI`, long) in a debug build, where the resolver
aborts. -/
theorem opcode_total_outside_guards_witness :
    is_java_primitive .T_LONG = true ∧
    ((VectorNode.opcode true .Op_AddI .T_LONG = .error .should_not_reach_here ↔
      Opcodes.Op_AddI ∈ [Opcodes.Op_AddI, .Op_SubI, .Op_MulI, .Op_AbsI, .Op_MinI, .Op_MaxI,
        .Op_LShiftI, .Op_RShiftI, .Op_URShiftI] ∧
      BasicType.T_LONG ∈ [BasicType.T_LONG, .T_FLOAT, .T_DOUBLE]) ∧
    ((∃ v, VectorNode.opcode true .Op_AddI .T_LONG = .ok v) ∨
      VectorNode.opcode true .Op_AddI .T_LONG = .error .should_not_reach_here ∨
      (true = true ∧ VectorNode.opcode true .Op_AddI .T_LONG = .error .assert_failed)) ∧
    (Opcodes.Op_AddI ∉ VectorNode.opcode_case_labels →
      VectorNode.opcode true .Op_AddI .T_LONG = .ok 0)) :=
  ⟨rfl, opcode_total_outside_guards true .Op_AddI .T_LONG rfl⟩

/-- C4 (counterexample): the resolver returns the non-zero opcode `Op_CMoveVF` for
(`Op_CMoveF`, float), and `implemented` is `true` for it under an oracle that supports
everything, yet both vector-opcode factories and both scalar-opcode factories reach their
fatal default branch on it, in a product build as in a debug build.  The same happens for
(`Op_LoadI`, int), which resolves to `Op_LoadVector`. -/
theorem make_not_total_counterexample :
    VectorNode.opcode false .Op_CMoveF .T_FLOAT = .ok .Op_CMoveVF ∧
    Opcodes.gt0 .Op_CMoveVF = true ∧
    VectorNode.make_vopc .Op_CMoveVF .NULL .NULL (TypeVect.make .T_FLOAT 4) = .error .fatal ∧
    VectorNode.make3_vopc .Op_CMoveVF .NULL .NULL .NULL (TypeVect.make .T_FLOAT 4)
      = .error .fatal ∧
    VectorNode.implemented Matcher.all_supported false .Op_CMoveF 4 .T_FLOAT = .ok true ∧
    VectorNode.make false .Op_CMoveF .NULL .NULL 4 .T_FLOAT = .error .fatal ∧
    VectorNode.make3 false .Op_CMoveF .NULL .NULL .NULL 4 .T_FLOAT = .error .fatal ∧
    VectorNode.implemented Matcher.all_supported true .Op_CMoveF 4 .T_FLOAT = .ok true ∧
    VectorNode.make true .Op_CMoveF .NULL .NULL 4 .T_FLOAT = .error .fatal ∧
    VectorNode.make3 true .Op_CMoveF .NULL .NULL .NULL 4 .T_FLOAT = .error .fatal ∧
    VectorNode.opcode false .Op_LoadI .T_INT = .ok .Op_LoadVector ∧
    VectorNode.implemented Matcher.all_supported false .Op_LoadI 4 .T_INT = .ok true ∧
    VectorNode.make false .Op_LoadI .NULL .NULL 4 .T_INT = .error .fatal ∧
    VectorNode.make3 false .Op_LoadI .NULL .NULL .NULL 4 .T_INT = .error .fatal :=
  ⟨rfl, rfl, rfl, rfl, rfl, rfl, rfl, rfl, rfl, rfl, rfl, rfl, rfl, rfl⟩

/-- C4 (amended): for every scalar opcode and primitive element type for which
`VectorNode::opcode` returns a non-zero vector opcode other than `Op_CMoveVF`, `Op_CMoveVD`,
`Op_LoadVector` and `Op_StoreVector`, one of the two factories constructs a node and does not
reach its fatal default branch: the three-operand form for `Op_FmaVD` and `Op_FmaVF`, the
two-operand form for every other opcode; and the same holds of the factories that take the
scalar opcode, the lane count and the element type. -/
theorem make_builds_every_resolved_opcode (ASSERT : Bool) (sopc : Opcodes) (bt : BasicType)
    (vopc : Opcodes) (n1 n2 n3 : Node) (vlen : Nat) (vt : TypeVect)
    (hbt : is_java_primitive bt = true)
    (h : VectorNode.opcode ASSERT sopc bt = .ok vopc) (hpos : vopc.gt0 = true)
    (hex : vopc ∉ [Opcodes.Op_CMoveVF, .Op_CMoveVD, .Op_LoadVector, .Op_StoreVector]) :
    (vopc ∈ [Opcodes.Op_FmaVD, .Op_FmaVF] ∧
      (∃ n, VectorNode.make3_vopc vopc n1 n2 n3 vt = .ok n) ∧
      (∃ n, VectorNode.make3 ASSERT sopc n1 n2 n3 vlen bt = .ok n)) ∨
    (vopc ∉ [Opcodes.Op_FmaVD, .Op_FmaVF] ∧
      (∃ n, VectorNode.make_vopc vopc n1 n2 vt = .ok n) ∧
      (∃ n, VectorNode.make ASSERT sopc n1 n2 vlen bt = .ok n)) := by
  have hmem := VectorNode.opcode_mem_results ASSERT sopc bt vopc hbt h
  rcases VectorNode.make_vopc_ok_of_mem_results vopc n1 n2 n3 vt hmem hpos hex
    with ⟨hf, hm⟩ | ⟨hf, hm⟩
  · refine .inl ⟨hf, hm, ?_⟩
    rw [VectorNode.make3_eq_of_opcode ASSERT sopc n1 n2 n3 vlen bt vopc h hpos]
    exact (VectorNode.make_vopc_ok_of_mem_results vopc n1 n2 n3 _ hmem hpos hex).elim
      (fun x => x.2) (fun x => absurd hf x.1)
  · refine .inr ⟨hf, hm, ?_⟩
    rw [VectorNode.make_eq_of_opcode ASSERT sopc n1 n2 vlen bt vopc h hpos]
    exact (VectorNode.make_vopc_ok_of_mem_results vopc n1 n2 n3 _ hmem hpos hex).elim
      (fun x => absurd x.1 hf) (fun x => x.2)

/-- Witness of C4 (amended) at (`Op_FmaF`, float), built by the three-operand factory. -/
theorem make_builds_every_resolved_opcode_witness :
    (Opcodes.Op_FmaVF ∈ [Opcodes.Op_FmaVD, .Op_FmaVF] ∧
      (∃ n, VectorNode.make3_vopc .Op_FmaVF .NULL .NULL .NULL (TypeVect.make .T_FLOAT 4)
        = .ok n) ∧
      (∃ n, VectorNode.make3 true .Op_FmaF .NULL .NULL .NULL 4 .T_FLOAT = .ok n)) ∨
    (Opcodes.Op_FmaVF ∉ [Opcodes.Op_FmaVD, .Op_FmaVF] ∧
      (∃ n, VectorNode.make_vopc .Op_FmaVF .NULL .NULL (TypeVect.make .T_FLOAT 4) = .ok n) ∧
      (∃ n, VectorNode.make true .Op_FmaF .NULL .NULL 4 .T_FLOAT = .ok n)) :=
  make_builds_every_resolved_opcode true .Op_FmaF .T_FLOAT .Op_FmaVF .NULL .NULL .NULL 4
    (TypeVect.make .T_FLOAT 4) rfl rfl rfl (by decide)

/-- C5: `VectorNode::implemented(opc, vlen, bt)` returns `true` if and only if `bt` is a Java
primitive type, `vlen > 1`, `vlen` is a power of two, the oracle reports
`vector_size_supported(bt, vlen)`, `VectorNode::opcode(opc, bt)` returns a value `> 0`, and the
oracle reports `match_rule_supported_vector` for that resolved opcode at `(vlen, bt)`. -/
theorem implemented_iff (M : Matcher) (ASSERT : Bool) (opc : Opcodes) (vlen : Nat)
    (bt : BasicType) :
    VectorNode.implemented M ASSERT opc vlen bt = .ok true ↔
      is_java_primitive bt = true ∧ vlen > 1 ∧ (∃ k, vlen = 2 ^ k) ∧
      M.vector_size_supported bt vlen = true ∧
      ∃ vopc, VectorNode.opcode ASSERT opc bt = .ok vopc ∧ vopc.gt0 = true ∧
        M.match_rule_supported_vector vopc vlen bt = true := by
  unfold VectorNode.implemented
  rw [← is_power_of_2_iff]
  by_cases hc : (is_java_primitive bt && decide (vlen > 1) && is_power_of_2 vlen &&
      M.vector_size_supported bt vlen) = true
  · rw [if_pos hc]
    simp only [Bool.and_eq_true, decide_eq_true_eq] at hc
    obtain ⟨⟨⟨h1, h2⟩, h3⟩, h4⟩ := hc
    cases hop : VectorNode.opcode ASSERT opc bt with
    | error e =>
      constructor
      · intro h; cases h
      · rintro ⟨_, _, _, _, vopc, hv, _⟩; cases hv
    | ok v =>
      constructor
      · intro h
        have hb : (v.gt0 && M.match_rule_supported_vector v vlen bt) = true :=
          Except.ok.inj h
        simp only [Bool.and_eq_true] at hb
        exact ⟨h1, h2, h3, h4, v, rfl, hb.1, hb.2⟩
      · rintro ⟨_, _, _, _, vopc, hv, hg, hm⟩
        cases hv
        show Except.ok (v.gt0 && M.match_rule_supported_vector v vlen bt) = Except.ok true
        rw [hg, hm]; rfl
  · rw [if_neg hc]
    constructor
    · intro h; cases h
    · rintro ⟨h1, h2, h3, h4, _⟩
      exact absurd (by simp [h1, h2, h3, h4]) hc

/-- C6 (counterexample): the dedicated sub-word opcode `Op_URShiftB` with element type byte
resolves to `Op_URShiftVB`, and `Op_URShiftS` with short to `Op_URShiftVS`, in both build
kinds; neither returns the sentinel. -/
theorem urshift_subword_counterexample :
    VectorNode.opcode false .Op_URShiftB .T_BYTE = .ok .Op_URShiftVB ∧
    VectorNode.opcode true .Op_URShiftB .T_BYTE = .ok .Op_URShiftVB ∧
    VectorNode.opcode false .Op_URShiftS .T_SHORT = .ok .Op_URShiftVS ∧
    VectorNode.opcode true .Op_URShiftS .T_SHORT = .ok .Op_URShiftVS ∧
    VectorNode.opcode false .Op_URShiftB .T_BYTE ≠ .ok 0 ∧
    VectorNode.opcode true .Op_URShiftB .T_BYTE ≠ .ok 0 := by
  refine ⟨rfl, rfl, rfl, rfl, ?_, ?_⟩ <;>
    (intro h
     have h2 : (Except.ok Opcodes.Op_URShiftVB : Except Abort Opcodes) = .ok (Opcodes.raw 0) := h
     cases h2)

/-- C6 (amended): `Op_URShiftI` with element type byte or short resolves to the sentinel 0;
`Op_URShiftB` with byte resolves to `Op_URShiftVB` and `Op_URShiftS` with short to
`Op_URShiftVS`; with the other of the two element types these two opcodes fail their
assertion in a debug build and return their vector opcode in a product build. -/
theorem urshift_on_byte_and_short (ASSERT : Bool) :
    VectorNode.opcode ASSERT .Op_URShiftI .T_BYTE = .ok 0 ∧
    VectorNode.opcode ASSERT .Op_URShiftI .T_SHORT = .ok 0 ∧
    VectorNode.opcode ASSERT .Op_URShiftB .T_BYTE = .ok .Op_URShiftVB ∧
    VectorNode.opcode ASSERT .Op_URShiftS .T_SHORT = .ok .Op_URShiftVS ∧
    VectorNode.opcode true .Op_URShiftB .T_SHORT = .error .assert_failed ∧
    VectorNode.opcode true .Op_URShiftS .T_BYTE = .error .assert_failed ∧
    VectorNode.opcode false .Op_URShiftB .T_SHORT = .ok .Op_URShiftVB ∧
    VectorNode.opcode false .Op_URShiftS .T_BYTE = .ok .Op_URShiftVS := by
  cases ASSERT <;> exact ⟨rfl, rfl, rfl, rfl, rfl, rfl, rfl, rfl⟩

/-- C7: when `VectorNode::opcode(opc, bt)` is the sentinel 0, both scalar-opcode factories
`make(opc, n1, n2, vlen, bt)` and `make(opc, n1, n2, n3, vlen, bt)` fail their guarantee, for
all operands and lane counts, and return no node; likewise both vector-opcode factories fail
their guarantee for every `vopc <= 0`. -/
theorem make_aborts_on_unresolved (ASSERT : Bool) (opc : Opcodes) (bt : BasicType)
    (n1 n2 n3 : Node) (vlen : Nat) (vt : TypeVect)
    (h : VectorNode.opcode ASSERT opc bt = .ok 0) :
    VectorNode.make ASSERT opc n1 n2 vlen bt = .error .guarantee_failed ∧
    VectorNode.make3 ASSERT opc n1 n2 n3 vlen bt = .error .guarantee_failed ∧
    ∀ n : Int, n ≤ 0 →
      VectorNode.make_vopc (.raw n) n1 n2 vt = .error .guarantee_failed ∧
      VectorNode.make3_vopc (.raw n) n1 n2 n3 vt = .error .guarantee_failed := by
  refine ⟨?_, ?_, ?_⟩
  · unfold VectorNode.make
    rw [h]; rfl
  · unfold VectorNode.make3
    rw [h]; rfl
  · intro n hn
    have hv : (Opcodes.raw n).gt0 = false := decide_eq_false (by omega)
    constructor
    · unfold VectorNode.make_vopc
      rw [hv]; rfl
    · unfold VectorNode.make3_vopc
      rw [hv]; rfl

/-- Witness of C7 at (multiply, boolean) with 8 lanes, and at the opcode value -1. -/
theorem make_aborts_on_unresolved_witness :
    VectorNode.opcode true .Op_MulI .T_BOOLEAN = .ok 0 ∧
    VectorNode.make true .Op_MulI .NULL .NULL 8 .T_BOOLEAN = .error .guarantee_failed ∧
    VectorNode.make3 true .Op_MulI .NULL .NULL .NULL 8 .T_BOOLEAN = .error .guarantee_failed ∧
    VectorNode.make_vopc (.raw (-1)) .NULL .NULL (TypeVect.make .T_BYTE 8)
      = .error .guarantee_failed :=
  have w := make_aborts_on_unresolved true .Op_MulI .T_BOOLEAN .NULL .NULL .NULL 8
    (TypeVect.make .T_BYTE 8) rfl
  ⟨rfl, w.1, w.2.1, (w.2.2 (-1) (by decide)).1⟩

/-- C9 (counterexample): an oracle that reports the 4-lane int width as supported but has no
match rule for `Op_AddVI`; `implemented(Op_AddI, 4, T_INT)` returns `false`. -/
theorem implemented_add_int_counterexample :
    Matcher.width_only.vector_size_supported .T_INT 4 = true ∧
    VectorNode.implemented Matcher.width_only false .Op_AddI 4 .T_INT = .ok false ∧
    VectorNode.implemented Matcher.width_only true .Op_AddI 4 .T_INT = .ok false :=
  ⟨rfl, rfl, rfl⟩

/-- C9 (amended): `VectorNode::opcode(Op_AddI, T_INT)` is `Op_AddVI`, and
`implemented(Op_AddI, 4, T_INT)` returns `true` whenever the oracle reports both
`vector_size_supported(T_INT, 4)` and `match_rule_supported_vector(Op_AddVI, 4, T_INT)`. -/
theorem implemented_add_int (M : Matcher) (ASSERT : Bool)
    (hsize : M.vector_size_supported .T_INT 4 = true)
    (hrule : M.match_rule_supported_vector .Op_AddVI 4 .T_INT = true) :
    VectorNode.opcode ASSERT .Op_AddI .T_INT = .ok .Op_AddVI ∧
    VectorNode.implemented M ASSERT .Op_AddI 4 .T_INT = .ok true := by
  refine ⟨rfl, ?_⟩
  have hop : VectorNode.opcode ASSERT .Op_AddI .T_INT = .ok .Op_AddVI := rfl
  unfold VectorNode.implemented
  rw [hop, hsize]
  show Except.ok (Opcodes.gt0 .Op_AddVI && M.match_rule_supported_vector .Op_AddVI 4 .T_INT)
    = Except.ok true
  rw [hrule]; rfl

/-- Witness of C9 (amended) at the oracle that supports everything. -/
theorem implemented_add_int_witness :
    VectorNode.opcode true .Op_AddI .T_INT = .ok .Op_AddVI ∧
    VectorNode.implemented Matcher.all_supported true .Op_AddI 4 .T_INT = .ok true :=
  implemented_add_int Matcher.all_supported true rfl rfl

/-- C10: for `Op_AddI`, `Op_SubI` and `Op_MulI` the resolver maps boolean and byte to the
byte-lane vector opcode, char and short to the short-lane opcode and int to the int-lane
opcode, except that (`Op_MulI`, boolean) gives 0; and `Op_{Add,Sub,Mul}{L,F,D}` with their own
element type map to the matching `VL` / `VF` / `VD` opcode. -/
theorem add_sub_mul_matrix (ASSERT : Bool) :
    VectorNode.opcode ASSERT .Op_AddI .T_BOOLEAN = .ok .Op_AddVB ∧
    VectorNode.opcode ASSERT .Op_AddI .T_BYTE = .ok .Op_AddVB ∧
    VectorNode.opcode ASSERT .Op_AddI .T_CHAR = .ok .Op_AddVS ∧
    VectorNode.opcode ASSERT .Op_AddI .T_SHORT = .ok .Op_AddVS ∧
    VectorNode.opcode ASSERT .Op_AddI .T_INT = .ok .Op_AddVI ∧
    VectorNode.opcode ASSERT .Op_SubI .T_BOOLEAN = .ok .Op_SubVB ∧
    VectorNode.opcode ASSERT .Op_SubI .T_BYTE = .ok .Op_SubVB ∧
    VectorNode.opcode ASSERT .Op_SubI .T_CHAR = .ok .Op_SubVS ∧
    VectorNode.opcode ASSERT .Op_SubI .T_SHORT = .ok .Op_SubVS ∧
    VectorNode.opcode ASSERT .Op_SubI .T_INT = .ok .Op_SubVI ∧
    VectorNode.opcode ASSERT .Op_MulI .T_BOOLEAN = .ok 0 ∧
    VectorNode.opcode ASSERT .Op_MulI .T_BYTE = .ok .Op_MulVB ∧
    VectorNode.opcode ASSERT .Op_MulI .T_CHAR = .ok .Op_MulVS ∧
    VectorNode.opcode ASSERT .Op_MulI .T_SHORT = .ok .Op_MulVS ∧
    VectorNode.opcode ASSERT .Op_MulI .T_INT = .ok .Op_MulVI ∧
    VectorNode.opcode ASSERT .Op_AddL .T_LONG = .ok .Op_AddVL ∧
    VectorNode.opcode ASSERT .Op_AddF .T_FLOAT = .ok .Op_AddVF ∧
    VectorNode.opcode ASSERT .Op_AddD .T_DOUBLE = .ok .Op_AddVD ∧
    VectorNode.opcode ASSERT .Op_SubL .T_LONG = .ok .Op_SubVL ∧
    VectorNode.opcode ASSERT .Op_SubF .T_FLOAT = .ok .Op_SubVF ∧
    VectorNode.opcode ASSERT .Op_SubD .T_DOUBLE = .ok .Op_SubVD ∧
    VectorNode.opcode ASSERT .Op_MulL .T_LONG = .ok .Op_MulVL ∧
    VectorNode.opcode ASSERT .Op_MulF .T_FLOAT = .ok .Op_MulVF ∧
    VectorNode.opcode ASSERT .Op_MulD .T_DOUBLE = .ok .Op_MulVD := by
  cases ASSERT <;>
    exact ⟨rfl, rfl, rfl, rfl, rfl, rfl, rfl, rfl, rfl, rfl, rfl, rfl, rfl, rfl, rfl, rfl,
      rfl, rfl, rfl, rfl, rfl, rfl, rfl, rfl⟩

/-! ## Auxiliary facts on reductions and packs -/

/-- A value of `w` bits is left unchanged by wrap-around. -/
theorem wrap_32_of_mem (v : Int) (h : -2 ^ 31 ≤ v ∧ v < 2 ^ 31) : wrap 32 v = v := by
  unfold wrap
  norm_num at h ⊢
  omega

/-- A value of 64 bits is left unchanged by wrap-around. -/
theorem wrap_64_of_mem (v : Int) (h : -2 ^ 63 ≤ v ∧ v < 2 ^ 63) : wrap 64 v = v := by
  unfold wrap
  norm_num at h ⊢
  omega

/-- All bits set is neutral for bitwise and. -/
theorem land_minus_one (v : Int) : Int.land (-1) v = v := by
  cases v with
  | ofNat n =>
    show ((Nat.ldiff n 0 : Nat) : Int) = (n : Int)
    congr 1
    apply Nat.eq_of_testBit_eq
    intro i
    simp [Nat.ldiff, Nat.testBit_bitwise]
  | negSucc n =>
    show Int.negSucc (0 ||| n) = Int.negSucc n
    rw [Nat.zero_or]

/-- Zero is neutral for bitwise or. -/
theorem lor_zero_left (v : Int) : Int.lor 0 v = v := by
  cases v with
  | ofNat n =>
    show ((0 ||| n : Nat) : Int) = (n : Int)
    rw [Nat.zero_or]
  | negSucc n =>
    show Int.negSucc (Nat.ldiff n 0) = Int.negSucc n
    congr 1
    apply Nat.eq_of_testBit_eq
    intro i
    simp [Nat.ldiff, Nat.testBit_bitwise]

/-- Zero is neutral for bitwise exclusive or. -/
theorem xor_zero_left (v : Int) : Int.xor 0 v = v := by
  cases v with
  | ofNat n =>
    show ((0 ^^^ n : Nat) : Int) = (n : Int)
    rw [Nat.zero_xor]
  | negSucc n =>
    show Int.negSucc (0 ^^^ n) = Int.negSucc n
    rw [Nat.zero_xor]

/-- A satisfied check passes in both build kinds. -/
theorem vm_assert_true (ASSERT : Bool) : vm_assert ASSERT true = .ok () := by
  cases ASSERT <;> rfl


namespace ReductionNode

set_option maxHeartbeats 4000000 in
/-- The classification holds of every call of `ReductionNode::opcode`. -/
theorem reduction_opcode_check_eq_true (ASSERT : Bool) (opc : Opcodes) (bt : BasicType) :
    opcode_check ASSERT opc bt = true := by
  cases opc with
  | raw n =>
    have e : opcode ASSERT (.raw n) bt = .ok (.raw n) := rfl
    unfold opcode_check
    rw [e]
    simp
  | _ => cases bt <;> cases ASSERT <;> rfl

/-- A value returned by `ReductionNode::opcode` that is neither the opcode itself nor the
sentinel is one of the thirteen reduction opcodes. -/
theorem opcode_mem_reduction_opcodes (ASSERT : Bool) (opc : Opcodes) (bt : BasicType)
    (v : Opcodes) (h : opcode ASSERT opc bt = .ok v) (hne : v ≠ opc) (h0 : v ≠ 0) :
    v ∈ reduction_opcodes := by
  have hc := reduction_opcode_check_eq_true ASSERT opc bt
  unfold opcode_check at hc
  rw [h] at hc
  simp only [Bool.or_eq_true, Bool.and_eq_true, beq_iff_eq, decide_eq_true_eq] at hc
  rcases hc with (hc | hc) | hc
  · exact absurd hc hne
  · exact absurd hc h0
  · exact hc.1

/-- A pair that resolves in a debug build is one of the resolved pairs. -/
theorem opcode_mem_resolved_pairs (opc : Opcodes) (bt : BasicType)
    (v : Opcodes) (h : opcode true opc bt = .ok v) (hne : v ≠ opc) (h0 : v ≠ 0) :
    (opc, bt, v) ∈ resolved_pairs := by
  have hc := reduction_opcode_check_eq_true true opc bt
  unfold opcode_check at hc
  rw [h] at hc
  simp only [Bool.or_eq_true, Bool.and_eq_true, beq_iff_eq, decide_eq_true_eq,
    Bool.not_true, Bool.false_or] at hc
  rcases hc with (hc | hc) | hc
  · exact absurd hc hne
  · exact absurd hc h0
  · exact hc.2

end ReductionNode

/-! ## The claims on reductions, operand ranges, shift counts and packs -/

/-- C11: for each reducible int-family opcode (`Op_AddI`, `Op_MulI`, `Op_MinI`, `Op_MaxI`,
`Op_AndI`, `Op_OrI`, `Op_XorI`) `ReductionNode::opcode` returns the sentinel 0 for boolean and
char and, for byte, short and int, the reduction opcode of the family; and the long, float
and double forms with their own element type return the matching reduction opcode. -/
theorem reduction_opcode_matrix (ASSERT : Bool) (opc red : Opcodes)
    (h : (opc, red) ∈
      [(Opcodes.Op_AddI, Opcodes.Op_AddReductionVI), (.Op_MulI, .Op_MulReductionVI),
       (.Op_MinI, .Op_MinReductionV), (.Op_MaxI, .Op_MaxReductionV),
       (.Op_AndI, .Op_AndReductionV), (.Op_OrI, .Op_OrReductionV),
       (.Op_XorI, .Op_XorReductionV)]) :
    (ReductionNode.opcode ASSERT opc .T_BOOLEAN = .ok 0 ∧
     ReductionNode.opcode ASSERT opc .T_CHAR = .ok 0 ∧
     ReductionNode.opcode ASSERT opc .T_BYTE = .ok red ∧
     ReductionNode.opcode ASSERT opc .T_SHORT = .ok red ∧
     ReductionNode.opcode ASSERT opc .T_INT = .ok red) ∧
    (ReductionNode.opcode ASSERT .Op_AddL .T_LONG = .ok .Op_AddReductionVL ∧
     ReductionNode.opcode ASSERT .Op_AddF .T_FLOAT = .ok .Op_AddReductionVF ∧
     ReductionNode.opcode ASSERT .Op_AddD .T_DOUBLE = .ok .Op_AddReductionVD ∧
     ReductionNode.opcode ASSERT .Op_MulL .T_LONG = .ok .Op_MulReductionVL ∧
     ReductionNode.opcode ASSERT .Op_MulF .T_FLOAT = .ok .Op_MulReductionVF ∧
     ReductionNode.opcode ASSERT .Op_MulD .T_DOUBLE = .ok .Op_MulReductionVD ∧
     ReductionNode.opcode ASSERT .Op_MinL .T_LONG = .ok .Op_MinReductionV ∧
     ReductionNode.opcode ASSERT .Op_MinF .T_FLOAT = .ok .Op_MinReductionV ∧
     ReductionNode.opcode ASSERT .Op_MinD .T_DOUBLE = .ok .Op_MinReductionV ∧
     ReductionNode.opcode ASSERT .Op_MaxL .T_LONG = .ok .Op_MaxReductionV ∧
     ReductionNode.opcode ASSERT .Op_MaxF .T_FLOAT = .ok .Op_MaxReductionV ∧
     ReductionNode.opcode ASSERT .Op_MaxD .T_DOUBLE = .ok .Op_MaxReductionV ∧
     ReductionNode.opcode ASSERT .Op_AndL .T_LONG = .ok .Op_AndReductionV ∧
     ReductionNode.opcode ASSERT .Op_OrL .T_LONG = .ok .Op_OrReductionV ∧
     ReductionNode.opcode ASSERT .Op_XorL .T_LONG = .ok .Op_XorReductionV) := by
  constructor
  · simp only [List.mem_cons, Prod.mk.injEq, List.mem_singleton, List.not_mem_nil,
      or_false] at h
    rcases h with h | h | h | h | h | h | h <;>
      (obtain ⟨rfl, rfl⟩ := h; exact ⟨rfl, rfl, rfl, rfl, rfl⟩)
  · cases ASSERT <;>
      exact ⟨rfl, rfl, rfl, rfl, rfl, rfl, rfl, rfl, rfl, rfl, rfl, rfl, rfl, rfl, rfl⟩

/-- Witness of C11 at the family of `Op_MinI` in a debug build. -/
theorem reduction_opcode_matrix_witness :
    ReductionNode.opcode true .Op_MinI .T_BOOLEAN = .ok 0 ∧
    ReductionNode.opcode true .Op_MinI .T_CHAR = .ok 0 ∧
    ReductionNode.opcode true .Op_MinI .T_BYTE = .ok .Op_MinReductionV ∧
    ReductionNode.opcode true .Op_MinI .T_SHORT = .ok .Op_MinReductionV ∧
    ReductionNode.opcode true .Op_MinI .T_INT = .ok .Op_MinReductionV :=
  (reduction_opcode_matrix true .Op_MinI .Op_MinReductionV (by simp)).1

/-- C12 (evaluation at the failing input): (`Op_AddI`, boolean) is unsupported,
`ReductionNode::opcode` returns the sentinel 0 for it, yet
`ReductionNode::implemented(Op_AddI, 4, T_BOOLEAN)` returns `true` under an oracle that
answers `true` to every query: the test `vopc != opc` lets the sentinel through and the
result is the oracle's answer for opcode 0.  `VectorNode::implemented`, which tests
`vopc > 0`, returns `false` for the unsupported pair (`Op_MulI`, boolean) under the same
oracle, and `ReductionNode::make` aborts on (`Op_AddI`, boolean). -/
theorem reduction_implemented_lets_sentinel_through :
    ReductionNode.opcode false .Op_AddI .T_BOOLEAN = .ok 0 ∧
    ReductionNode.opcode true .Op_AddI .T_BOOLEAN = .ok 0 ∧
    ReductionNode.implemented Matcher.all_supported false .Op_AddI 4 .T_BOOLEAN = .ok true ∧
    ReductionNode.implemented Matcher.all_supported true .Op_AddI 4 .T_BOOLEAN = .ok true ∧
    ReductionNode.implemented Matcher.width_only true .Op_AddI 4 .T_BOOLEAN = .ok false ∧
    VectorNode.implemented Matcher.all_supported true .Op_MulI 4 .T_BOOLEAN = .ok false ∧
    ReductionNode.make true .Op_AddI .NULL .NULL .NULL .T_BOOLEAN = .error .fatal :=
  ⟨rfl, rfl, rfl, rfl, rfl, rfl, rfl⟩

/-- C13: `ReductionNode::make(opc, ctrl, n1, n2, bt)` aborts whenever the opcode is
unresolved, that is whenever `ReductionNode::opcode(opc, bt)` returns `opc` itself (the
guarantee fails; this is the case of every one of the thirteen reduction opcodes) or returns
the sentinel 0 (the fatal default branch); in every other case where the resolver returns a
value, `make` returns the node of the resolved reduction opcode with inputs `ctrl`, `n1`,
`n2` in that order. -/
theorem reduction_make (ASSERT : Bool) (opc : Opcodes) (ctrl n1 n2 : Node) (bt : BasicType)
    (v : Opcodes) (h : ReductionNode.opcode ASSERT opc bt = .ok v) :
    (v = opc → ReductionNode.make ASSERT opc ctrl n1 n2 bt = .error .guarantee_failed) ∧
    (v = 0 → v ≠ opc → ReductionNode.make ASSERT opc ctrl n1 n2 bt = .error .fatal) ∧
    (v ≠ 0 → v ≠ opc →
      v ∈ ReductionNode.reduction_opcodes ∧
      ReductionNode.make ASSERT opc ctrl n1 n2 bt = .ok (.mk v [ctrl, n1, n2] none)) ∧
    (opc ∈ ReductionNode.reduction_opcodes → v = opc) := by
  refine ⟨?_, ?_, ?_, ?_⟩
  · intro hv
    have hb : (v != opc) = false := by simp [hv]
    unfold ReductionNode.make
    rw [h]
    show (guarantee (v != opc) >>= fun _ => _) = _
    rw [hb]; rfl
  · intro hv hne
    have hb : (v != opc) = true := by simpa using hne
    subst hv
    unfold ReductionNode.make
    rw [h]
    show (guarantee ((0 : Opcodes) != opc) >>= fun _ => _) = _
    rw [hb]; rfl
  · intro h0 hne
    have hmem := ReductionNode.opcode_mem_reduction_opcodes ASSERT opc bt v h hne h0
    have hb : (v != opc) = true := by simpa using hne
    refine ⟨hmem, ?_⟩
    unfold ReductionNode.make
    rw [h]
    show (guarantee (v != opc) >>= fun _ => _) = _
    rw [hb]
    simp only [ReductionNode.reduction_opcodes, List.mem_cons, List.mem_singleton,
      List.not_mem_nil, or_false] at hmem
    rcases hmem with rfl | rfl | rfl | rfl | rfl | rfl | rfl | rfl | rfl | rfl | rfl | rfl | rfl
      <;> rfl
  · intro hopc
    simp only [ReductionNode.reduction_opcodes, List.mem_cons, List.mem_singleton,
      List.not_mem_nil, or_false] at hopc
    rcases hopc with rfl | rfl | rfl | rfl | rfl | rfl | rfl | rfl | rfl | rfl | rfl | rfl | rfl
      <;> exact (Except.ok.inj h).symm

/-- Witness of C13 at (`Op_AddI`, int), which resolves to `Op_AddReductionVI`. -/
theorem reduction_make_witness :
    Opcodes.Op_AddReductionVI ∈ ReductionNode.reduction_opcodes ∧
    ReductionNode.make true .Op_AddI .NULL .NULL .NULL .T_INT
      = .ok (.mk .Op_AddReductionVI [.NULL, .NULL, .NULL] none) :=
  (reduction_make true .Op_AddI .NULL .NULL .NULL .T_INT .Op_AddReductionVI rfl).2.2.1
    (by decide) (by decide)

/-- C14: reduction identity law over the integer element types.  For every pair (`opc`, `bt`)
that `ReductionNode::opcode` resolves to a reduction opcode, with `bt` one of byte, short, int
and long, and every value `v` of the accumulator type (a 32-bit int for byte, short and int, a
64-bit long for long), `ReductionNode::make_reduction_input(opc, bt)` returns a constant `k`
of the accumulator type, and combining `k` with `v` by the scalar operation of `opc` yields
`v`: `0 + v`, `1 * v`, `(-1) & v`, `0 | v`, `0 ^ v`, `min(MAX, v)`, `max(MIN, v)`. -/
theorem reduction_identity_law (ASSERT : Bool) (opc : Opcodes) (bt : BasicType)
    (vopc : Opcodes) (v : Int)
    (hres : ∀ A, ReductionNode.opcode A opc bt = .ok vopc) (h0 : vopc ≠ 0) (hne : vopc ≠ opc)
    (hbt : bt ∈ [BasicType.T_BYTE, .T_SHORT, .T_INT, .T_LONG])
    (hv : if bt = .T_LONG then -2 ^ 63 ≤ v ∧ v < 2 ^ 63 else -2 ^ 31 ≤ v ∧ v < 2 ^ 31) :
    ∃ k : Int,
      ReductionNode.make_reduction_input ASSERT opc bt
        = .ok (PhaseGVN.makecon (if bt = .T_LONG then .long k else .int k)) ∧
      scalar_op opc k v = some v := by
  have hmem := ReductionNode.opcode_mem_resolved_pairs opc bt vopc (hres true) hne h0
  simp only [ReductionNode.resolved_pairs, List.mem_cons, Prod.mk.injEq, List.mem_singleton,
    List.not_mem_nil, or_false] at hmem
  have w32 : ∀ x : Int, (-2 ^ 31 ≤ v ∧ v < 2 ^ 31) → x = v → wrap 32 x = v :=
    fun x hx e => e ▸ wrap_32_of_mem v hx
  have w64 : ∀ x : Int, (-2 ^ 63 ≤ v ∧ v < 2 ^ 63) → x = v → wrap 64 x = v :=
    fun x hx e => e ▸ wrap_64_of_mem v hx
  rcases hmem with h | h | h | h | h | h | h | h | h | h | h | h | h | h | h | h | h | h | h | h | h | h | h | h | h | h | h | h | h | h | h | h | h | h | h | h <;>
    obtain ⟨rfl, rfl, rfl⟩ := h <;>
    first
    | exact absurd hbt (by decide)
    | (have hv32 : -2 ^ 31 ≤ v ∧ v < 2 ^ 31 := hv
       first
       | exact ⟨0, by cases ASSERT <;> rfl, congrArg some (w32 _ hv32 (zero_add v))⟩
       | exact ⟨1, by cases ASSERT <;> rfl, congrArg some (w32 _ hv32 (one_mul v))⟩
       | exact ⟨-1, by cases ASSERT <;> rfl, congrArg some (land_minus_one v)⟩
       | exact ⟨0, by cases ASSERT <;> rfl, congrArg some (lor_zero_left v)⟩
       | exact ⟨0, by cases ASSERT <;> rfl, congrArg some (xor_zero_left v)⟩
       | exact ⟨2 ^ 31 - 1, by cases ASSERT <;> rfl,
           congrArg some (min_eq_right (by norm_num at hv32 ⊢; omega))⟩
       | exact ⟨-2 ^ 31, by cases ASSERT <;> rfl,
           congrArg some (max_eq_right (by norm_num at hv32 ⊢; omega))⟩)
    | (have hv64 : -2 ^ 63 ≤ v ∧ v < 2 ^ 63 := hv
       first
       | exact ⟨0, by cases ASSERT <;> rfl, congrArg some (w64 _ hv64 (zero_add v))⟩
       | exact ⟨1, by cases ASSERT <;> rfl, congrArg some (w64 _ hv64 (one_mul v))⟩
       | exact ⟨-1, by cases ASSERT <;> rfl, congrArg some (land_minus_one v)⟩
       | exact ⟨0, by cases ASSERT <;> rfl, congrArg some (lor_zero_left v)⟩
       | exact ⟨0, by cases ASSERT <;> rfl, congrArg some (xor_zero_left v)⟩
       | exact ⟨2 ^ 63 - 1, by cases ASSERT <;> rfl,
           congrArg some (min_eq_right (by norm_num at hv64 ⊢; omega))⟩
       | exact ⟨-2 ^ 63, by cases ASSERT <;> rfl,
           congrArg some (max_eq_right (by norm_num at hv64 ⊢; omega))⟩)

/-- Witness of C14 at (`Op_MinI`, byte) and the value -128. -/
theorem reduction_identity_law_witness :
    ∃ k : Int,
      ReductionNode.make_reduction_input true .Op_MinI .T_BYTE
        = .ok (PhaseGVN.makecon (if BasicType.T_BYTE = .T_LONG then .long k else .int k)) ∧
      scalar_op .Op_MinI k (-128) = some (-128) :=
  reduction_identity_law true .Op_MinI .T_BYTE .Op_MinReductionV (-128)
    (fun A => by cases A <;> rfl) (by decide) (by decide) (by decide) (by decide)

/-- C15 (counterexample): for a MIN reduction over byte the neutral element chosen is the int
constant 2^31 - 1, the same constant as for int, not 127; for short it is 2^31 - 1, not
32767; and for a MAX reduction over byte and short it is -2^31, not -128 or -32768. -/
theorem reduction_min_max_seed_counterexample :
    ReductionNode.make_reduction_input false .Op_MinI .T_BYTE
      = .ok (PhaseGVN.makecon (.int 2147483647)) ∧
    ReductionNode.make_reduction_input false .Op_MinI .T_BYTE
      ≠ .ok (PhaseGVN.makecon (.int 127)) ∧
    ReductionNode.make_reduction_input false .Op_MinI .T_BYTE
      = ReductionNode.make_reduction_input false .Op_MinI .T_INT ∧
    ReductionNode.make_reduction_input false .Op_MinI .T_SHORT
      = .ok (PhaseGVN.makecon (.int 2147483647)) ∧
    ReductionNode.make_reduction_input false .Op_MaxI .T_BYTE
      = .ok (PhaseGVN.makecon (.int (-2147483648))) ∧
    ReductionNode.make_reduction_input false .Op_MaxI .T_SHORT
      = .ok (PhaseGVN.makecon (.int (-2147483648))) ∧
    ReductionNode.make_reduction_input true .Op_MinI .T_BYTE
      = .ok (PhaseGVN.makecon (.int 2147483647)) := by
  refine ⟨rfl, ?_, rfl, rfl, rfl, rfl, rfl⟩
  intro h
  have h2 : (Except.ok (PhaseGVN.makecon (.int 2147483647)) : Except Abort ConNode)
      = .ok (PhaseGVN.makecon (.int 127)) := h
  have h3 : (2147483647 : Int) = 127 := by
    injection h2 with h2
    injection h2 with h2
    injection h2
  exact absurd h3 (by decide)

/-- C15 (amended): the neutral element chosen by `ReductionNode::make_reduction_input` for a
MIN reduction is the maximum of the accumulator type: the int maximum 2^31 - 1 for byte, short
and int, the long maximum 2^63 - 1 for long, +infinity for float and double; and for a MAX
reduction it is the minimum of the accumulator type: -2^31 for byte, short and int, -2^63 for
long, -infinity for float and double. -/
theorem reduction_min_max_seed (ASSERT : Bool) :
    ReductionNode.make_reduction_input ASSERT .Op_MinI .T_BYTE
      = .ok (PhaseGVN.makecon (.int (2 ^ 31 - 1))) ∧
    ReductionNode.make_reduction_input ASSERT .Op_MinI .T_SHORT
      = .ok (PhaseGVN.makecon (.int (2 ^ 31 - 1))) ∧
    ReductionNode.make_reduction_input ASSERT .Op_MinI .T_INT
      = .ok (PhaseGVN.makecon (.int (2 ^ 31 - 1))) ∧
    ReductionNode.make_reduction_input ASSERT .Op_MinL .T_LONG
      = .ok (PhaseGVN.makecon (.long (2 ^ 63 - 1))) ∧
    ReductionNode.make_reduction_input ASSERT .Op_MinF .T_FLOAT
      = .ok (PhaseGVN.makecon (.float .pos_inf)) ∧
    ReductionNode.make_reduction_input ASSERT .Op_MinD .T_DOUBLE
      = .ok (PhaseGVN.makecon (.double .pos_inf)) ∧
    ReductionNode.make_reduction_input ASSERT .Op_MaxI .T_BYTE
      = .ok (PhaseGVN.makecon (.int (-2 ^ 31))) ∧
    ReductionNode.make_reduction_input ASSERT .Op_MaxI .T_SHORT
      = .ok (PhaseGVN.makecon (.int (-2 ^ 31))) ∧
    ReductionNode.make_reduction_input ASSERT .Op_MaxI .T_INT
      = .ok (PhaseGVN.makecon (.int (-2 ^ 31))) ∧
    ReductionNode.make_reduction_input ASSERT .Op_MaxL .T_LONG
      = .ok (PhaseGVN.makecon (.long (-2 ^ 63))) ∧
    ReductionNode.make_reduction_input ASSERT .Op_MaxF .T_FLOAT
      = .ok (PhaseGVN.makecon (.float .neg_inf)) ∧
    ReductionNode.make_reduction_input ASSERT .Op_MaxD .T_DOUBLE
      = .ok (PhaseGVN.makecon (.double .neg_inf)) := by
  cases ASSERT <;> exact ⟨rfl, rfl, rfl, rfl, rfl, rfl, rfl, rfl, rfl, rfl, rfl, rfl⟩

/-- C16: for every pair (`opc`, `bt`) that `ReductionNode::opcode` resolves to a reduction
opcode, `ReductionNode::make_reduction_input` returns a constant without aborting: the zero of
`bt` for add, or and xor reductions; the one of the accumulator type for multiply reductions
(int 1, long 1, float 1.0, double 1.0); the all-ones -1 (int for byte, short and int, long for
long) for and reductions.  In particular `ReductionNode::opcode(Op_MulD, T_DOUBLE)` is
`Op_MulReductionVD` and its neutral element is the double constant 1.0. -/
theorem reduction_neutral_element (ASSERT : Bool) (opc : Opcodes) (bt : BasicType)
    (vopc : Opcodes)
    (hres : ∀ A, ReductionNode.opcode A opc bt = .ok vopc) (h0 : vopc ≠ 0) (hne : vopc ≠ opc) :
    (∃ c, ReductionNode.make_reduction_input ASSERT opc bt = .ok c ∧
      (vopc ∈ [Opcodes.Op_AddReductionVI, .Op_AddReductionVL, .Op_AddReductionVF,
          .Op_AddReductionVD, .Op_OrReductionV, .Op_XorReductionV] →
        c = PhaseGVN.zerocon bt ∧
        (bt ∈ [BasicType.T_BYTE, .T_SHORT, .T_INT] → c = PhaseGVN.makecon (.int 0)) ∧
        (bt = .T_LONG → c = PhaseGVN.makecon (.long 0)) ∧
        (bt = .T_FLOAT → c = PhaseGVN.makecon (.float .zero)) ∧
        (bt = .T_DOUBLE → c = PhaseGVN.makecon (.double .zero))) ∧
      (vopc = .Op_MulReductionVI → c = PhaseGVN.makecon (.int 1)) ∧
      (vopc = .Op_MulReductionVL → c = PhaseGVN.makecon (.long 1)) ∧
      (vopc = .Op_MulReductionVF → c = PhaseGVN.makecon (.float .one)) ∧
      (vopc = .Op_MulReductionVD → c = PhaseGVN.makecon (.double .one)) ∧
      (vopc = .Op_AndReductionV →
        (bt ∈ [BasicType.T_BYTE, .T_SHORT, .T_INT] → c = PhaseGVN.makecon (.int (-1))) ∧
        (bt = .T_LONG → c = PhaseGVN.makecon (.long (-1))))) ∧
    ReductionNode.opcode ASSERT .Op_MulD .T_DOUBLE = .ok .Op_MulReductionVD ∧
    ReductionNode.make_reduction_input ASSERT .Op_MulD .T_DOUBLE
      = .ok (PhaseGVN.makecon (.double .one)) := by
  refine ⟨?_, by cases ASSERT <;> rfl, by cases ASSERT <;> rfl⟩
  have hmem := ReductionNode.opcode_mem_resolved_pairs opc bt vopc (hres true) hne h0
  simp only [ReductionNode.resolved_pairs, List.mem_cons, Prod.mk.injEq, List.mem_singleton,
    List.not_mem_nil, or_false] at hmem
  rcases hmem with h | h | h | h | h | h | h | h | h | h | h | h | h | h | h | h | h | h | h | h | h | h | h | h | h | h | h | h | h | h | h | h | h | h | h | h <;>
    obtain ⟨rfl, rfl, rfl⟩ := h <;>
    exact ⟨_, by cases ASSERT <;> rfl, by decide⟩

/-- Witness of C16 at (`Op_AndL`, long) in a product build. -/
theorem reduction_neutral_element_witness :
    ∃ c, ReductionNode.make_reduction_input false .Op_AndL .T_LONG = .ok c ∧
      (Opcodes.Op_AndReductionV = .Op_AndReductionV →
        (BasicType.T_LONG ∈ [BasicType.T_BYTE, .T_SHORT, .T_INT] →
          c = PhaseGVN.makecon (.int (-1))) ∧
        (BasicType.T_LONG = .T_LONG → c = PhaseGVN.makecon (.long (-1)))) :=
  have w := (reduction_neutral_element false .Op_AndL .T_LONG .Op_AndReductionV
    (fun A => by cases A <;> rfl) (by decide) (by decide)).1
  w.elim fun c hc => ⟨c, hc.1, hc.2.2.2.2.2.2⟩

/-- C17: `VectorNode::vector_operands` yields, for a node with opcode `opc` and `req` inputs:
the empty range `[0, 0)` for every scalar load opcode; `[ValueIn, ValueIn + 1)` for every
scalar store opcode; `[1, 3)` for the add, subtract, multiply, divide, and, or, xor opcodes and
`Op_MulAddS2I`; `[2, req)` for the four compare-moves; `[1, 4)` for `Op_FmaF` and `Op_FmaD`;
and `[1, req)` for every opcode that is not special-cased. -/
theorem vector_operands_ranges (ValueIn : Nat) (opc : Opcodes) (ins : List Node)
    (vt : Option TypeVect) :
    (opc ∈ [Opcodes.Op_LoadB, .Op_LoadUB, .Op_LoadS, .Op_LoadUS, .Op_LoadI, .Op_LoadL,
        .Op_LoadF, .Op_LoadD, .Op_LoadP, .Op_LoadN] →
      VectorNode.vector_operands ValueIn (.mk opc ins vt) = (0, 0)) ∧
    (opc ∈ [Opcodes.Op_StoreB, .Op_StoreC, .Op_StoreI, .Op_StoreL, .Op_StoreF, .Op_StoreD,
        .Op_StoreP, .Op_StoreN] →
      VectorNode.vector_operands ValueIn (.mk opc ins vt) = (ValueIn, ValueIn + 1)) ∧
    (opc ∈ [Opcodes.Op_AddI, .Op_AddL, .Op_AddF, .Op_AddD, .Op_SubI, .Op_SubL, .Op_SubF,
        .Op_SubD, .Op_MulI, .Op_MulL, .Op_MulF, .Op_MulD, .Op_DivF, .Op_DivD, .Op_AndI,
        .Op_AndL, .Op_OrI, .Op_OrL, .Op_XorI, .Op_XorL, .Op_MulAddS2I] →
      VectorNode.vector_operands ValueIn (.mk opc ins vt) = (1, 3)) ∧
    (opc ∈ [Opcodes.Op_CMoveI, .Op_CMoveL, .Op_CMoveF, .Op_CMoveD] →
      VectorNode.vector_operands ValueIn (.mk opc ins vt) = (2, ins.length)) ∧
    (opc ∈ [Opcodes.Op_FmaF, .Op_FmaD] →
      VectorNode.vector_operands ValueIn (.mk opc ins vt) = (1, 4)) ∧
    (opc ∉ [Opcodes.Op_LoadB, .Op_LoadUB, .Op_LoadS, .Op_LoadUS, .Op_LoadI, .Op_LoadL,
        .Op_LoadF, .Op_LoadD, .Op_LoadP, .Op_LoadN,
        .Op_StoreB, .Op_StoreC, .Op_StoreI, .Op_StoreL, .Op_StoreF, .Op_StoreD,
        .Op_StoreP, .Op_StoreN,
        .Op_LShiftI, .Op_LShiftL, .Op_RShiftI, .Op_RShiftL, .Op_URShiftI, .Op_URShiftL,
        .Op_AddI, .Op_AddL, .Op_AddF, .Op_AddD, .Op_SubI, .Op_SubL, .Op_SubF,
        .Op_SubD, .Op_MulI, .Op_MulL, .Op_MulF, .Op_MulD, .Op_DivF, .Op_DivD, .Op_AndI,
        .Op_AndL, .Op_OrI, .Op_OrL, .Op_XorI, .Op_XorL, .Op_MulAddS2I,
        .Op_CMoveI, .Op_CMoveL, .Op_CMoveF, .Op_CMoveD, .Op_FmaF, .Op_FmaD] →
      VectorNode.vector_operands ValueIn (.mk opc ins vt) = (1, ins.length)) := by
  cases opc with
  | raw n =>
    refine ⟨?_, ?_, ?_, ?_, ?_, ?_⟩ <;> intro h <;>
    first
    | rfl
    | simp at h
  | _ =>
    refine ⟨?_, ?_, ?_, ?_, ?_, ?_⟩ <;> intro h <;>
    first
    | rfl
    | exact absurd h (by decide)

/-- C18 (counterexample): `VectorNode::shift_count` builds a count node for `Op_URShiftB` and
for `Op_URShiftS`, yet on a node of either opcode with three inputs
`VectorNode::vector_operands` yields `[1, 3)`: position 2, the shift count, is reported as a
vector operand. -/
theorem shift_operands_counterexample :
    VectorNode.shift_count .Op_URShiftB .NULL 8 .T_BYTE
      = .ok (.mk .Op_RShiftCntV [.NULL, .NULL] (some ⟨.T_BYTE, 8⟩)) ∧
    VectorNode.vector_operands 3 (.mk .Op_URShiftB [.NULL, .NULL, .NULL] none) = (1, 3) ∧
    VectorNode.shift_count .Op_URShiftS .NULL 8 .T_SHORT
      = .ok (.mk .Op_RShiftCntV [.NULL, .NULL] (some ⟨.T_SHORT, 8⟩)) ∧
    VectorNode.vector_operands 3 (.mk .Op_URShiftS [.NULL, .NULL, .NULL] none) = (1, 3) :=
  ⟨rfl, rfl, rfl, rfl⟩

/-- C18 (amended): for every scalar shift opcode accepted by `VectorNode::is_shift`
(`Op_LShiftI`, `Op_LShiftL`, `Op_RShiftI`, `Op_RShiftL`, `Op_URShiftI`, `Op_URShiftL`),
`VectorNode::vector_operands` yields exactly `[1, 2)`; for `Op_URShiftB` and `Op_URShiftS`,
which neither function special-cases, it yields the default range `[1, req)`. -/
theorem shift_operands (ValueIn : Nat) (ins : List Node) (vt : Option TypeVect) :
    (∀ opc, VectorNode.is_shift (.mk opc ins vt) = true →
      VectorNode.vector_operands ValueIn (.mk opc ins vt) = (1, 2)) ∧
    VectorNode.vector_operands ValueIn (.mk .Op_LShiftI ins vt) = (1, 2) ∧
    VectorNode.vector_operands ValueIn (.mk .Op_LShiftL ins vt) = (1, 2) ∧
    VectorNode.vector_operands ValueIn (.mk .Op_RShiftI ins vt) = (1, 2) ∧
    VectorNode.vector_operands ValueIn (.mk .Op_RShiftL ins vt) = (1, 2) ∧
    VectorNode.vector_operands ValueIn (.mk .Op_URShiftI ins vt) = (1, 2) ∧
    VectorNode.vector_operands ValueIn (.mk .Op_URShiftL ins vt) = (1, 2) ∧
    VectorNode.is_shift (.mk .Op_URShiftB ins vt) = false ∧
    VectorNode.is_shift (.mk .Op_URShiftS ins vt) = false ∧
    VectorNode.vector_operands ValueIn (.mk .Op_URShiftB ins vt) = (1, ins.length) ∧
    VectorNode.vector_operands ValueIn (.mk .Op_URShiftS ins vt) = (1, ins.length) := by
  refine ⟨?_, rfl, rfl, rfl, rfl, rfl, rfl, rfl, rfl, rfl, rfl⟩
  intro opc h
  cases opc <;> first
    | rfl
    | cases h

/-- C19: `VectorNode::shift_count(opc, cnt, vlen, bt)` builds a left-count node
(`LShiftCntV`) exactly for `Op_LShiftI` and `Op_LShiftL`, a right-count node (`RShiftCntV`)
exactly for `Op_RShiftI`, `Op_RShiftL`, `Op_URShiftB`, `Op_URShiftS`, `Op_URShiftI` and
`Op_URShiftL`, and aborts for every other opcode; the node built has the single operand `cnt`
and vector type `(bt, vlen)`, and `is_vector_shift_count` holds of its opcode. -/
theorem shift_count_kinds (ASSERT : Bool) (last_machine_leaf last_opcode : Int)
    (opc : Opcodes) (cnt : Node) (vlen : Nat) (bt : BasicType) :
    (opc ∈ [Opcodes.Op_LShiftI, .Op_LShiftL] ↔
      VectorNode.shift_count opc cnt vlen bt
        = .ok (.mk .Op_LShiftCntV [.NULL, cnt] (some ⟨bt, vlen⟩))) ∧
    (opc ∈ [Opcodes.Op_RShiftI, .Op_RShiftL, .Op_URShiftB, .Op_URShiftS, .Op_URShiftI,
        .Op_URShiftL] ↔
      VectorNode.shift_count opc cnt vlen bt
        = .ok (.mk .Op_RShiftCntV [.NULL, cnt] (some ⟨bt, vlen⟩))) ∧
    (opc ∉ [Opcodes.Op_LShiftI, .Op_LShiftL, .Op_RShiftI, .Op_RShiftL, .Op_URShiftB,
        .Op_URShiftS, .Op_URShiftI, .Op_URShiftL] ↔
      VectorNode.shift_count opc cnt vlen bt = .error .fatal) ∧
    (∀ node, VectorNode.shift_count opc cnt vlen bt = .ok node →
      VectorNode.is_vector_shift_count ASSERT last_machine_leaf last_opcode node.Opcode
        = .ok true) := by
  have hl : VectorNode.is_vector_shift_count ASSERT last_machine_leaf last_opcode
      .Op_LShiftCntV = .ok true := by cases ASSERT <;> rfl
  have hr : VectorNode.is_vector_shift_count ASSERT last_machine_leaf last_opcode
      .Op_RShiftCntV = .ok true := by cases ASSERT <;> rfl
  cases opc with
  | raw n =>
    refine ⟨Iff.intro ?_ ?_, Iff.intro ?_ ?_, Iff.intro ?_ ?_, ?_⟩
    all_goals first
      | (intro h
         first
         | rfl
         | (cases h; done)
         | (simp at h; done)
         | simp)
      | (intro node h; cases h)
  | _ =>
    refine ⟨Iff.intro ?_ ?_, Iff.intro ?_ ?_, Iff.intro ?_ ?_, ?_⟩
    all_goals first
      | (intro h
         first
         | rfl
         | exact absurd h (by decide)
         | (cases h; done)
         | decide)
      | (intro node h; cases h <;> exact hl)

/-- C20: in the recursive case of `PackNode::binary_tree_pack` (a range of four or more
leaves), when the two halves are packed into `n1` and `n2` of element type `bt`, the node
returned combines them according to `bt`: boolean or byte gives `PackS` of type (short, 2);
char or short gives `PackI` of type (int, 2); int gives `PackL` of type (long, 2); long gives
`Pack2L` of type (long, 2); float gives `PackD` of type (double, 2); double gives `Pack2D` of
type (double, 2); its two inputs are `n1` then `n2`. -/
theorem binary_tree_pack_combines (ASSERT : Bool) (this : Node) (fuel : Nat) (lo hi : Int)
    (n1 n2 : Node) (bt : BasicType)
    (h4 : 4 ≤ hi - lo) (hpow : is_power_of_2_int (hi - lo) = true)
    (h1 : PackNode.binary_tree_pack ASSERT this fuel lo (lo + (hi - lo).tdiv 2)
      = some (.ok n1))
    (h2 : PackNode.binary_tree_pack ASSERT this fuel (lo + (hi - lo).tdiv 2) hi
      = some (.ok n2))
    (hb1 : n1.element_basic_type = bt) (hb2 : n2.element_basic_type = bt) :
    (bt ∈ [BasicType.T_BOOLEAN, .T_BYTE] →
      PackNode.binary_tree_pack ASSERT this (fuel + 1) lo hi
        = some (.ok (.mk .Op_PackS [.NULL, n1, n2] (some ⟨.T_SHORT, 2⟩)))) ∧
    (bt ∈ [BasicType.T_CHAR, .T_SHORT] →
      PackNode.binary_tree_pack ASSERT this (fuel + 1) lo hi
        = some (.ok (.mk .Op_PackI [.NULL, n1, n2] (some ⟨.T_INT, 2⟩)))) ∧
    (bt = .T_INT →
      PackNode.binary_tree_pack ASSERT this (fuel + 1) lo hi
        = some (.ok (.mk .Op_PackL [.NULL, n1, n2] (some ⟨.T_LONG, 2⟩)))) ∧
    (bt = .T_LONG →
      PackNode.binary_tree_pack ASSERT this (fuel + 1) lo hi
        = some (.ok (.mk .Op_Pack2L [.NULL, n1, n2] (some ⟨.T_LONG, 2⟩)))) ∧
    (bt = .T_FLOAT →
      PackNode.binary_tree_pack ASSERT this (fuel + 1) lo hi
        = some (.ok (.mk .Op_PackD [.NULL, n1, n2] (some ⟨.T_DOUBLE, 2⟩)))) ∧
    (bt = .T_DOUBLE →
      PackNode.binary_tree_pack ASSERT this (fuel + 1) lo hi
        = some (.ok (.mk .Op_Pack2D [.NULL, n1, n2] (some ⟨.T_DOUBLE, 2⟩)))) := by
  have hne : ¬ (hi - lo = 2) := by omega
  have e : PackNode.binary_tree_pack ASSERT this (fuel + 1) lo hi
      = (match bt with
          | .T_BOOLEAN | .T_BYTE =>
            some (.ok (.mk .Op_PackS [.NULL, n1, n2] (some ⟨.T_SHORT, 2⟩)))
          | .T_CHAR | .T_SHORT =>
            some (.ok (.mk .Op_PackI [.NULL, n1, n2] (some ⟨.T_INT, 2⟩)))
          | .T_INT => some (.ok (.mk .Op_PackL [.NULL, n1, n2] (some ⟨.T_LONG, 2⟩)))
          | .T_LONG => some (.ok (.mk .Op_Pack2L [.NULL, n1, n2] (some ⟨.T_LONG, 2⟩)))
          | .T_FLOAT => some (.ok (.mk .Op_PackD [.NULL, n1, n2] (some ⟨.T_DOUBLE, 2⟩)))
          | .T_DOUBLE => some (.ok (.mk .Op_Pack2D [.NULL, n1, n2] (some ⟨.T_DOUBLE, 2⟩)))
          | _ => some (.error .fatal)) := by
    rw [PackNode.binary_tree_pack]
    simp only [hpow, vm_assert_true, if_neg hne, h1, h2, hb1, hb2, beq_self_eq_true]
    cases bt <;> rfl
  rw [e]
  refine ⟨?_, ?_, ?_, ?_, ?_, ?_⟩ <;> intro h
  · simp only [List.mem_cons, List.mem_singleton, List.not_mem_nil, or_false] at h
    rcases h with rfl | rfl <;> rfl
  · simp only [List.mem_cons, List.mem_singleton, List.not_mem_nil, or_false] at h
    rcases h with rfl | rfl <;> rfl
  all_goals (subst h; rfl)

/-- Witness of C20: four byte leaves at positions 1 to 4 are packed into a `PackS` of type
(short, 2) over two `PackB` of type (byte, 2). -/
theorem binary_tree_pack_combines_witness :
    PackNode.binary_tree_pack true PackNode.example_leaves 2 1 5
      = some (.ok (.mk .Op_PackS
          [.NULL,
           .mk .Op_PackB [.NULL, .mk (.raw 1) [] none, .mk (.raw 2) [] none]
             (some ⟨.T_BYTE, 2⟩),
           .mk .Op_PackB [.NULL, .mk (.raw 3) [] none, .mk (.raw 4) [] none]
             (some ⟨.T_BYTE, 2⟩)]
          (some ⟨.T_SHORT, 2⟩))) :=
  (binary_tree_pack_combines true PackNode.example_leaves 1 1 5
    (.mk .Op_PackB [.NULL, .mk (.raw 1) [] none, .mk (.raw 2) [] none] (some ⟨.T_BYTE, 2⟩))
    (.mk .Op_PackB [.NULL, .mk (.raw 3) [] none, .mk (.raw 4) [] none] (some ⟨.T_BYTE, 2⟩))
    .T_BYTE (by decide) (by decide) (by rfl) (by rfl) rfl rfl).1 (by decide)

/-! ## Auxiliary facts on pack trees, node inputs, patterns and shifts -/

/-- Every power of two passes the bit test of `is_power_of_2` at `int`. -/
theorem is_power_of_2_int_two_pow (k : Nat) : is_power_of_2_int (2 ^ k) = true := by
  have h1 : (2:Int)^k = ((2^k : Nat) : Int) := by push_cast; rfl
  have h2 : (2:Int)^k - 1 = ((2^k - 1 : Nat) : Int) := by
    have : 1 ≤ 2^k := Nat.one_le_two_pow
    rw [Nat.cast_sub this]; push_cast; rfl
  unfold is_power_of_2_int
  rw [h2, h1]
  have h3 : Int.land ((2^k : Nat) : Int) ((2^k - 1 : Nat) : Int)
      = ((2^k &&& (2^k - 1) : Nat) : Int) := rfl
  rw [h3, Nat.and_pow_two_sub_one_eq_mod, Nat.mod_self]
  simp

/-- The base case of `PackNode::binary_tree_pack`: over two leaves of a primitive element
type the call returns a pack node of two lanes over these leaves. -/
theorem PackNode.binary_tree_pack_base_case (ASSERT : Bool) (this : Node) (f : Nat) (lo hi : Int)
    (hct : hi - lo = 2) (hp : is_java_primitive this.element_basic_type = true) :
    ∃ opc, is_pack_opcode opc = true ∧
      binary_tree_pack ASSERT this (f + 1) lo hi =
        some (.ok (.mk opc [.NULL, this.in lo.toNat, this.in (lo + 1).toNat]
          (some ⟨this.element_basic_type, 2⟩))) := by
  rw [binary_tree_pack]
  have hpow : is_power_of_2_int 2 = true := by decide
  simp only [hct, hpow, vm_assert_true, if_true]
  cases hb : this.element_basic_type <;> rw [hb] at hp <;>
    first
    | exact absurd hp (by decide)
    | exact ⟨_, by rfl, rfl⟩

/-- The recursive case of `PackNode::binary_tree_pack`: when both halves of a range of
`2 ^ (k + 2)` leaves give nodes of the same primitive element type, the call returns a pack
node of two lanes of the widened element type over these two nodes. -/
theorem PackNode.binary_tree_pack_recursive_case (ASSERT : Bool) (this : Node) (f k : Nat)
    (lo hi : Int) (n1 n2 : Node) (b : BasicType) (hct : hi - lo = 2 ^ (k + 2))
    (h1 : binary_tree_pack ASSERT this f lo (lo + 2 ^ (k + 1)) = some (.ok n1))
    (h2 : binary_tree_pack ASSERT this f (lo + 2 ^ (k + 1)) hi = some (.ok n2))
    (hb1 : n1.element_basic_type = b) (hb2 : n2.element_basic_type = b)
    (hp : is_java_primitive b = true) :
    ∃ opc, is_pack_opcode opc = true ∧
      binary_tree_pack ASSERT this (f + 1) lo hi =
        some (.ok (.mk opc [.NULL, n1, n2] (some ⟨widened b, 2⟩))) := by
  rw [binary_tree_pack]
  have hpow : is_power_of_2_int (2 ^ (k + 2)) = true := is_power_of_2_int_two_pow (k + 2)
  have hne : ¬ ((2 : Int) ^ (k + 2) = 2) := by
    have : (2 : Int) ^ (k + 2) = 4 * 2 ^ k := by ring
    have hk : (0 : Int) < 2 ^ k := by positivity
    omega
  have hdiv : Int.tdiv ((2 : Int) ^ (k + 2)) 2 = 2 ^ (k + 1) := by
    rw [Int.tdiv_eq_ediv (by positivity) (by decide)]
    have : (2 : Int) ^ (k + 2) = 2 ^ (k + 1) * 2 := by ring
    rw [this, Int.mul_ediv_cancel _ (by decide)]
  simp only [hct, hpow, vm_assert_true, hne, if_false, hdiv, h1, h2, hb1, hb2, beq_self_eq_true]
  cases b <;>
    first
    | exact absurd hp (by decide)
    | exact ⟨_, by rfl, rfl⟩

/-- Widening keeps an element type primitive. -/
theorem PackNode.is_java_primitive_widened (k : Nat) (b : BasicType)
    (hp : is_java_primitive b = true) : is_java_primitive (widened^[k] b) = true := by
  induction k with
  | zero => exact hp
  | succ k ih =>
    rw [Function.iterate_succ_apply']
    revert ih
    cases widened^[k] b <;> intro ih <;> first | rfl | exact absurd ih (by decide)

/-- The tree that `PackNode::binary_tree_pack` builds over a range of `2 ^ (k + 1)` leaves of
a primitive element type, when at least `k + 1` nested calls are allowed: the call returns a
node of two lanes whose element type is widened `k` times, the root of a perfectly balanced
tree of depth `k + 1` with `2 ^ (k + 1) - 1` pack nodes whose leaves are the inputs of the
range in order. -/
theorem PackNode.binary_tree_pack_tree (ASSERT : Bool) (this : Node)
    (hp : is_java_primitive this.element_basic_type = true) (k : Nat) :
    ∀ (fuel : Nat) (lo : Int), 0 ≤ lo → k < fuel →
      ∃ node, binary_tree_pack ASSERT this fuel lo (lo + 2 ^ (k + 1)) = some (.ok node) ∧
        node.vect_type = some ⟨widened^[k] this.element_basic_type, 2⟩ ∧
        is_balanced_tree (k + 1) node = true ∧
        count_pack_nodes (k + 1) node = 2 ^ (k + 1) - 1 ∧
        leaves (k + 1) node =
          (List.range (2 ^ (k + 1))).map (fun i => this.in (lo.toNat + i)) := by
  induction k with
  | zero =>
    intro fuel lo hlo hf
    obtain ⟨f, rfl⟩ : ∃ f, fuel = f + 1 := ⟨fuel - 1, by omega⟩
    obtain ⟨opc, hopc, h⟩ :=
      binary_tree_pack_base_case ASSERT this f lo (lo + 2 ^ (0 + 1)) (by norm_num) hp
    have hlo1 : (lo + 1).toNat = lo.toNat + 1 := by omega
    refine ⟨_, h, rfl, ?_, rfl, ?_⟩
    · simp [is_balanced_tree, hopc]
    · simp [leaves, hlo1, List.range_succ]
  | succ k ih =>
    intro fuel lo hlo hf
    obtain ⟨f, rfl⟩ : ∃ f, fuel = f + 1 := ⟨fuel - 1, by omega⟩
    have hpos : (0 : Int) ≤ 2 ^ (k + 1) := by positivity
    obtain ⟨n1, h1, t1, b1, c1, l1⟩ := ih f lo hlo (by omega)
    obtain ⟨n2, h2, t2, b2, c2, l2⟩ := ih f (lo + 2 ^ (k + 1)) (by omega) (by omega)
    have hhi : lo + 2 ^ (k + 1) + 2 ^ (k + 1) = lo + 2 ^ (k + 1 + 1) := by ring
    rw [hhi] at h2
    obtain ⟨opc, hopc, h⟩ :=
      binary_tree_pack_recursive_case ASSERT this f k lo (lo + 2 ^ (k + 1 + 1)) n1 n2
        (widened^[k] this.element_basic_type) (by ring) h1 h2
        (by simp [Node.element_basic_type, t1]) (by simp [Node.element_basic_type, t2])
        (is_java_primitive_widened k _ hp)
    have hmid : (lo + 2 ^ (k + 1)).toNat = lo.toNat + 2 ^ (k + 1) := by
      have : ((2 : Int) ^ (k + 1)) = ((2 ^ (k + 1) : Nat) : Int) := by push_cast; rfl
      rw [this, Int.toNat_add_nat hlo]
    have htwo : 2 ^ (k + 1 + 1) = 2 ^ (k + 1) + 2 ^ (k + 1) := by ring
    refine ⟨_, h, ?_, ?_, ?_, ?_⟩
    · rw [Function.iterate_succ_apply']; rfl
    · simp [is_balanced_tree, hopc, b1, b2]
    · have hge : 1 ≤ 2 ^ (k + 1) := Nat.one_le_two_pow
      simp only [count_pack_nodes, c1, c2]
      omega
    · simp only [leaves, l1, l2, hmid]
      rw [htwo, List.range_add, List.map_append, List.map_map]
      congr 1
      apply List.map_congr_left
      intro i _
      simp [Nat.add_assoc]

/-- An input of a node is no larger than the node. -/
theorem Node.sizeOf_in_le (n : Node) (i : Nat) : sizeOf (n.in i) ≤ sizeOf n := by
  cases n with
  | NULL => exact Nat.le_refl _
  | mk opc ins vt =>
    show sizeOf (ins.getD i .NULL) ≤ _
    by_cases h : i < ins.length
    · have hm : ins.getD i .NULL ∈ ins := by
        rw [List.getD_eq_getElem _ _ h]; exact List.getElem_mem _
      have := List.sizeOf_lt_of_mem hm
      simp only [Node.mk.sizeOf_spec]
      omega
    · rw [List.getD_eq_default _ _ (by omega)]
      simp only [Node.mk.sizeOf_spec, Node.NULL.sizeOf_spec]
      omega

/-- An input of a node other than `NULL` is smaller than the node. -/
theorem Node.sizeOf_in_lt (opc : Opcodes) (ins : List Node) (vt : Option TypeVect) (i : Nat) :
    sizeOf ((Node.mk opc ins vt).in i) < sizeOf (Node.mk opc ins vt) := by
  show sizeOf (ins.getD i .NULL) < _
  by_cases h : i < ins.length
  · have hm : ins.getD i .NULL ∈ ins := by
      rw [List.getD_eq_getElem _ _ h]; exact List.getElem_mem _
    have := List.sizeOf_lt_of_mem hm
    simp only [Node.mk.sizeOf_spec]
    omega
  · rw [List.getD_eq_default _ _ (by omega)]
    have : 1 ≤ sizeOf ins := by
      cases ins with
      | nil => simp
      | cons a l => simp only [List.cons.sizeOf_spec]; omega
    simp only [Node.mk.sizeOf_spec, Node.NULL.sizeOf_spec]
    omega

/-- No node other than `NULL` is an input of one of its own inputs: the nodes of this
development are trees. -/
theorem Node.in_in_ne (opc : Opcodes) (ins : List Node) (vt : Option TypeVect) (i j : Nat) :
    ((Node.mk opc ins vt).in i).in j ≠ Node.mk opc ins vt := by
  intro h
  have h1 := Node.sizeOf_in_le ((Node.mk opc ins vt).in i) j
  have h2 := Node.sizeOf_in_lt opc ins vt i
  rw [h] at h1
  omega

/-- The test `Type::cmp(t1, t2) == 0` decides structural equality. -/
theorem Type_.cmp_eq_zero (t1 t2 : Type_) : (Type_.cmp t1 t2 == 0) = decide (t1 = t2) := by
  unfold Type_.cmp
  by_cases h : t1 = t2 <;> simp [h]

/-- The test `is_con_M1` holds exactly of a constant node whose type is the int constant -1
or the long constant -1. -/
theorem is_con_M1_iff (G : NodeEnv) (c : Node) :
    is_con_M1 G c = true ↔
      G.is_Con c = true ∧
        (c.bottom_type G = .con (.int (-1)) ∨ c.bottom_type G = .con (.long (-1))) := by
  unfold is_con_M1
  cases hc : G.is_Con c
  · simp
  · cases ht : c.bottom_type G with
    | con t => cases t <;> simp [Type_.isa_int, Type_.isa_long, Type_.get_con]
    | vect vt => simp [Type_.isa_int, Type_.isa_long, Type_.get_con]
    | other k => simp [Type_.isa_int, Type_.isa_long, Type_.get_con]

/-- The test `VectorNode::is_all_ones_vector` holds exactly of a byte, short, int or long
broadcast whose input 1 passes `is_con_M1`. -/
theorem VectorNode.is_all_ones_vector_iff (G : NodeEnv) (m : Node) :
    VectorNode.is_all_ones_vector G m = true ↔
      m.Opcode ∈ [Opcodes.Op_ReplicateB, .Op_ReplicateS, .Op_ReplicateI, .Op_ReplicateL] ∧
        is_con_M1 G (m.in 1) = true := by
  unfold VectorNode.is_all_ones_vector
  cases m.Opcode with
  | raw k => simp
  | _ => simp

set_option maxHeartbeats 4000000 in
/-- The shift check holds of every call of the resolver. -/
theorem VectorNode.shift_check_eq_true (ASSERT : Bool) (opc : Opcodes) (bt : BasicType) :
    VectorNode.shift_check ASSERT opc bt = true := by
  cases opc with
  | raw n =>
    unfold VectorNode.shift_check
    rw [VectorNode.opcode_raw]
    rfl
  | _ => cases bt <;> cases ASSERT <;> rfl

/-- On an opcode between the marks, `VectorNode::is_vector_shift` returns what
`VectorNode::is_vshift` returns on a node of that opcode. -/
theorem VectorNode.is_vector_shift_eq (ASSERT : Bool) (last_machine_leaf last_opcode : Int)
    (n : Node)
    (hv : VectorNode.valid_opcode last_machine_leaf last_opcode n.Opcode = true) :
    VectorNode.is_vector_shift ASSERT last_machine_leaf last_opcode n.Opcode
      = .ok (VectorNode.is_vshift n) := by
  unfold VectorNode.is_vector_shift VectorNode.is_vshift
  rw [hv, vm_assert_true]
  cases n.Opcode <;> rfl

/-- A value of which `VectorNode::is_vector_shift` returns true is the opcode of a vector
shift. -/
theorem VectorNode.is_vshift_of_is_vector_shift (ASSERT : Bool)
    (last_machine_leaf last_opcode : Int) (v : Opcodes)
    (h : VectorNode.is_vector_shift ASSERT last_machine_leaf last_opcode v = .ok true) :
    VectorNode.is_vshift (.mk v [] none) = true := by
  unfold VectorNode.is_vector_shift at h
  cases hq : vm_assert ASSERT (VectorNode.valid_opcode last_machine_leaf last_opcode v) with
  | error e => rw [hq] at h; cases h
  | ok u =>
    rw [hq] at h
    cases v <;> first | rfl | cases h

/-- On the opcode of a vector shift `VectorNode::is_vector_shift` returns true. -/
theorem VectorNode.is_vector_shift_of_is_vshift (ASSERT : Bool)
    (last_machine_leaf last_opcode : Int) (v : Opcodes)
    (h : VectorNode.is_vshift (.mk v [] none) = true) :
    VectorNode.is_vector_shift ASSERT last_machine_leaf last_opcode v = .ok true := by
  have hv : VectorNode.valid_opcode last_machine_leaf last_opcode v = true := by
    cases v with
    | raw k => cases h
    | _ => rfl
  have := VectorNode.is_vector_shift_eq ASSERT last_machine_leaf last_opcode (.mk v [] none) hv
  rw [h] at this
  exact this

/-- On a case label of its `switch`, `VectorNode::shift_count` builds a shift-count node. -/
theorem VectorNode.shift_count_of_case_label (opc : Opcodes) (cnt : Node) (vlen : Nat)
    (bt : BasicType) (h : opc ∈ VectorNode.shift_count_case_labels) :
    ∃ node, VectorNode.shift_count opc cnt vlen bt = .ok node ∧
      (node.Opcode = .Op_LShiftCntV ∨ node.Opcode = .Op_RShiftCntV) := by
  simp only [VectorNode.shift_count_case_labels, List.mem_cons, List.mem_singleton,
    List.not_mem_nil, or_false] at h
  rcases h with rfl | rfl | rfl | rfl | rfl | rfl | rfl | rfl
  · exact ⟨_, rfl, Or.inl rfl⟩
  · exact ⟨_, rfl, Or.inl rfl⟩
  all_goals exact ⟨_, rfl, Or.inr rfl⟩

/-! ## The claims on pack trees, identity simplifications, patterns and shifts -/

/-- C21 (counterexample): over the four byte leaves at positions 1 to 4,
`PackNode::binary_tree_pack(1, 5)` returns a node whose vector type is (short, 2): it has 2
lanes, not the 4 lanes of the range. -/
theorem binary_tree_pack_lanes_counterexample :
    ∃ node, PackNode.binary_tree_pack true PackNode.example_leaves 2 1 (1 + 4)
        = some (.ok node) ∧
      node.vect_type = some ⟨.T_SHORT, 2⟩ ∧
      ¬ (node.vect_type.map TypeVect.length = some 4) := by
  refine ⟨_, rfl, ?_, ?_⟩
  · rfl
  · decide

/-- C21 (amended): for every power of two `N = 2 ^ (k + 1)` and every range `[lo, lo + N)`
of input positions of a node of a primitive element type, `PackNode::binary_tree_pack(lo,
lo + N)` returns (more than `k` nested calls being allowed) a node whose vector type has 2
lanes, whatever `N` is; its element type is the element type of the leaves widened `k` times
(boolean and byte to short, char and short to int, int to long, float to double, long and
double kept).  The lane count equals `N` only for `N = 2`. -/
theorem binary_tree_pack_two_lanes (ASSERT : Bool) (this : Node) (k fuel : Nat) (lo : Int)
    (hp : is_java_primitive this.element_basic_type = true) (hlo : 0 ≤ lo)
    (hf : k < fuel) :
    ∃ node, PackNode.binary_tree_pack ASSERT this fuel lo (lo + 2 ^ (k + 1))
        = some (.ok node) ∧
      node.vect_type
        = some (TypeVect.make (PackNode.widened^[k] this.element_basic_type) 2) ∧
      (node.vect_type.map TypeVect.length = some (2 ^ (k + 1)) ↔ k = 0) := by
  obtain ⟨node, h, ht, -, -, -⟩ := PackNode.binary_tree_pack_tree ASSERT this hp k fuel lo hlo hf
  refine ⟨node, h, ht, ?_⟩
  rw [ht]
  simp only [Option.map_some', Option.some.injEq]
  constructor
  · intro h2
    have h3 : (2 : Nat) ^ (k + 1) = 2 ^ 1 := by rw [← h2]; rfl
    have := Nat.pow_right_injective (le_refl 2) h3
    omega
  · rintro rfl
    rfl

/-- Witness of C21 (amended) at the four byte leaves at positions 1 to 4 in a debug build. -/
theorem binary_tree_pack_two_lanes_witness :
    ∃ node, PackNode.binary_tree_pack true PackNode.example_leaves 2 1 (1 + 2 ^ (1 + 1))
        = some (.ok node) ∧
      node.vect_type
        = some (TypeVect.make
            (PackNode.widened^[1] PackNode.example_leaves.element_basic_type) 2) ∧
      (node.vect_type.map TypeVect.length = some (2 ^ (1 + 1)) ↔ 1 = 0) :=
  binary_tree_pack_two_lanes true PackNode.example_leaves 1 2 1 (by decide) (by decide)
    (by decide)

/-- C23: `VectorReinterpretNode::Identity` returns the innermost operand `in(1)->in(1)` if and
only if `in(1)` is itself a `VectorReinterpret` node and the type of the node equals the type
of the innermost operand; in every other case it returns the node itself.  In particular the
reinterpretation to `T` of the reinterpretation to `T` of a value `x` of type `T` is simplified
to `x` by one call (the function does not call itself). -/
theorem reinterpret_identity (G : NodeEnv) (opc : Opcodes) (ins : List Node)
    (vt : Option TypeVect) :
    (VectorReinterpretNode.Identity G (.mk opc ins vt) = ((Node.mk opc ins vt).in 1).in 1 ↔
      (((Node.mk opc ins vt).in 1).Opcode = .Op_VectorReinterpret ∧
        (Node.mk opc ins vt).bottom_type G
          = (((Node.mk opc ins vt).in 1).in 1).bottom_type G)) ∧
    (¬ (((Node.mk opc ins vt).in 1).Opcode = .Op_VectorReinterpret ∧
        (Node.mk opc ins vt).bottom_type G
          = (((Node.mk opc ins vt).in 1).in 1).bottom_type G) →
      VectorReinterpretNode.Identity G (.mk opc ins vt) = .mk opc ins vt) ∧
    (∀ (x : Node) (T : TypeVect), x.bottom_type G = .vect T →
      VectorReinterpretNode.Identity G
        (VectorNode.new_node .Op_VectorReinterpret
          [VectorNode.new_node .Op_VectorReinterpret [x] T] T) = x) := by
  have hne := Node.in_in_ne opc ins vt 1 1
  refine ⟨?_, ?_, ?_⟩
  · unfold VectorReinterpretNode.Identity
    simp only [Type_.cmp_eq_zero, beq_iff_eq, decide_eq_true_eq]
    by_cases h1 : ((Node.mk opc ins vt).in 1).Opcode = .Op_VectorReinterpret
    · by_cases h2 : (Node.mk opc ins vt).bottom_type G
          = (((Node.mk opc ins vt).in 1).in 1).bottom_type G
      · simp [h1, h2]
      · simp only [h1, h2, if_true, if_false, and_false, iff_false]
        exact fun h => hne h.symm
    · simp only [h1, if_false, false_and, iff_false]
      exact fun h => hne h.symm
  · intro h
    unfold VectorReinterpretNode.Identity
    simp only [Type_.cmp_eq_zero, beq_iff_eq, decide_eq_true_eq]
    by_cases h1 : ((Node.mk opc ins vt).in 1).Opcode = .Op_VectorReinterpret
    · have h2 : ¬ ((Node.mk opc ins vt).bottom_type G
          = (((Node.mk opc ins vt).in 1).in 1).bottom_type G) := fun h2 => h ⟨h1, h2⟩
      simp [h1, h2]
    · simp [h1]
  · intro x T hx
    unfold VectorReinterpretNode.Identity
    have e1 : (VectorNode.new_node .Op_VectorReinterpret
        [VectorNode.new_node .Op_VectorReinterpret [x] T] T).in 1
          = VectorNode.new_node .Op_VectorReinterpret [x] T := rfl
    have e2 : (VectorNode.new_node .Op_VectorReinterpret [x] T).in 1 = x := rfl
    have e3 : (VectorNode.new_node .Op_VectorReinterpret
        [VectorNode.new_node .Op_VectorReinterpret [x] T] T).bottom_type G = .vect T := rfl
    have e4 : (VectorNode.new_node .Op_VectorReinterpret [x] T).Opcode
        = .Op_VectorReinterpret := rfl
    simp only [e1, e2, e3, e4, hx, Type_.cmp_eq_zero]
    simp

/-- C24 (counterexample): an int broadcast of type (int, 4) is reinterpreted to (float, 4) and
that node to (float, 4) again: the outer and the inner node have the same target type, yet
`VectorReinterpretNode::Identity` returns the outer node itself, not the innermost operand. -/
theorem reinterpret_same_target_counterexample :
    (VectorReinterpretNode.example_pair.in 1).Opcode = .Op_VectorReinterpret ∧
    VectorReinterpretNode.example_pair.vect_type
      = (VectorReinterpretNode.example_pair.in 1).vect_type ∧
    (VectorReinterpretNode.example_pair.in 1).in 1 = VectorReinterpretNode.example_operand ∧
    VectorReinterpretNode.Identity NodeEnv.plain VectorReinterpretNode.example_pair
      = VectorReinterpretNode.example_pair ∧
    VectorReinterpretNode.Identity NodeEnv.plain VectorReinterpretNode.example_pair
      ≠ VectorReinterpretNode.example_operand := by
  refine ⟨rfl, rfl, rfl, rfl, ?_⟩
  intro h
  have h2 : VectorReinterpretNode.Identity NodeEnv.plain VectorReinterpretNode.example_pair
      = VectorReinterpretNode.example_pair := rfl
  rw [h2] at h
  have := congrArg Node.Opcode h
  exact absurd this (by decide)

/-- C24 (amended): for every reinterpret node whose input is itself a reinterpret node,
`VectorReinterpretNode::Identity` collapses the pair to the innermost operand if the target
type of the outer node equals the type of the innermost operand, and returns the outer node
unchanged otherwise; the target type of the inner node plays no part. -/
theorem reinterpret_collapses_on_operand_type (G : NodeEnv) (x : Node)
    (T_inner T_outer : TypeVect) :
    (x.bottom_type G = .vect T_outer →
      VectorReinterpretNode.Identity G
        (VectorNode.new_node .Op_VectorReinterpret
          [VectorNode.new_node .Op_VectorReinterpret [x] T_inner] T_outer) = x) ∧
    (x.bottom_type G ≠ .vect T_outer →
      VectorReinterpretNode.Identity G
        (VectorNode.new_node .Op_VectorReinterpret
          [VectorNode.new_node .Op_VectorReinterpret [x] T_inner] T_outer)
        = VectorNode.new_node .Op_VectorReinterpret
            [VectorNode.new_node .Op_VectorReinterpret [x] T_inner] T_outer) := by
  have e1 : (VectorNode.new_node .Op_VectorReinterpret
      [VectorNode.new_node .Op_VectorReinterpret [x] T_inner] T_outer).in 1
        = VectorNode.new_node .Op_VectorReinterpret [x] T_inner := rfl
  have e2 : (VectorNode.new_node .Op_VectorReinterpret [x] T_inner).in 1 = x := rfl
  have e3 : (VectorNode.new_node .Op_VectorReinterpret
      [VectorNode.new_node .Op_VectorReinterpret [x] T_inner] T_outer).bottom_type G
        = .vect T_outer := rfl
  have e4 : (VectorNode.new_node .Op_VectorReinterpret [x] T_inner).Opcode
      = .Op_VectorReinterpret := rfl
  constructor <;> intro hx <;> unfold VectorReinterpretNode.Identity <;>
    simp only [e1, e2, e3, e4, Type_.cmp_eq_zero]
  · simp [hx]
  · have hx2 : ¬ (Type_.vect T_outer = x.bottom_type G) := fun h => hx h.symm
    simp [hx2]

/-- C25: `VectorUnboxNode::Identity` returns the `Value` operand of the box when the flag
`EnableVectorReboxing` is on, the object input of the unbox node stripped of its casts is a
`VectorBox` node, and the type of the unbox node equals the type of that operand; in every
other case, and always when the flag is off, it returns the unbox node itself.  When that
operand is a node other than the unbox node, it is returned if and only if the three
conditions hold. -/
theorem unbox_identity (G : NodeEnv) (EnableVectorReboxing : Bool) (this : Node) :
    ((EnableVectorReboxing = true ∧ (G.uncast (G.obj this)).Opcode = .Op_VectorBox ∧
        this.bottom_type G
          = ((G.uncast (G.obj this)).in G.VectorBoxNode_Value).bottom_type G) →
      VectorUnboxNode.Identity G EnableVectorReboxing this
        = (G.uncast (G.obj this)).in G.VectorBoxNode_Value) ∧
    (¬ (EnableVectorReboxing = true ∧ (G.uncast (G.obj this)).Opcode = .Op_VectorBox ∧
        this.bottom_type G
          = ((G.uncast (G.obj this)).in G.VectorBoxNode_Value).bottom_type G) →
      VectorUnboxNode.Identity G EnableVectorReboxing this = this) ∧
    VectorUnboxNode.Identity G false this = this ∧
    ((G.uncast (G.obj this)).in G.VectorBoxNode_Value ≠ this →
      (VectorUnboxNode.Identity G EnableVectorReboxing this
          = (G.uncast (G.obj this)).in G.VectorBoxNode_Value ↔
        (EnableVectorReboxing = true ∧ (G.uncast (G.obj this)).Opcode = .Op_VectorBox ∧
          this.bottom_type G
            = ((G.uncast (G.obj this)).in G.VectorBoxNode_Value).bottom_type G))) := by
  have key : VectorUnboxNode.Identity G EnableVectorReboxing this
      = if (EnableVectorReboxing = true ∧ (G.uncast (G.obj this)).Opcode = .Op_VectorBox ∧
          this.bottom_type G
            = ((G.uncast (G.obj this)).in G.VectorBoxNode_Value).bottom_type G)
        then (G.uncast (G.obj this)).in G.VectorBoxNode_Value else this := by
    unfold VectorUnboxNode.Identity
    simp only [Type_.cmp_eq_zero, Bool.and_eq_true, beq_iff_eq, decide_eq_true_eq]
    by_cases h1 : EnableVectorReboxing = true ∧
        (G.uncast (G.obj this)).Opcode = .Op_VectorBox
    · by_cases h2 : this.bottom_type G
          = ((G.uncast (G.obj this)).in G.VectorBoxNode_Value).bottom_type G
      · rw [if_pos h1, if_pos h2, if_pos ⟨h1.1, h1.2, h2⟩]
      · rw [if_pos h1, if_neg h2, if_neg (fun h => h2 h.2.2)]
    · rw [if_neg h1, if_neg (fun h => h1 ⟨h.1, h.2.1⟩)]
  refine ⟨fun h => ?_, fun h => ?_, rfl, fun hne => ?_⟩
  · rw [key, if_pos h]
  · rw [key, if_neg h]
  · rw [key]
    constructor
    · intro h
      by_contra hc
      rw [if_neg hc] at h
      exact hne h.symm
    · intro h
      rw [if_pos h]

/-- C26: `VectorNode::is_vector_bitwise_not_pattern(n)` is true exactly when `n` is an `XorV`
node and one of its inputs 1 and 2 is a `ReplicateB`, `ReplicateS`, `ReplicateI` or
`ReplicateL` node whose input 1 is a constant node of type int -1 or long -1.  It is false on
every node that is not an `XorV`; `is_all_ones_vector` is false on float and double
broadcasts and on a broadcast of a node that is not a constant. -/
theorem bitwise_not_pattern_iff (G : NodeEnv) (n : Node) :
    (VectorNode.is_vector_bitwise_not_pattern G n = true ↔
      n.Opcode = .Op_XorV ∧
        ∃ m, (m = n.in 1 ∨ m = n.in 2) ∧
          m.Opcode ∈ [Opcodes.Op_ReplicateB, .Op_ReplicateS, .Op_ReplicateI, .Op_ReplicateL] ∧
          G.is_Con (m.in 1) = true ∧
          ((m.in 1).bottom_type G = .con TypeInt.MINUS_1 ∨
            (m.in 1).bottom_type G = .con TypeLong.MINUS_1)) ∧
    (n.Opcode ≠ .Op_XorV → VectorNode.is_vector_bitwise_not_pattern G n = false) ∧
    (∀ m, m.Opcode = .Op_ReplicateF ∨ m.Opcode = .Op_ReplicateD →
      VectorNode.is_all_ones_vector G m = false) ∧
    (∀ m, G.is_Con (m.in 1) = false → VectorNode.is_all_ones_vector G m = false) := by
  have hpat : VectorNode.is_vector_bitwise_not_pattern G n = true ↔
      n.Opcode = .Op_XorV ∧ (VectorNode.is_all_ones_vector G (n.in 1) = true ∨
        VectorNode.is_all_ones_vector G (n.in 2) = true) := by
    unfold VectorNode.is_vector_bitwise_not_pattern
    by_cases h : n.Opcode = .Op_XorV
    · simp [h]
    · simp [h]
  refine ⟨?_, ?_, ?_, ?_⟩
  · rw [hpat]
    simp only [VectorNode.is_all_ones_vector_iff, is_con_M1_iff, TypeInt.MINUS_1,
      TypeLong.MINUS_1]
    constructor
    · rintro ⟨h, h1 | h2⟩
      · exact ⟨h, _, Or.inl rfl, h1.1, h1.2.1, h1.2.2⟩
      · exact ⟨h, _, Or.inr rfl, h2.1, h2.2.1, h2.2.2⟩
    · rintro ⟨h, m, rfl | rfl, h1, h2, h3⟩
      · exact ⟨h, Or.inl ⟨h1, h2, h3⟩⟩
      · exact ⟨h, Or.inr ⟨h1, h2, h3⟩⟩
  · intro h
    cases hv : VectorNode.is_vector_bitwise_not_pattern G n
    · rfl
    · exact absurd (hpat.1 hv).1 h
  · intro m hm
    cases hv : VectorNode.is_all_ones_vector G m
    · rfl
    · have := ((VectorNode.is_all_ones_vector_iff G m).1 hv).1
      rcases hm with hm | hm <;> rw [hm] at this <;> exact absurd this (by decide)
  · intro m hm
    cases hv : VectorNode.is_all_ones_vector G m
    · rfl
    · have := ((is_con_M1_iff G _).1 ((VectorNode.is_all_ones_vector_iff G m).1 hv).2).1
      rw [hm] at this
      exact absurd this (by decide)

/-- C27: the shift predicates agree with the resolver.  `VectorNode::is_vector_shift` on the
opcode of a node (an opcode between the marks of its assertion) returns what
`VectorNode::is_vshift` returns on the node; for a scalar opcode accepted by `is_shift`, every
value that `VectorNode::opcode` returns is 0 or an opcode of which `is_vector_shift` is true,
and a value is returned for the int shifts with element type boolean, byte, char, short or
int and for the long shifts with element type long; and whenever (`opc`, `bt`) resolves to an
opcode of which `is_vector_shift` is true, `VectorNode::shift_count(opc, cnt, vlen, bt)`
builds a shift-count node. -/
theorem shift_predicates_agree (ASSERT : Bool) (last_machine_leaf last_opcode : Int)
    (n cnt : Node) (vlen : Nat) (bt : BasicType) :
    (VectorNode.valid_opcode last_machine_leaf last_opcode n.Opcode = true →
      VectorNode.is_vector_shift ASSERT last_machine_leaf last_opcode n.Opcode
        = .ok (VectorNode.is_vshift n)) ∧
    (VectorNode.is_shift n = true → ∀ v, VectorNode.opcode ASSERT n.Opcode bt = .ok v →
      v = 0 ∨ VectorNode.is_vector_shift ASSERT last_machine_leaf last_opcode v = .ok true) ∧
    ((n.Opcode ∈ [Opcodes.Op_LShiftI, .Op_RShiftI, .Op_URShiftI] ∧
        bt ∈ [BasicType.T_BOOLEAN, .T_BYTE, .T_CHAR, .T_SHORT, .T_INT]) ∨
      (n.Opcode ∈ [Opcodes.Op_LShiftL, .Op_RShiftL, .Op_URShiftL] ∧ bt = .T_LONG) →
      VectorNode.is_shift n = true ∧
      ∃ v, VectorNode.opcode ASSERT n.Opcode bt = .ok v) ∧
    (∀ opc v, VectorNode.opcode ASSERT opc bt = .ok v →
      VectorNode.is_vector_shift ASSERT last_machine_leaf last_opcode v = .ok true →
      ∃ node, VectorNode.shift_count opc cnt vlen bt = .ok node ∧
        (node.Opcode = .Op_LShiftCntV ∨ node.Opcode = .Op_RShiftCntV)) := by
  refine ⟨fun hv => VectorNode.is_vector_shift_eq ASSERT _ _ n hv, ?_, ?_, ?_⟩
  · intro hs v hop
    have hc := VectorNode.shift_check_eq_true ASSERT n.Opcode bt
    unfold VectorNode.shift_check at hc
    rw [hop] at hc
    have hs2 : VectorNode.is_shift (.mk n.Opcode [] none) = true := hs
    simp only [hs2, Bool.and_eq_true, Bool.or_eq_true, Bool.not_true, Bool.false_or,
      beq_iff_eq] at hc
    rcases hc.1 with h0 | hvs
    · exact Or.inl h0
    · exact Or.inr (VectorNode.is_vector_shift_of_is_vshift ASSERT _ _ v hvs)
  · intro h
    have e : VectorNode.is_shift n = VectorNode.is_shift (.mk n.Opcode [] none) := rfl
    rw [e]
    simp only [List.mem_cons, List.mem_singleton, List.not_mem_nil, or_false] at h
    rcases h with ⟨ho, hb⟩ | ⟨ho, hb⟩
    · rcases ho with ho | ho | ho <;> rw [ho] <;>
        rcases hb with rfl | rfl | rfl | rfl | rfl <;> cases ASSERT <;>
          exact ⟨rfl, _, rfl⟩
    · subst hb
      rcases ho with ho | ho | ho <;> rw [ho] <;> cases ASSERT <;> exact ⟨rfl, _, rfl⟩
  · intro opc v hop hvs
    have hc := VectorNode.shift_check_eq_true ASSERT opc bt
    unfold VectorNode.shift_check at hc
    rw [hop] at hc
    have h1 := VectorNode.is_vshift_of_is_vector_shift ASSERT _ _ v hvs
    simp only [h1, Bool.and_eq_true, Bool.or_eq_true, Bool.not_true, Bool.false_or,
      decide_eq_true_eq] at hc
    exact VectorNode.shift_count_of_case_label opc cnt vlen bt hc.2

/-- C28: the node returned by `VectorReinterpretNode::Identity` and the node returned by
`VectorUnboxNode::Identity` have the bottom type of the node they replace, and each is the
node itself or one operand: `in(1)->in(1)`, respectively the `Value` input of the box. -/
theorem identities_preserve_type (G : NodeEnv) (EnableVectorReboxing : Bool) (this : Node) :
    (VectorReinterpretNode.Identity G this).bottom_type G = this.bottom_type G ∧
    (VectorReinterpretNode.Identity G this = this ∨
      VectorReinterpretNode.Identity G this = (this.in 1).in 1) ∧
    (VectorUnboxNode.Identity G EnableVectorReboxing this).bottom_type G
      = this.bottom_type G ∧
    (VectorUnboxNode.Identity G EnableVectorReboxing this = this ∨
      VectorUnboxNode.Identity G EnableVectorReboxing this
        = (G.uncast (G.obj this)).in G.VectorBoxNode_Value) := by
  refine ⟨?_, ?_, ?_, ?_⟩
  · unfold VectorReinterpretNode.Identity
    simp only [Type_.cmp_eq_zero, decide_eq_true_eq]
    split
    · split
      · next h => exact h.symm
      · rfl
    · rfl
  · unfold VectorReinterpretNode.Identity
    simp only
    split
    · split
      · exact Or.inr rfl
      · exact Or.inl rfl
    · exact Or.inl rfl
  · unfold VectorUnboxNode.Identity
    simp only [Type_.cmp_eq_zero, decide_eq_true_eq]
    split
    · split
      · next h => exact h.symm
      · rfl
    · rfl
  · unfold VectorUnboxNode.Identity
    simp only
    split
    · split
      · exact Or.inr rfl
      · exact Or.inl rfl
    · exact Or.inl rfl
